import Mathlib

/-! # libvshadow: store handle (seek / read surface)

Shallow embedding of `libvshadow_store.c`.

Conventions of the embedding

* `off64_t` and `ssize_t` are signed 64-bit integers, `size64_t` and `size_t`
  are unsigned 64-bit integers (LP64).  They are modelled by `Int` and `Nat`;
  every place where the C code converts or may overflow is written with an
  explicit reduction modulo `2^64` (`wrap_off64`, `to_size64`, `to_ssize64`).
* A pointer that the C code tests against `NULL` is an `Option`.
* A C function that updates the handle returns the updated handle next to its
  return value; a function that writes through an out-parameter or into the
  caller's buffer returns the new contents of that cell or buffer.
* The error out-parameter `libcerror_error_t **error` only collects messages
  and never influences control flow; it is left out, except in the release of
  the iterator, where `libvshadow_store_blocks_iterator_data_free` tests the
  pointer itself.
-/

/-! ## Machine integers -/

/-- Two's complement reduction of an integer to the signed 64-bit range. -/
def wrap_off64 (x : Int) : Int := (x + 2 ^ 63) % 2 ^ 64 - 2 ^ 63

/-- Conversion of a signed value to `size64_t`: `(size64_t) x`. -/
def to_size64 (x : Int) : Nat := (x % 2 ^ 64).toNat

/-- Conversion of an unsigned value to `ssize_t` / `off64_t`: `(ssize_t) n`. -/
def to_ssize64 (n : Nat) : Int := wrap_off64 (n : Int)

/-- The value is representable as an `off64_t`. -/
def in_off64 (x : Int) : Prop := -(2 ^ 63) ≤ x ∧ x < 2 ^ 63

instance (x : Int) : Decidable (in_off64 x) := by
  unfold in_off64; infer_instance

/-! ## Constants of `<stdio.h>` -/

def SEEK_SET : Int := 0
def SEEK_CUR : Int := 1
def SEEK_END : Int := 2

/-! ## Data model -/

/-- The fields of `libvshadow_store_descriptor_t` that the store handle and the
blocks iterator use. -/
structure libvshadow_store_descriptor where
  index : Int
  volume_size : Nat
  store_block_list_offset : Int
  deriving DecidableEq, Repr

/-- The fields of `libvshadow_internal_volume_t` that the store handle uses. -/
structure libvshadow_internal_volume where
  size : Nat
  store_descriptors_array : List libvshadow_store_descriptor
  deriving DecidableEq, Repr

/-- The store handle `libvshadow_internal_store_t`.  The two IO handles are
opaque references; `internal_volume` is a pointer that may be `NULL`. -/
structure libvshadow_internal_store where
  file_io_handle : Nat
  io_handle : Nat
  internal_volume : Option libvshadow_internal_volume
  store_descriptor_index : Int
  current_offset : Int
  deriving DecidableEq, Repr

/-- `libcdata_array_get_entry_by_index` of the external libcdata library: the
entry when the index lies inside the array, failure otherwise. -/
def libcdata_array_get_entry_by_index {α : Type} (array : List α) (entry_index : Int) :
    Option α :=
  if entry_index < 0 then none else array[entry_index.toNat]?

/-- Signature of `libvshadow_store_descriptor_read_buffer`, whose body is in
`libvshadow_store_descriptor.c`: from the store descriptor, the file IO handle,
the caller's buffer, the requested size, the offset and the active store
descriptor it yields the read count (or `-1`) and the buffer afterwards.  The
store functions take it as a parameter. -/
abbrev store_descriptor_read_buffer_fn : Type :=
  libvshadow_store_descriptor → Nat → List Nat → Nat → Int → libvshadow_store_descriptor →
    Int × List Nat

/-- Modelled from the spec: `libvshadow_store_descriptor_get_volume_size`, the
accessor of `libvshadow_store_descriptor.c`, reports the `volume_size` recorded
in the store descriptor ("shadowed volume's logical size as recorded in the
store header") through the out-parameter and returns 1; a `NULL` out-parameter
is an error. -/
def libvshadow_store_descriptor_get_volume_size
    (store_descriptor : libvshadow_store_descriptor) (volume_size : Option Nat) :
    Int × Option Nat :=
  match volume_size with
  | none => (-1, none)
  | some _ => (1, some store_descriptor.volume_size)

/-! ## Operations of `libvshadow_store.c` -/

/-- The value of the local `offset` of `libvshadow_store_seek_offset` after the
`whence` adjustment (lines 449-456). -/
def seek_offset_adjusted (current_offset : Int) (size : Nat) (offset whence : Int) : Int :=
  if whence = SEEK_CUR then wrap_off64 (offset + current_offset)
  else if whence = SEEK_END then wrap_off64 (offset + to_ssize64 size)
  else offset

/-- `libvshadow_store_seek_offset`: the offset if the seek is successful or -1
on error, and the handle afterwards. -/
def libvshadow_store_seek_offset (store : Option libvshadow_internal_store)
    (offset whence : Int) : Int × Option libvshadow_internal_store :=
  match store with
  | none => (-1, none)
  | some internal_store =>
    match internal_store.internal_volume with
    | none => (-1, store)
    | some internal_volume =>
      if whence ≠ SEEK_CUR ∧ whence ≠ SEEK_END ∧ whence ≠ SEEK_SET then (-1, store)
      else
        let offset := seek_offset_adjusted internal_store.current_offset internal_volume.size
          offset whence
        if offset < 0 then (-1, store)
        else (offset, some { internal_store with current_offset := offset })

/-- `libvshadow_store_get_offset`: 1 and the current offset written through the
out-parameter, or -1. -/
def libvshadow_store_get_offset (store : Option libvshadow_internal_store)
    (offset : Option Int) : Int × Option Int :=
  match store with
  | none => (-1, offset)
  | some internal_store =>
    match internal_store.internal_volume with
    | none => (-1, offset)
    | some _ =>
      match offset with
      | none => (-1, none)
      | some _ => (1, some internal_store.current_offset)

/-- `libvshadow_store_get_volume_size`: the volume size as stored in the store
information. -/
def libvshadow_store_get_volume_size (store : Option libvshadow_internal_store)
    (volume_size : Option Nat) : Int × Option Nat :=
  match store with
  | none => (-1, volume_size)
  | some internal_store =>
    match internal_store.internal_volume with
    | none => (-1, volume_size)
    | some internal_volume =>
      match libcdata_array_get_entry_by_index internal_volume.store_descriptors_array
          internal_store.store_descriptor_index with
      | none => (-1, volume_size)
      | some store_descriptor =>
        let r := libvshadow_store_descriptor_get_volume_size store_descriptor volume_size
        if r.1 ≠ 1 then (-1, r.2) else (1, r.2)

/-- The `buffer_size` handed to the store descriptor: the request, cut at the
end of the volume by the test of line 290 (evaluated in `size64_t`). -/
def read_clamped_size (current_offset : Int) (size buffer_size : Nat) : Nat :=
  if (to_size64 current_offset + buffer_size) % 2 ^ 64 > size then
    size - to_size64 current_offset
  else buffer_size

/-- `libvshadow_store_read_buffer_from_file_io_handle`: the number of bytes
read or -1 on error, the buffer afterwards and the handle afterwards. -/
def libvshadow_store_read_buffer_from_file_io_handle
    (libvshadow_store_descriptor_read_buffer : store_descriptor_read_buffer_fn)
    (store : Option libvshadow_internal_store) (file_io_handle : Nat)
    (buffer : List Nat) (buffer_size : Nat) :
    Int × List Nat × Option libvshadow_internal_store :=
  match store with
  | none => (-1, buffer, none)
  | some internal_store =>
    match internal_store.internal_volume with
    | none => (-1, buffer, store)
    | some internal_volume =>
      if internal_store.current_offset < 0 then (-1, buffer, store)
      else if to_size64 internal_store.current_offset ≥ internal_volume.size then
        (0, buffer, store)
      else
        let buffer_size := read_clamped_size internal_store.current_offset
          internal_volume.size buffer_size
        match libcdata_array_get_entry_by_index internal_volume.store_descriptors_array
            internal_store.store_descriptor_index with
        | none => (-1, buffer, store)
        | some store_descriptor =>
          let r := libvshadow_store_descriptor_read_buffer store_descriptor file_io_handle
            buffer buffer_size internal_store.current_offset store_descriptor
          if r.1 ≠ to_ssize64 buffer_size then (-1, r.2, store)
          else (r.1, r.2, some { internal_store with
            current_offset := wrap_off64 (internal_store.current_offset + r.1) })

/-- `libvshadow_store_read_buffer`: reads at the current offset through the
handle's own file IO handle. -/
def libvshadow_store_read_buffer
    (libvshadow_store_descriptor_read_buffer : store_descriptor_read_buffer_fn)
    (store : Option libvshadow_internal_store) (buffer : List Nat) (buffer_size : Nat) :
    Int × List Nat × Option libvshadow_internal_store :=
  match store with
  | none => (-1, buffer, none)
  | some internal_store =>
    let r := libvshadow_store_read_buffer_from_file_io_handle
      libvshadow_store_descriptor_read_buffer store internal_store.file_io_handle
      buffer buffer_size
    if r.1 ≠ to_ssize64 buffer_size then (-1, r.2.1, r.2.2) else (r.1, r.2.1, r.2.2)

/-- `libvshadow_store_read_random`: reads at a specific offset. -/
def libvshadow_store_read_random
    (libvshadow_store_descriptor_read_buffer : store_descriptor_read_buffer_fn)
    (store : Option libvshadow_internal_store) (buffer : List Nat) (buffer_size : Nat)
    (offset : Int) : Int × List Nat × Option libvshadow_internal_store :=
  match store with
  | none => (-1, buffer, none)
  | some internal_store =>
    let sk := libvshadow_store_seek_offset store offset SEEK_SET
    if sk.1 = -1 then (-1, buffer, sk.2)
    else
      let r := libvshadow_store_read_buffer_from_file_io_handle
        libvshadow_store_descriptor_read_buffer sk.2 internal_store.file_io_handle
        buffer buffer_size
      if r.1 ≤ -1 then (-1, r.2.1, r.2.2) else (r.1, r.2.1, r.2.2)

/-! ## The sequence the specification compares `read_at` with -/

/-- A store descriptor that records a volume size of 100 bytes. -/
def descriptor_100 : libvshadow_store_descriptor :=
  { index := 0, volume_size := 100, store_block_list_offset := 16384 }

/-- A volume of 50 bytes holding `descriptor_100`. -/
def volume_50 : libvshadow_internal_volume :=
  { size := 50, store_descriptors_array := [descriptor_100] }

/-- A handle on `volume_50`, positioned at offset 7. -/
def store_at_7 : libvshadow_internal_store :=
  { file_io_handle := 1, io_handle := 1, internal_volume := some volume_50,
    store_descriptor_index := 0, current_offset := 7 }

/-- A store descriptor read that always delivers the requested number of zero
bytes. -/
def read_in_full : store_descriptor_read_buffer_fn :=
  fun _ _ _ buffer_size _ _ => ((buffer_size : Int), List.replicate buffer_size 0)

/-- A store descriptor read that always fails. -/
def read_failing : store_descriptor_read_buffer_fn :=
  fun _ _ buffer _ _ _ => (-1, buffer)

/-! ## Creation of a handle and sequences of calls -/

/-- `libvshadow_store_initialize`: creates a handle for the store descriptor at
`store_descriptor_index`.  `store` is the caller's `libvshadow_store_t **`: a
`NULL` pointer, a cell that already holds a handle, or an empty cell.  The
structure is cleared (`memory_set` with 0) before the four references are
stored, so the new handle has `current_offset = 0`.  Failure of the memory
allocation is not modelled. -/
def libvshadow_store_initialize (store : Option (Option libvshadow_internal_store))
    (file_io_handle io_handle : Nat) (internal_volume : Option libvshadow_internal_volume)
    (store_descriptor_index : Int) : Int × Option (Option libvshadow_internal_store) :=
  match store with
  | none => (-1, none)
  | some (some _) => (-1, store)
  | some none =>
    match internal_volume with
    | none => (-1, store)
    | some v =>
      match libcdata_array_get_entry_by_index v.store_descriptors_array
          store_descriptor_index with
      | none => (-1, store)
      | some _ =>
        (1, some (some {
          file_io_handle := file_io_handle
          io_handle := io_handle
          internal_volume := some v
          store_descriptor_index := store_descriptor_index
          current_offset := 0 }))

/-- One call of the seek / read surface of a handle, with its arguments. -/
inductive store_call where
  | seek_offset (offset whence : Int)
  | read_buffer (buffer : List Nat) (buffer_size : Nat)
  | read_buffer_from_file_io_handle (file_io_handle : Nat) (buffer : List Nat)
      (buffer_size : Nat)
  | read_random (buffer : List Nat) (buffer_size : Nat) (offset : Int)
  deriving DecidableEq, Repr

/-- The handle after one call, whatever the call returned. -/
def store_call_apply (read : store_descriptor_read_buffer_fn)
    (store : Option libvshadow_internal_store) : store_call → Option libvshadow_internal_store
  | .seek_offset offset whence => (libvshadow_store_seek_offset store offset whence).2
  | .read_buffer buffer buffer_size =>
    (libvshadow_store_read_buffer read store buffer buffer_size).2.2
  | .read_buffer_from_file_io_handle file_io_handle buffer buffer_size =>
    (libvshadow_store_read_buffer_from_file_io_handle read store file_io_handle buffer
      buffer_size).2.2
  | .read_random buffer buffer_size offset =>
    (libvshadow_store_read_random read store buffer buffer_size offset).2.2

/-- The handle after a sequence of calls. -/
def store_calls_run (read : store_descriptor_read_buffer_fn)
    (store : Option libvshadow_internal_store) (calls : List store_call) :
    Option libvshadow_internal_store :=
  calls.foldl (store_call_apply read) store

/-- The arguments of a call are values of their C types: offsets are `off64_t`
and buffer sizes are `size_t`. -/
def store_call_in_range : store_call → Prop
  | .seek_offset offset _ => in_off64 offset
  | .read_buffer _ buffer_size => buffer_size < 2 ^ 64
  | .read_buffer_from_file_io_handle _ _ buffer_size => buffer_size < 2 ^ 64
  | .read_random _ buffer_size offset => buffer_size < 2 ^ 64 ∧ in_off64 offset

/-- A volume of `2^64 - 1` bytes holding `descriptor_100`. -/
def volume_max : libvshadow_internal_volume :=
  { size := 2 ^ 64 - 1, store_descriptors_array := [descriptor_100] }

/-- A volume of `2^63 + 10` bytes holding `descriptor_100`. -/
def volume_above_off64 : libvshadow_internal_volume :=
  { size := 2 ^ 63 + 10, store_descriptors_array := [descriptor_100] }

/-- A store descriptor read that reports the requested size, converted to
`ssize_t`, as its count and writes the requested size into the buffer. -/
def read_reporting_size : store_descriptor_read_buffer_fn :=
  fun _ _ _ buffer_size _ _ => (to_ssize64 buffer_size, [buffer_size])

/-- The handle is attached to the volume `v` and its current offset is a
non-negative `off64_t`. -/
def store_offset_valid (v : libvshadow_internal_volume) (s : libvshadow_internal_store) :
    Prop :=
  s.internal_volume = some v ∧ 0 ≤ s.current_offset ∧ s.current_offset < 2 ^ 63

/-- A handle on `volume_max`, positioned at offset 0. -/
def store_on_volume_max : libvshadow_internal_store :=
  { file_io_handle := 1, io_handle := 1, internal_volume := some volume_max,
    store_descriptor_index := 0, current_offset := 0 }

/-- A handle on `volume_above_off64`, positioned at offset 0. -/
def store_on_volume_above_off64 : libvshadow_internal_store :=
  { file_io_handle := 1, io_handle := 1, internal_volume := some volume_above_off64,
    store_descriptor_index := 0, current_offset := 0 }

/-! ## Block range descriptor (`libvshadow_block_range_descriptor.c`) -/

/-- `SSIZE_MAX` of `<limits.h>` (LP64). -/
def SSIZE_MAX : Nat := 2 ^ 63 - 1

/-- The empty block range list entry: 24 zero bytes. -/
def vshadow_empty_store_block_range_list_entry : List Nat := List.replicate 24 0

/-- Modelled from the spec: `sizeof( vshadow_store_block_range_list_entry_t )`,
declared in `vshadow_store.h`; the block-range list entry has 24 bytes. -/
def sizeof_vshadow_store_block_range_list_entry : Nat := 24

/-- Modelled from the spec: the layout `vshadow_store_block_range_list_entry_t`
of `vshadow_store.h`, three consecutive 8-byte fields `offset`,
`relative_offset` and `size`; this is the byte stream of the field that starts
`start` bytes into the entry. -/
def vshadow_store_block_range_list_entry_field (data : List Nat) (start : Nat) : List Nat :=
  (data.drop start).take 8

/-- Modelled from the spec: the macro `byte_stream_copy_to_uint64_little_endian`
of `byte_stream.h` reads an unsigned 64-bit value from 8 bytes, least
significant byte first. -/
def byte_stream_copy_to_uint64_little_endian (byte_stream : List Nat) : Nat :=
  (byte_stream.take 8).foldr (fun byte value => byte + 256 * value) 0 % 2 ^ 64

/-- The fields of `libvshadow_block_range_descriptor_t` that
`libvshadow_block_range_descriptor_read` sets; they hold unsigned 64-bit
values. -/
structure libvshadow_block_range_descriptor where
  offset : Nat
  relative_offset : Nat
  size : Nat
  deriving DecidableEq, Repr

/-- `libvshadow_block_range_descriptor_read`: 1 if successful, 0 if the block
list entry is empty or -1 on error, and the descriptor afterwards.
`block_list_entry_data` is the memory that the data pointer addresses (`none`
for `NULL`); the function compares and decodes its first 24 bytes whatever
`block_list_entry_size` says. -/
def libvshadow_block_range_descriptor_read
    (block_range_descriptor : Option libvshadow_block_range_descriptor)
    (block_list_entry_data : Option (List Nat)) (block_list_entry_size : Nat)
    (_store_index : Int) : Int × Option libvshadow_block_range_descriptor :=
  match block_range_descriptor with
  | none => (-1, none)
  | some _ =>
    match block_list_entry_data with
    | none => (-1, block_range_descriptor)
    | some data =>
      if block_list_entry_size > SSIZE_MAX then (-1, block_range_descriptor)
      else if data.take sizeof_vshadow_store_block_range_list_entry =
          vshadow_empty_store_block_range_list_entry then (0, block_range_descriptor)
      else
        (1, some {
          offset := byte_stream_copy_to_uint64_little_endian
            (vshadow_store_block_range_list_entry_field data 0)
          relative_offset := byte_stream_copy_to_uint64_little_endian
            (vshadow_store_block_range_list_entry_field data 8)
          size := byte_stream_copy_to_uint64_little_endian
            (vshadow_store_block_range_list_entry_field data 16) })

/-- The little-endian unsigned 64-bit value of (the first) 8 bytes:
the sum of `byte i * 256 ^ i`. -/
def u64_le_value (bytes : List Nat) : Nat :=
  bytes.getD 0 0 + bytes.getD 1 0 * 256 + bytes.getD 2 0 * 256 ^ 2 +
    bytes.getD 3 0 * 256 ^ 3 + bytes.getD 4 0 * 256 ^ 4 + bytes.getD 5 0 * 256 ^ 5 +
    bytes.getD 6 0 * 256 ^ 6 + bytes.getD 7 0 * 256 ^ 7

/-- The 8 bytes of the little-endian encoding of an unsigned 64-bit value. -/
def u64_le_bytes (value : Nat) : List Nat :=
  [value % 256, value / 256 % 256, value / 256 ^ 2 % 256, value / 256 ^ 3 % 256,
   value / 256 ^ 4 % 256, value / 256 ^ 5 % 256, value / 256 ^ 6 % 256,
   value / 256 ^ 7 % 256]

/-- The 24-byte entry that encodes a triple of unsigned 64-bit values. -/
def block_range_entry_bytes (offset relative_offset size : Nat) : List Nat :=
  u64_le_bytes offset ++ u64_le_bytes relative_offset ++ u64_le_bytes size

/-- A cleared block range descriptor. -/
def block_range_descriptor_zero : libvshadow_block_range_descriptor :=
  { offset := 0, relative_offset := 0, size := 0 }

/-! ## Store blocks iterator (`libvshadow_store_blocks_iterator.c`) -/

/-- Modelled from the spec: `LIBVSHADOW_RECORD_TYPE_STORE_INDEX` of
`libvshadow_definitions.h`; the record types are "STORE_INDEX=3,
STORE_HEADER=4, STORE_BLOCK_LIST=5". -/
def LIBVSHADOW_RECORD_TYPE_STORE_INDEX : Nat := 3

/-- Modelled from the spec: the record type that the specification gives to the
blocks of a block list, "STORE_BLOCK_LIST=5". -/
def RECORD_TYPE_STORE_BLOCK_LIST : Nat := 5

/-- Modelled from the spec: `sizeof( vshadow_store_block_list_entry_t )`,
declared in `vshadow_store.h`; a block list entry has 32 bytes. -/
def sizeof_vshadow_store_block_list_entry : Nat := 32

/-- Modelled from the spec: `sizeof( vshadow_store_block_header_t )`, declared
in `vshadow_store.h`; the store block header has 128 bytes. -/
def sizeof_vshadow_store_block_header : Nat := 128

/-- The fields of `libvshadow_store_block_t` that the iterator uses. -/
structure libvshadow_store_block where
  data : List Nat
  data_size : Nat
  record_type : Nat
  next_offset : Int
  deriving DecidableEq, Repr

/-- The fields of `libvshadow_block_descriptor_t` that the iterator copies; they
have the types of the iterator's own fields (`off64_t` and `uint32_t`). -/
structure libvshadow_block_descriptor where
  original_offset : Int
  relative_offset : Int
  offset : Int
  flags : Nat
  bitmap : Nat
  deriving DecidableEq, Repr

/-- Signature of `libvshadow_store_block_read`, whose body is in
`libvshadow_store_block.c`: from the file IO handle and the offset it yields
the store block it has read, or `none` when it returns -1.  The iterator
functions take it as a parameter. -/
abbrev store_block_read_fn : Type := Nat → Int → Option libvshadow_store_block

/-- Signature of `libvshadow_block_descriptor_read_data`, whose body is in
`libvshadow_block_descriptor.c`: from the block descriptor, the memory at the
data pointer, the data size and the store index it yields its result (1, 0 for
an empty entry, -1 on error) and the block descriptor afterwards.  The
iterator functions take it as a parameter. -/
abbrev block_descriptor_read_data_fn : Type :=
  libvshadow_block_descriptor → List Nat → Nat → Int → Int × libvshadow_block_descriptor

/-- The iterator `libvshadow_blocks_iterator_internal_t`.  `block_data` is the
memory from the data pointer on (the pointer advances by dropping bytes);
`store_block` and `block_descriptor` are pointers that may be `NULL`. -/
structure libvshadow_blocks_iterator_internal where
  original_offset : Int
  relative_offset : Int
  offset : Int
  flags : Nat
  bitmap : Nat
  file_io_handle : Nat
  store_descriptor : libvshadow_store_descriptor
  store_block : Option libvshadow_store_block
  block_descriptor : Option libvshadow_block_descriptor
  next_offset : Int
  block_data : List Nat
  block_size : Nat
  deriving DecidableEq, Repr

/-- What a call on the iterator produces: the returned pointer (`none` for
`NULL`, the iterator having been freed) together with the offsets handed to
`libvshadow_store_block_read` so far, or no return within the allowed number of
loop iterations. -/
inductive blocks_iterator_outcome where
  | out_of_fuel (reads : List Int)
  | returned (iterator : Option libvshadow_blocks_iterator_internal) (reads : List Int)
  deriving DecidableEq, Repr

/-- The remaining-payload counter after a block load (line 267):
`(uint16_t) ( data_size - sizeof( vshadow_store_block_header_t ) )`. -/
def store_block_payload_size (store_block : libvshadow_store_block) : Nat :=
  (((store_block.data_size : Int) - (sizeof_vshadow_store_block_header : Int)) % 2 ^ 16).toNat

/-- The remaining-payload counter after `block_size -= sizeof( entry )` on the
`uint16_t` field (line 301). -/
def block_size_after_entry (block_size : Nat) : Nat :=
  (((block_size : Int) - (sizeof_vshadow_store_block_list_entry : Int)) % 2 ^ 16).toNat

/-- The iterator after a store block has been read and accepted
(lines 265-267). -/
def blocks_iterator_load (iterator : libvshadow_blocks_iterator_internal)
    (store_block : libvshadow_store_block) : libvshadow_blocks_iterator_internal :=
  { iterator with
    store_block := some store_block
    next_offset := store_block.next_offset
    block_data := store_block.data.drop sizeof_vshadow_store_block_header
    block_size := store_block_payload_size store_block }

/-- The iterator after an entry has been passed (lines 300-301), holding the
block descriptor that the decoder left. -/
def blocks_iterator_advance (iterator : libvshadow_blocks_iterator_internal)
    (block_descriptor : libvshadow_block_descriptor) : libvshadow_blocks_iterator_internal :=
  { iterator with
    block_descriptor := some block_descriptor
    block_data := iterator.block_data.drop sizeof_vshadow_store_block_list_entry
    block_size := block_size_after_entry iterator.block_size }

/-- The iterator after a non-empty entry has been decoded: the five fields of
the block descriptor are copied (lines 293-297) and the entry is passed. -/
def blocks_iterator_expose (iterator : libvshadow_blocks_iterator_internal)
    (block_descriptor : libvshadow_block_descriptor) : libvshadow_blocks_iterator_internal :=
  blocks_iterator_advance
    { iterator with
      original_offset := block_descriptor.original_offset
      relative_offset := block_descriptor.relative_offset
      offset := block_descriptor.offset
      flags := block_descriptor.flags
      bitmap := block_descriptor.bitmap }
    block_descriptor

/-- The loops of `libvshadow_store_blocks_iterator_next`.  One unit of fuel pays
for one iteration of an inner loop: a block load while `block_size` is below
the entry size, an entry decode otherwise; the outer loop goes on while the
decoded entries are empty.  A `NULL` store block or block descriptor makes the
callee fail with -1. -/
def blocks_iterator_next_loop (read_block : store_block_read_fn)
    (read_data : block_descriptor_read_data_fn) :
    Nat → libvshadow_blocks_iterator_internal → List Int → blocks_iterator_outcome
  | 0, _, reads => .out_of_fuel reads
  | fuel + 1, iterator, reads =>
    if iterator.block_size < sizeof_vshadow_store_block_list_entry then
      if iterator.next_offset = 0 then .returned none reads
      else
        match iterator.store_block with
        | none => .returned none (reads ++ [iterator.next_offset])
        | some _ =>
          match read_block iterator.file_io_handle iterator.next_offset with
          | none => .returned none (reads ++ [iterator.next_offset])
          | some store_block =>
            if store_block.record_type ≠ LIBVSHADOW_RECORD_TYPE_STORE_INDEX then
              .returned none (reads ++ [iterator.next_offset])
            else
              blocks_iterator_next_loop read_block read_data fuel
                (blocks_iterator_load iterator store_block)
                (reads ++ [iterator.next_offset])
    else
      match iterator.block_descriptor with
      | none => .returned none reads
      | some block_descriptor =>
        if (read_data block_descriptor iterator.block_data iterator.block_size
            iterator.store_descriptor.index).1 = -1 then .returned none reads
        else if (read_data block_descriptor iterator.block_data iterator.block_size
            iterator.store_descriptor.index).1 ≠ 0 then
          .returned (some (blocks_iterator_expose iterator
            (read_data block_descriptor iterator.block_data iterator.block_size
              iterator.store_descriptor.index).2)) reads
        else
          blocks_iterator_next_loop read_block read_data fuel
            (blocks_iterator_advance iterator
              (read_data block_descriptor iterator.block_data iterator.block_size
                iterator.store_descriptor.index).2) reads

/-- `libvshadow_store_blocks_iterator_next`: the iterator positioned on the next
non-empty entry, or `NULL`. -/
def libvshadow_store_blocks_iterator_next (read_block : store_block_read_fn)
    (read_data : block_descriptor_read_data_fn) (fuel : Nat)
    (iterator : libvshadow_blocks_iterator_internal) : blocks_iterator_outcome :=
  blocks_iterator_next_loop read_block read_data fuel iterator []

/-- Modelled from the spec: `libvshadow_store_block_initialize` of
`libvshadow_store_block.c` creates the store block that the iterator owns, a
cleared buffer of the given size (16 384 bytes for a store block). -/
def libvshadow_store_block_initialize (block_size : Nat) : libvshadow_store_block :=
  { data := List.replicate block_size 0, data_size := block_size, record_type := 0,
    next_offset := 0 }

/-- Modelled from the spec: `libvshadow_block_descriptor_initialize` of
`libvshadow_block_descriptor.c` creates a cleared block descriptor. -/
def libvshadow_block_descriptor_initialize : libvshadow_block_descriptor :=
  { original_offset := 0, relative_offset := 0, offset := 0, flags := 0, bitmap := 0 }

/-- The iterator that `libvshadow_store_blocks_iterator_create` hands to
`libvshadow_store_blocks_iterator_next`: cleared, then given its store block,
block descriptor, store descriptor, file IO handle and first offset
(lines 163-212). -/
def blocks_iterator_created (store_descriptor : libvshadow_store_descriptor)
    (file_io_handle : Nat) : libvshadow_blocks_iterator_internal :=
  { original_offset := 0
    relative_offset := 0
    offset := 0
    flags := 0
    bitmap := 0
    file_io_handle := file_io_handle
    store_descriptor := store_descriptor
    store_block := some ( libvshadow_store_block_initialize 0x4000)
    block_descriptor := some libvshadow_block_descriptor_initialize
    next_offset := store_descriptor.store_block_list_offset
    block_data := []
    block_size := 0 }

/-- `libvshadow_store_blocks_iterator_create`: the iterator positioned on the
first non-empty entry of the store's block list, or `NULL`.  Failure of the
memory allocations is not modelled. -/
def libvshadow_store_blocks_iterator_create (read_block : store_block_read_fn)
    (read_data : block_descriptor_read_data_fn) (fuel : Nat)
    (store : Option libvshadow_internal_store) : blocks_iterator_outcome :=
  match store with
  | none => .returned none []
  | some internal_store =>
    match internal_store.internal_volume with
    | none => .returned none []
    | some internal_volume =>
      match libcdata_array_get_entry_by_index internal_volume.store_descriptors_array
          internal_store.store_descriptor_index with
      | none => .returned none []
      | some store_descriptor =>
        libvshadow_store_blocks_iterator_next read_block read_data fuel
          (blocks_iterator_created store_descriptor internal_store.file_io_handle)

/-! ## The sequence of entries of a chain of store blocks -/

/-- The five public fields of the iterator: original offset, relative offset,
offset, flags and bitmap. -/
def blocks_iterator_exposed (iterator : libvshadow_blocks_iterator_internal) :
    Int × Int × Int × Nat × Nat :=
  (iterator.original_offset, iterator.relative_offset, iterator.offset, iterator.flags,
    iterator.bitmap)

/-- The five fields of a decoded block descriptor. -/
def block_descriptor_exposed (block_descriptor : libvshadow_block_descriptor) :
    Int × Int × Int × Nat × Nat :=
  (block_descriptor.original_offset, block_descriptor.relative_offset,
    block_descriptor.offset, block_descriptor.flags, block_descriptor.bitmap)

/-- The entries obtained by `libvshadow_store_blocks_iterator_create` followed by
repeated `libvshadow_store_blocks_iterator_next`: starting from the outcome of
the first call, the exposed fields of each returned iterator, up to the call
that returns `NULL`.  `none` when a call does not return within `fuel` loop
iterations or when `calls` calls do not reach `NULL`. -/
def blocks_iterator_collect (read_block : store_block_read_fn)
    (read_data : block_descriptor_read_data_fn) (fuel : Nat) :
    Nat → blocks_iterator_outcome → Option (List (Int × Int × Int × Nat × Nat))
  | 0, _ => none
  | _ + 1, .out_of_fuel _ => none
  | _ + 1, .returned none _ => some []
  | calls + 1, .returned (some iterator) _ =>
    (blocks_iterator_collect read_block read_data fuel calls
      (libvshadow_store_blocks_iterator_next read_block read_data fuel iterator)).map
      (fun entries => blocks_iterator_exposed iterator :: entries)

/-- The non-empty entries among the next `count` 32-byte entries of a payload,
in payload order, each with the fields of its decoded block descriptor.  `data`
is the payload from the current entry on and `size` its remaining size. -/
def payload_entries (read_data : block_descriptor_read_data_fn) (store_index : Int) :
    Nat → libvshadow_block_descriptor → List Nat → Nat → List (Int × Int × Int × Nat × Nat)
  | 0, _, _, _ => []
  | count + 1, block_descriptor, data, size =>
    if (read_data block_descriptor data size store_index).1 ≠ 0 then
      block_descriptor_exposed (read_data block_descriptor data size store_index).2 ::
        payload_entries read_data store_index count
          (read_data block_descriptor data size store_index).2 (data.drop 32) (size - 32)
    else
      payload_entries read_data store_index count
        (read_data block_descriptor data size store_index).2 (data.drop 32) (size - 32)

/-- The block descriptor after the next `count` entries of a payload have been
decoded. -/
def payload_final_descriptor (read_data : block_descriptor_read_data_fn) (store_index : Int) :
    Nat → libvshadow_block_descriptor → List Nat → Nat → libvshadow_block_descriptor
  | 0, block_descriptor, _, _ => block_descriptor
  | count + 1, block_descriptor, data, size =>
    payload_final_descriptor read_data store_index count
      (read_data block_descriptor data size store_index).2 (data.drop 32) (size - 32)

/-- The entries that the loops decode along a chain of blocks: for each block
in link order, the non-empty entries met while the counter set at the block
load (`store_block_payload_size`) allows another entry, the block descriptor
being carried from one decode to the next. -/
def chain_entries (read_data : block_descriptor_read_data_fn) (store_index : Int) :
    libvshadow_block_descriptor → List libvshadow_store_block →
      List (Int × Int × Int × Nat × Nat)
  | _, [] => []
  | block_descriptor, store_block :: rest =>
    payload_entries read_data store_index (store_block_payload_size store_block / 32)
        block_descriptor (store_block.data.drop 128) (store_block_payload_size store_block) ++
      chain_entries read_data store_index
        (payload_final_descriptor read_data store_index
          (store_block_payload_size store_block / 32) block_descriptor
          (store_block.data.drop 128) (store_block_payload_size store_block)) rest

/-- The store blocks `blocks` form the finite chain that starts at `offset`:
each block is what `libvshadow_store_block_read` delivers at the offset that
links to it, it carries the record type that the iterator accepts, and the
`next_offset` of the last block is 0 (an offset of 0 is the empty chain). -/
def store_block_chain (read_block : store_block_read_fn) (file_io_handle : Nat) :
    Int → List libvshadow_store_block → Prop
  | offset, [] => offset = 0
  | offset, store_block :: rest =>
    offset ≠ 0 ∧ read_block file_io_handle offset = some store_block ∧
      store_block.record_type = LIBVSHADOW_RECORD_TYPE_STORE_INDEX ∧
      store_block_chain read_block file_io_handle store_block.next_offset rest

/-! ## Concrete store blocks used to evaluate the iterator -/

/-- Modelled from the spec: the byte codec's `read_u32_le`, the macro
`byte_stream_copy_to_uint32_little_endian` of `byte_stream.h`. -/
def byte_stream_copy_to_uint32_little_endian (byte_stream : List Nat) : Nat :=
  (byte_stream.take 4).foldr (fun byte value => byte + 256 * value) 0 % 2 ^ 32

/-- Modelled from the spec: `libvshadow_block_descriptor_read_data` of
`libvshadow_block_descriptor.c` decodes a 32-byte block list entry.  It returns
0 when the entry is all zero and otherwise 1 with the little-endian fields; of
the 32 bytes, 8 each hold the original offset, the relative offset and the
offset, 4 the flags and 4 the allocation bitmap.  Data smaller than an entry is
an error. -/
def libvshadow_block_descriptor_read_data : block_descriptor_read_data_fn :=
  fun block_descriptor data data_size _ =>
    if data_size < 32 then (-1, block_descriptor)
    else if data.take 32 = List.replicate 32 0 then (0, block_descriptor)
    else
      (1, {
        original_offset := to_ssize64 (byte_stream_copy_to_uint64_little_endian data)
        relative_offset :=
          to_ssize64 (byte_stream_copy_to_uint64_little_endian (data.drop 8))
        offset := to_ssize64 (byte_stream_copy_to_uint64_little_endian (data.drop 16))
        flags := byte_stream_copy_to_uint32_little_endian (data.drop 24)
        bitmap := byte_stream_copy_to_uint32_little_endian (data.drop 28) })

/-- The 32 bytes of a block list entry with the given original offset and
offset, the other fields being zero. -/
def block_list_entry_bytes (original_offset offset : Nat) : List Nat :=
  u64_le_bytes original_offset ++ u64_le_bytes 0 ++ u64_le_bytes offset ++
    List.replicate 8 0

/-- A 16 384-byte store block: the 128-byte header, the given payload bytes,
zero padding. -/
def store_block_with_payload (record_type : Nat) (next_offset : Int) (payload : List Nat) :
    libvshadow_store_block :=
  { data := List.replicate 128 0 ++ payload ++ List.replicate (16256 - payload.length) 0
    data_size := 16384
    record_type := record_type
    next_offset := next_offset }

/-- A store block of the accepted record type whose payload starts with an
all-zero entry followed by the entry `{original = 16384, offset = 1048576}`;
it ends the chain. -/
def block_zero_then_entry : libvshadow_store_block :=
  store_block_with_payload LIBVSHADOW_RECORD_TYPE_STORE_INDEX 0
    (List.replicate 32 0 ++ block_list_entry_bytes 16384 1048576)

/-- A volume image that holds `block_zero_then_entry` at offset 16384. -/
def image_zero_then_entry : store_block_read_fn :=
  fun _ offset => if offset = 16384 then some block_zero_then_entry else none

/-- The entry that an outcome exposes: the five public fields of the returned
iterator, `none` when `NULL` was returned or nothing was returned. -/
def blocks_iterator_outcome_entry : blocks_iterator_outcome →
    Option (Int × Int × Int × Nat × Nat)
  | .returned (some iterator) _ => some (blocks_iterator_exposed iterator)
  | _ => none

/-- Repeated calls starting inside the loop at `iterator` yield exactly
`expected` and then `NULL`, whenever the first call and every later call are
allowed enough loop iterations and enough calls are made. -/
def blocks_iterator_collects (read_block : store_block_read_fn)
    (read_data : block_descriptor_read_data_fn)
    (iterator : libvshadow_blocks_iterator_internal)
    (expected : List (Int × Int × Int × Nat × Nat)) : Prop :=
  ∃ enough : Nat, ∀ fuel, enough ≤ fuel → ∀ first_fuel, enough ≤ first_fuel →
    ∀ calls, expected.length < calls → ∀ reads,
      blocks_iterator_collect read_block read_data fuel calls
        (blocks_iterator_next_loop read_block read_data first_fuel iterator reads) =
      some expected

/-- The iterator holds its two objects, its counter is a `uint16_t` value and
the blocks still to be read are the chain `rest`. -/
def blocks_iterator_in_chain (read_block : store_block_read_fn)
    (iterator : libvshadow_blocks_iterator_internal)
    (block_descriptor : libvshadow_block_descriptor) (rest : List libvshadow_store_block) :
    Prop :=
  iterator.block_descriptor = some block_descriptor ∧
    (∃ old, iterator.store_block = some old) ∧ iterator.block_size < 2 ^ 16 ∧
    store_block_chain read_block iterator.file_io_handle iterator.next_offset rest

/-- A store block of the record type `STORE_BLOCK_LIST` whose payload starts
with the entry `{original = 16384, offset = 1048576}`; it ends the chain. -/
def block_of_block_list_type : libvshadow_store_block :=
  store_block_with_payload RECORD_TYPE_STORE_BLOCK_LIST 0
    (block_list_entry_bytes 16384 1048576)

/-- A volume image that holds `block_of_block_list_type` at offset 16384. -/
def image_block_list_type : store_block_read_fn :=
  fun _ offset => if offset = 16384 then some block_of_block_list_type else none

/-- A store block of the accepted record type with an all-zero payload whose
`next_offset` is 16384. -/
def block_self_reference : libvshadow_store_block :=
  store_block_with_payload LIBVSHADOW_RECORD_TYPE_STORE_INDEX 16384 []

/-- A volume image that holds `block_self_reference` at offset 16384, the
offset that the block itself names as its successor. -/
def image_self_reference : store_block_read_fn :=
  fun _ offset => if offset = 16384 then some block_self_reference else none

/-- The iterator has exhausted its current block and is about to read the
block `b` at `p`, a block of the accepted record type whose `next_offset` is
`p` again and whose payload holds no entry that decodes as non-empty. -/
def blocks_iterator_before_self_reference (read_block : store_block_read_fn)
    (read_data : block_descriptor_read_data_fn) (b : libvshadow_store_block) (p : Int)
    (index : Int) (iterator : libvshadow_blocks_iterator_internal) : Prop :=
  iterator.block_size < 32 ∧ iterator.next_offset = p ∧ p ≠ 0 ∧
    iterator.store_descriptor.index = index ∧
    (∃ old, iterator.store_block = some old) ∧
    (∃ d, iterator.block_descriptor = some d) ∧
    read_block iterator.file_io_handle p = some b ∧
    b.record_type = LIBVSHADOW_RECORD_TYPE_STORE_INDEX ∧ b.next_offset = p ∧
    ∀ d j, j < store_block_payload_size b / 32 →
      (read_data d ((b.data.drop 128).drop (32 * j)) (store_block_payload_size b - 32 * j)
        index).1 = 0

/-! ## Release of the iterator -/

/-- Signature of `libvshadow_block_descriptor_free`, whose body is in
`libvshadow_block_descriptor.c`: its result for the block descriptor it
releases (1 if successful).  The release functions take it as a parameter. -/
abbrev block_descriptor_free_fn : Type := libvshadow_block_descriptor → Int

/-- Signature of `libvshadow_store_block_free`, whose body is in
`libvshadow_store_block.c`: its result for the store block it releases (1 if
successful).  The release functions take it as a parameter. -/
abbrev store_block_free_fn : Type := Option libvshadow_store_block → Int

/-- `libcerror_error_set` of the external libcerror library.  The error
out-parameter is `none` for `NULL` and otherwise the caller's error variable,
here the number of messages it holds (0 for a variable that is still `NULL`);
a message is recorded only through a non-`NULL` out-parameter. -/
def libcerror_error_set (error : Option Nat) : Option Nat :=
  error.map (fun messages => messages + 1)

/-- `libvshadow_store_blocks_iterator_data_free`: releases the block descriptor
(when the iterator has one) and the store block, recording a message for each
release that does not return 1, frees the iterator and returns -1 when
`error != NULL` (line 78) and 1 otherwise.  The result is the return value and
the error out-parameter afterwards. -/
def libvshadow_store_blocks_iterator_data_free
    (libvshadow_block_descriptor_free : block_descriptor_free_fn)
    (libvshadow_store_block_free : store_block_free_fn)
    (iterator : libvshadow_blocks_iterator_internal) (error : Option Nat) :
    Int × Option Nat :=
  let error_1 :=
    match iterator.block_descriptor with
    | none => error
    | some block_descriptor =>
      if libvshadow_block_descriptor_free block_descriptor ≠ 1 then libcerror_error_set error
      else error
  let error_2 :=
    if libvshadow_store_block_free iterator.store_block ≠ 1 then libcerror_error_set error_1
    else error_1
  if error.isSome then (-1, error_2) else (1, error_2)

/-- `libvshadow_store_blocks_iterator_free`.  `iterator` is the caller's
`libvshadow_blocks_iterator_internal_t **`: `none` for `NULL`, otherwise the
iterator that the caller's pointer refers to.  The result is the return value,
the caller's pointer afterwards (`some none`: it has been set to `NULL`) and
the error out-parameter afterwards. -/
def libvshadow_store_blocks_iterator_free
    (libvshadow_block_descriptor_free : block_descriptor_free_fn)
    (libvshadow_store_block_free : store_block_free_fn)
    (iterator : Option libvshadow_blocks_iterator_internal) (error : Option Nat) :
    Int × Option (Option libvshadow_blocks_iterator_internal) × Option Nat :=
  match iterator with
  | none => (1, none, error)
  | some internal_iterator =>
    let res := libvshadow_store_blocks_iterator_data_free libvshadow_block_descriptor_free
      libvshadow_store_block_free internal_iterator error
    (res.1, some none, res.2)

/-- A release of a block descriptor that succeeds. -/
def block_descriptor_free_ok : block_descriptor_free_fn := fun _ => 1

/-- A release of a store block that succeeds. -/
def store_block_free_ok : store_block_free_fn := fun _ => 1

/-- A release of a store block that fails. -/
def store_block_free_failing : store_block_free_fn := fun _ => -1

/-- The remaining-payload counter of the iterator is a multiple of the entry
size, does not exceed the payload of a 16 384-byte store block, and the memory
from the data pointer on has exactly that many bytes. -/
def blocks_iterator_counter_valid (iterator : libvshadow_blocks_iterator_internal) : Prop :=
  iterator.block_size % 32 = 0 ∧ iterator.block_size ≤ 16256 ∧
    iterator.block_data.length = iterator.block_size

/-! ## Store blocks iterator: the block reads of an iteration -/

/-- The store blocks `blocks` are linked from `offset`: each block is what
`libvshadow_store_block_read` delivers at the offset that links to it, whatever
its record type, and the `next_offset` of the last block is 0.  Such a list is
finite, so following `next_offset` from the head reaches 0. -/
def store_block_links (read_block : store_block_read_fn) (file_io_handle : Nat) :
    Int → List libvshadow_store_block → Prop
  | offset, [] => offset = 0
  | offset, store_block :: rest =>
    offset ≠ 0 ∧ read_block file_io_handle offset = some store_block ∧
      store_block_links read_block file_io_handle store_block.next_offset rest

/-- The offsets of the blocks of a chain that starts at `offset`, one per
block, in chain order. -/
def chain_offsets : Int → List libvshadow_store_block → List Int
  | _, [] => []
  | offset, store_block :: rest => offset :: chain_offsets store_block.next_offset rest

/-- The offsets passed to `libvshadow_store_block_read` during a whole
iteration: starting from the outcome of the first call, the reads of each call
of `libvshadow_store_blocks_iterator_next`, up to and including the call that
returns `NULL`.  `none` when a call does not return within `fuel` loop
iterations or when `calls` calls do not reach `NULL`. -/
def blocks_iterator_collect_reads (read_block : store_block_read_fn)
    (read_data : block_descriptor_read_data_fn) (fuel : Nat) :
    Nat → blocks_iterator_outcome → Option (List Int)
  | 0, _ => none
  | _ + 1, .out_of_fuel _ => none
  | _ + 1, .returned none reads => some reads
  | calls + 1, .returned (some iterator) reads =>
    (blocks_iterator_collect_reads read_block read_data fuel calls
      (libvshadow_store_blocks_iterator_next read_block read_data fuel iterator)).map
      (fun later => reads ++ later)

/-- Every call of an iteration that starts inside the loop at `iterator`
returns, and the block reads of the whole iteration are the first so many of
`offsets`, whenever the calls are allowed enough loop iterations and enough
calls are made. -/
def blocks_iterator_reads_within (read_block : store_block_read_fn)
    (read_data : block_descriptor_read_data_fn)
    (iterator : libvshadow_blocks_iterator_internal) (offsets : List Int) : Prop :=
  ∃ enough : Nat, ∀ fuel, enough ≤ fuel → ∀ first_fuel, enough ≤ first_fuel →
    ∀ calls, enough ≤ calls → ∀ reads, ∃ new,
      blocks_iterator_collect_reads read_block read_data fuel calls
        (blocks_iterator_next_loop read_block read_data first_fuel iterator reads) =
      some (reads ++ new) ∧ new <+: offsets

/-! ## The entries of a chain in the words of the specification -/

/-- The payload of a store block in the words of the specification: "the
remainder of the 16 KiB after the header", the header having 128 bytes. -/
def spec_store_block_payload (store_block : libvshadow_store_block) : List Nat :=
  store_block.data.drop 128

/-- The first `count` consecutive 32-byte entries of a payload, in payload
order. -/
def spec_first_entries : Nat → List Nat → List (List Nat)
  | 0, _ => []
  | count + 1, payload => payload.take 32 :: spec_first_entries count (payload.drop 32)

/-- The 32-byte entries of a payload in payload order: as many whole entries as
the payload holds. -/
def spec_payload_entries (payload : List Nat) : List (List Nat) :=
  spec_first_entries (payload.length / 32) payload

/-- An entry decoded on its own: the decoder is handed the 32 bytes of the
entry and a cleared block descriptor.  `none` for an empty entry (result 0),
otherwise the five fields of the decoded block descriptor. -/
def spec_decode_block_entry (read_data : block_descriptor_read_data_fn) (store_index : Int)
    (entry : List Nat) : Option (Int × Int × Int × Nat × Nat) :=
  if (read_data libvshadow_block_descriptor_initialize entry 32 store_index).1 = 0 then none
  else some (block_descriptor_exposed
    (read_data libvshadow_block_descriptor_initialize entry 32 store_index).2)

/-- The sequence of the specification: the concatenation, over the blocks in
link order, of the non-empty 32-byte entries of each block's payload in payload
order, each with the five fields of its decoded block descriptor. -/
def spec_chain_entries (read_data : block_descriptor_read_data_fn) (store_index : Int) :
    List libvshadow_store_block → List (Int × Int × Int × Nat × Nat)
  | [] => []
  | store_block :: rest =>
    (spec_payload_entries (spec_store_block_payload store_block)).filterMap
        (spec_decode_block_entry read_data store_index) ++
      spec_chain_entries read_data store_index rest

/-- The store block holds exactly its `data_size` bytes, the 128-byte header
included, and the size of its payload is a `uint16_t` value (a store block has
16 384 bytes). -/
def store_block_sized (store_block : libvshadow_store_block) : Prop :=
  store_block.data.length = store_block.data_size ∧ 128 ≤ store_block.data_size ∧
    store_block.data_size < 128 + 2 ^ 16

/-- The decoder reads an entry from its 32 bytes alone: handed at least 32
bytes, its result, and for a non-empty entry the five fields it decodes, are
those it gives for the first 32 bytes on their own with a cleared block
descriptor. -/
def block_descriptor_read_data_local (read_data : block_descriptor_read_data_fn) : Prop :=
  ∀ (d : libvshadow_block_descriptor) (data : List Nat) (size : Nat) (index : Int),
    32 ≤ size →
    (read_data d data size index).1 =
      (read_data libvshadow_block_descriptor_initialize (data.take 32) 32 index).1 ∧
    ((read_data d data size index).1 ≠ 0 →
      block_descriptor_exposed (read_data d data size index).2 =
        block_descriptor_exposed
          (read_data libvshadow_block_descriptor_initialize (data.take 32) 32 index).2)

/-! ## Arithmetic of the 64-bit conversions -/

theorem wrap_off64_of_in_range (x : Int) (h : in_off64 x) : wrap_off64 x = x := by
  unfold in_off64 at h
  unfold wrap_off64
  omega

theorem wrap_off64_neg_of_ge (x : Int) (h1 : 2 ^ 63 ≤ x) (h2 : x < 2 ^ 64) :
    wrap_off64 x < 0 := by
  unfold wrap_off64
  omega

theorem to_size64_of_nonneg (x : Int) (h0 : 0 ≤ x) (h1 : x < 2 ^ 64) :
    (to_size64 x : Int) = x := by
  unfold to_size64
  omega

theorem to_ssize64_of_lt (n : Nat) (h : n < 2 ^ 63) : to_ssize64 n = (n : Int) := by
  unfold to_ssize64 wrap_off64
  omega

/-! ## Unfolding lemmas for a handle with a volume attached -/

theorem seek_offset_with_volume (s : libvshadow_internal_store)
    (v : libvshadow_internal_volume) (offset whence : Int)
    (hv : s.internal_volume = some v) :
    libvshadow_store_seek_offset (some s) offset whence =
      if whence ≠ SEEK_CUR ∧ whence ≠ SEEK_END ∧ whence ≠ SEEK_SET then (-1, some s)
      else if seek_offset_adjusted s.current_offset v.size offset whence < 0 then (-1, some s)
      else (seek_offset_adjusted s.current_offset v.size offset whence,
        some { s with current_offset :=
          seek_offset_adjusted s.current_offset v.size offset whence }) := by
  simp only [libvshadow_store_seek_offset, hv]

theorem seek_offset_without_volume (s : libvshadow_internal_store) (offset whence : Int)
    (hv : s.internal_volume = none) :
    libvshadow_store_seek_offset (some s) offset whence = (-1, some s) := by
  simp only [libvshadow_store_seek_offset, hv]

theorem seek_set_with_volume (s : libvshadow_internal_store)
    (v : libvshadow_internal_volume) (offset : Int) (hv : s.internal_volume = some v) :
    libvshadow_store_seek_offset (some s) offset SEEK_SET =
      if offset < 0 then (-1, some s)
      else (offset, some { s with current_offset := offset }) := by
  rw [seek_offset_with_volume s v offset SEEK_SET hv]
  simp [seek_offset_adjusted, SEEK_SET, SEEK_CUR, SEEK_END]

theorem seek_cur_with_volume (s : libvshadow_internal_store)
    (v : libvshadow_internal_volume) (offset : Int) (hv : s.internal_volume = some v) :
    libvshadow_store_seek_offset (some s) offset SEEK_CUR =
      if wrap_off64 (offset + s.current_offset) < 0 then (-1, some s)
      else (wrap_off64 (offset + s.current_offset),
        some { s with current_offset := wrap_off64 (offset + s.current_offset) }) := by
  rw [seek_offset_with_volume s v offset SEEK_CUR hv]
  simp [seek_offset_adjusted, SEEK_SET, SEEK_CUR, SEEK_END]

theorem seek_end_with_volume (s : libvshadow_internal_store)
    (v : libvshadow_internal_volume) (offset : Int) (hv : s.internal_volume = some v) :
    libvshadow_store_seek_offset (some s) offset SEEK_END =
      if wrap_off64 (offset + to_ssize64 v.size) < 0 then (-1, some s)
      else (wrap_off64 (offset + to_ssize64 v.size),
        some { s with current_offset := wrap_off64 (offset + to_ssize64 v.size) }) := by
  rw [seek_offset_with_volume s v offset SEEK_END hv]
  simp [seek_offset_adjusted, SEEK_SET, SEEK_CUR, SEEK_END]

theorem get_offset_with_volume (s : libvshadow_internal_store)
    (v : libvshadow_internal_volume) (c : Int) (hv : s.internal_volume = some v) :
    libvshadow_store_get_offset (some s) (some c) = (1, some s.current_offset) := by
  simp only [libvshadow_store_get_offset, hv]

/-! ## Seek -/

/-- C1: a successful `libvshadow_store_seek_offset` with `SEEK_SET` or
`SEEK_CUR` returns and stores `base + offset`, where `base` is 0 for `SEEK_SET`
and the current offset for `SEEK_CUR` (a handle offset is a non-negative
`off64_t`), and `libvshadow_store_get_offset` then yields that value; on a
handle with a volume attached `seek(o, SEEK_SET)` with `o ≥ 0` succeeds,
returns `o`, and a following `libvshadow_store_get_offset` yields exactly `o`. -/
theorem seek_offset_returns_base_plus_offset
    (s : libvshadow_internal_store) (offset whence : Int)
    (hw : whence = SEEK_SET ∨ whence = SEEK_CUR)
    (hcur : whence = SEEK_CUR →
      0 ≤ s.current_offset ∧ in_off64 s.current_offset ∧ in_off64 offset) :
    (∀ (r : Int) (s' : Option libvshadow_internal_store),
        libvshadow_store_seek_offset (some s) offset whence = (r, s') → r ≠ -1 →
        r = (if whence = SEEK_SET then 0 else s.current_offset) + offset ∧
        s' = some { s with current_offset :=
          (if whence = SEEK_SET then 0 else s.current_offset) + offset } ∧
        ∀ c : Int, libvshadow_store_get_offset s' (some c) =
          (1, some ((if whence = SEEK_SET then 0 else s.current_offset) + offset))) ∧
    (whence = SEEK_SET → s.internal_volume ≠ none → 0 ≤ offset →
        libvshadow_store_seek_offset (some s) offset SEEK_SET =
          (offset, some { s with current_offset := offset }) ∧
        ∀ c : Int, libvshadow_store_get_offset
          (libvshadow_store_seek_offset (some s) offset SEEK_SET).2 (some c) =
          (1, some offset)) := by
  constructor
  · intro r s' hseek hok
    rcases Option.eq_none_or_eq_some s.internal_volume with hvol | ⟨v, hvol⟩
    · rw [seek_offset_without_volume s offset whence hvol] at hseek
      simp only [Prod.mk.injEq] at hseek
      exact absurd hseek.1.symm hok
    · rcases hw with hw | hw
      · subst hw
        rw [seek_set_with_volume s v offset hvol] at hseek
        rw [if_pos rfl, zero_add]
        split_ifs at hseek with hneg
        · simp only [Prod.mk.injEq] at hseek
          exact absurd hseek.1.symm hok
        · simp only [Prod.mk.injEq] at hseek
          obtain ⟨hr, hs⟩ := hseek
          refine ⟨hr.symm, hs.symm, ?_⟩
          intro c
          rw [← hs]
          exact get_offset_with_volume _ v c hvol
      · obtain ⟨h0, hc, ho⟩ := hcur hw
        subst hw
        rw [seek_cur_with_volume s v offset hvol] at hseek
        have hif : (if SEEK_CUR = SEEK_SET then (0 : Int) else s.current_offset) =
            s.current_offset := if_neg (by decide)
        rw [hif]
        split_ifs at hseek with hneg
        · simp only [Prod.mk.injEq] at hseek
          exact absurd hseek.1.symm hok
        · have hwrap : wrap_off64 (offset + s.current_offset) =
              s.current_offset + offset := by
            unfold in_off64 at hc ho
            unfold wrap_off64 at hneg ⊢
            omega
          rw [hwrap] at hseek
          simp only [Prod.mk.injEq] at hseek
          obtain ⟨hr, hs⟩ := hseek
          refine ⟨hr.symm, hs.symm, ?_⟩
          intro c
          rw [← hs]
          exact get_offset_with_volume _ v c hvol
  · intro _ hvol hnn
    rcases Option.eq_none_or_eq_some s.internal_volume with hv | ⟨v, hv⟩
    · exact absurd hv hvol
    · have hseek := seek_set_with_volume s v offset hv
      rw [if_neg (not_lt.mpr hnn)] at hseek
      refine ⟨hseek, ?_⟩
      intro c
      rw [hseek]
      exact get_offset_with_volume _ v c hv

/-- Witness of C1: from offset 7, `seek(5, SEEK_CUR)` returns and stores 12. -/
theorem seek_offset_returns_base_plus_offset_witness :
    (SEEK_CUR = SEEK_SET ∨ SEEK_CUR = SEEK_CUR) ∧
    (0 ≤ store_at_7.current_offset ∧ in_off64 store_at_7.current_offset ∧ in_off64 5) ∧
    libvshadow_store_seek_offset (some store_at_7) 5 SEEK_CUR =
      (12, some { store_at_7 with current_offset := 12 }) ∧
    ((12 : Int) = (if SEEK_CUR = SEEK_SET then 0 else store_at_7.current_offset) + 5 ∧
      some { store_at_7 with current_offset := 12 } =
        some { store_at_7 with current_offset :=
          (if SEEK_CUR = SEEK_SET then 0 else store_at_7.current_offset) + 5 } ∧
      ∀ c : Int, libvshadow_store_get_offset
          (some { store_at_7 with current_offset := 12 }) (some c) =
        (1, some ((if SEEK_CUR = SEEK_SET then 0 else store_at_7.current_offset) + 5))) :=
  ⟨by decide, by decide, by decide,
    (seek_offset_returns_base_plus_offset store_at_7 5 SEEK_CUR (Or.inr rfl)
      (fun _ => by decide)).1 12 (some { store_at_7 with current_offset := 12 })
      (by decide) (by decide)⟩

/-- C2: whenever the final offset computed by `libvshadow_store_seek_offset`
for a whence of `SEEK_SET`, `SEEK_CUR` or `SEEK_END` is negative, the call
returns -1 and leaves the handle, and so its current offset, unchanged; this
holds for every handle state (without a volume no final offset is computed and
the call fails as well). -/
theorem seek_offset_negative_final_offset_fails
    (s : libvshadow_internal_store) (offset whence : Int)
    (hw : whence = SEEK_SET ∨ whence = SEEK_CUR ∨ whence = SEEK_END)
    (hneg : ∀ v : libvshadow_internal_volume, s.internal_volume = some v →
      seek_offset_adjusted s.current_offset v.size offset whence < 0) :
    libvshadow_store_seek_offset (some s) offset whence = (-1, some s) ∧
    (∀ s' : libvshadow_internal_store,
      (libvshadow_store_seek_offset (some s) offset whence).2 = some s' →
      s'.current_offset = s.current_offset) := by
  have hmain : libvshadow_store_seek_offset (some s) offset whence = (-1, some s) := by
    rcases Option.eq_none_or_eq_some s.internal_volume with hvol | ⟨v, hvol⟩
    · exact seek_offset_without_volume s offset whence hvol
    · have hwh : ¬ (whence ≠ SEEK_CUR ∧ whence ≠ SEEK_END ∧ whence ≠ SEEK_SET) := by
        rcases hw with hw | hw | hw <;> simp [hw]
      rw [seek_offset_with_volume s v offset whence hvol, if_neg hwh,
        if_pos (hneg v hvol)]
  refine ⟨hmain, ?_⟩
  intro s' hs'
  rw [hmain] at hs'
  simp only [Option.some.injEq] at hs'
  rw [← hs']

/-- Witness of C2: from offset 7 on a 50-byte volume, `seek(-51, SEEK_END)`
computes -1 and fails. -/
theorem seek_offset_negative_final_offset_fails_witness :
    (SEEK_END = SEEK_SET ∨ SEEK_END = SEEK_CUR ∨ SEEK_END = SEEK_END) ∧
    seek_offset_adjusted store_at_7.current_offset volume_50.size (-51) SEEK_END < 0 ∧
    (libvshadow_store_seek_offset (some store_at_7) (-51) SEEK_END = (-1, some store_at_7) ∧
      (∀ s' : libvshadow_internal_store,
        (libvshadow_store_seek_offset (some store_at_7) (-51) SEEK_END).2 = some s' →
        s'.current_offset = store_at_7.current_offset)) :=
  ⟨by decide, by decide,
    seek_offset_negative_final_offset_fails store_at_7 (-51) SEEK_END (by decide)
      (fun v hv => by
        have h : v = volume_50 := by
          have h2 : store_at_7.internal_volume = some volume_50 := rfl
          rw [h2] at hv
          exact (Option.some.inj hv).symm
        subst h
        decide)⟩

/-! ## Read: unfolding lemmas -/

theorem read_from_handle_with_volume (read : store_descriptor_read_buffer_fn)
    (s : libvshadow_internal_store) (v : libvshadow_internal_volume)
    (file_io_handle : Nat) (buffer : List Nat) (buffer_size : Nat)
    (hv : s.internal_volume = some v) :
    libvshadow_store_read_buffer_from_file_io_handle read (some s) file_io_handle
        buffer buffer_size =
      if s.current_offset < 0 then (-1, buffer, some s)
      else if to_size64 s.current_offset ≥ v.size then (0, buffer, some s)
      else
        match libcdata_array_get_entry_by_index v.store_descriptors_array
            s.store_descriptor_index with
        | none => (-1, buffer, some s)
        | some store_descriptor =>
          if (read store_descriptor file_io_handle buffer
                (read_clamped_size s.current_offset v.size buffer_size)
                s.current_offset store_descriptor).1 ≠
              to_ssize64 (read_clamped_size s.current_offset v.size buffer_size) then
            (-1, (read store_descriptor file_io_handle buffer
                (read_clamped_size s.current_offset v.size buffer_size)
                s.current_offset store_descriptor).2, some s)
          else
            ((read store_descriptor file_io_handle buffer
                (read_clamped_size s.current_offset v.size buffer_size)
                s.current_offset store_descriptor).1,
             (read store_descriptor file_io_handle buffer
                (read_clamped_size s.current_offset v.size buffer_size)
                s.current_offset store_descriptor).2,
             some { s with current_offset := wrap_off64 (s.current_offset +
               (read store_descriptor file_io_handle buffer
                (read_clamped_size s.current_offset v.size buffer_size)
                s.current_offset store_descriptor).1) }) := by
  simp only [libvshadow_store_read_buffer_from_file_io_handle, hv]

theorem read_from_handle_without_volume (read : store_descriptor_read_buffer_fn)
    (s : libvshadow_internal_store) (file_io_handle : Nat) (buffer : List Nat)
    (buffer_size : Nat) (hv : s.internal_volume = none) :
    libvshadow_store_read_buffer_from_file_io_handle read (some s) file_io_handle
        buffer buffer_size = (-1, buffer, some s) := by
  simp only [libvshadow_store_read_buffer_from_file_io_handle, hv]

/-- At or past the end of the volume the read delivers nothing and returns 0. -/
theorem read_from_handle_at_end (read : store_descriptor_read_buffer_fn)
    (s : libvshadow_internal_store) (v : libvshadow_internal_volume)
    (file_io_handle : Nat) (buffer : List Nat) (buffer_size : Nat)
    (hv : s.internal_volume = some v) (h0 : 0 ≤ s.current_offset)
    (hend : v.size ≤ to_size64 s.current_offset) :
    libvshadow_store_read_buffer_from_file_io_handle read (some s) file_io_handle
        buffer buffer_size = (0, buffer, some s) := by
  rw [read_from_handle_with_volume read s v file_io_handle buffer buffer_size hv,
    if_neg (not_lt.mpr h0), if_pos hend]

/-- Below the end of the volume, with the store descriptor found, the read is
the store descriptor's read of the clamped size, checked against that size. -/
theorem read_from_handle_below_end (read : store_descriptor_read_buffer_fn)
    (s : libvshadow_internal_store) (v : libvshadow_internal_volume)
    (d : libvshadow_store_descriptor)
    (file_io_handle : Nat) (buffer : List Nat) (buffer_size : Nat)
    (hv : s.internal_volume = some v) (h0 : 0 ≤ s.current_offset)
    (hlt : to_size64 s.current_offset < v.size)
    (hd : libcdata_array_get_entry_by_index v.store_descriptors_array
      s.store_descriptor_index = some d) :
    libvshadow_store_read_buffer_from_file_io_handle read (some s) file_io_handle
        buffer buffer_size =
      if (read d file_io_handle buffer
            (read_clamped_size s.current_offset v.size buffer_size) s.current_offset d).1 ≠
          to_ssize64 (read_clamped_size s.current_offset v.size buffer_size) then
        (-1, (read d file_io_handle buffer
            (read_clamped_size s.current_offset v.size buffer_size) s.current_offset d).2,
          some s)
      else
        ((read d file_io_handle buffer
            (read_clamped_size s.current_offset v.size buffer_size) s.current_offset d).1,
         (read d file_io_handle buffer
            (read_clamped_size s.current_offset v.size buffer_size) s.current_offset d).2,
         some { s with current_offset := wrap_off64 (s.current_offset +
           (read d file_io_handle buffer
            (read_clamped_size s.current_offset v.size buffer_size)
            s.current_offset d).1) }) := by
  rw [read_from_handle_with_volume read s v file_io_handle buffer buffer_size hv,
    if_neg (not_lt.mpr h0), if_neg (not_le.mpr hlt), hd]

theorem read_buffer_unfold (read : store_descriptor_read_buffer_fn)
    (s : libvshadow_internal_store) (buffer : List Nat) (buffer_size : Nat) :
    libvshadow_store_read_buffer read (some s) buffer buffer_size =
      if (libvshadow_store_read_buffer_from_file_io_handle read (some s) s.file_io_handle
            buffer buffer_size).1 ≠ to_ssize64 buffer_size then
        (-1,
         (libvshadow_store_read_buffer_from_file_io_handle read (some s) s.file_io_handle
            buffer buffer_size).2.1,
         (libvshadow_store_read_buffer_from_file_io_handle read (some s) s.file_io_handle
            buffer buffer_size).2.2)
      else libvshadow_store_read_buffer_from_file_io_handle read (some s) s.file_io_handle
            buffer buffer_size := by
  simp only [libvshadow_store_read_buffer]

/-- A read at a negative offset fails at the seek and touches nothing. -/
theorem read_random_negative_offset (read : store_descriptor_read_buffer_fn)
    (s : libvshadow_internal_store) (buffer : List Nat) (buffer_size : Nat) (offset : Int)
    (hneg : offset < 0) :
    libvshadow_store_read_random read (some s) buffer buffer_size offset =
      (-1, buffer, some s) := by
  rcases Option.eq_none_or_eq_some s.internal_volume with hv | ⟨v, hv⟩
  · simp [libvshadow_store_read_random, seek_offset_without_volume s offset SEEK_SET hv]
  · simp [libvshadow_store_read_random, seek_set_with_volume s v offset hv, hneg]

theorem read_random_without_volume (read : store_descriptor_read_buffer_fn)
    (s : libvshadow_internal_store) (buffer : List Nat) (buffer_size : Nat) (offset : Int)
    (hv : s.internal_volume = none) :
    libvshadow_store_read_random read (some s) buffer buffer_size offset =
      (-1, buffer, some s) := by
  simp [libvshadow_store_read_random, seek_offset_without_volume s offset SEEK_SET hv]

/-- A read at a non-negative offset is the read through the handle's file IO
handle from the handle repositioned at that offset. -/
theorem read_random_nonneg_offset (read : store_descriptor_read_buffer_fn)
    (s : libvshadow_internal_store) (v : libvshadow_internal_volume)
    (buffer : List Nat) (buffer_size : Nat) (offset : Int)
    (hv : s.internal_volume = some v) (h0 : 0 ≤ offset) :
    libvshadow_store_read_random read (some s) buffer buffer_size offset =
      if (libvshadow_store_read_buffer_from_file_io_handle read
            (some { s with current_offset := offset }) s.file_io_handle
            buffer buffer_size).1 ≤ -1 then
        (-1,
         (libvshadow_store_read_buffer_from_file_io_handle read
            (some { s with current_offset := offset }) s.file_io_handle
            buffer buffer_size).2.1,
         (libvshadow_store_read_buffer_from_file_io_handle read
            (some { s with current_offset := offset }) s.file_io_handle
            buffer buffer_size).2.2)
      else libvshadow_store_read_buffer_from_file_io_handle read
            (some { s with current_offset := offset }) s.file_io_handle
            buffer buffer_size := by
  have hne : offset ≠ -1 := by omega
  simp [libvshadow_store_read_random, seek_set_with_volume s v offset hv,
    not_lt.mpr h0, hne]

/-! ## Reading at the end of the volume -/

/-- C3 (what the code does): after a successful `seek(o, SEEK_SET)` to an
offset at or past the end of the volume, the inner read
`libvshadow_store_read_buffer_from_file_io_handle` returns 0 (end of data), but
the public `libvshadow_store_read_buffer` compares that count with the
requested `buffer_size` and returns -1 for every non-zero buffer size. -/
theorem read_buffer_at_end_of_volume_returns_error
    (read : store_descriptor_read_buffer_fn)
    (s : libvshadow_internal_store) (v : libvshadow_internal_volume)
    (buffer : List Nat) (buffer_size : Nat) (o : Int)
    (hv : s.internal_volume = some v)
    (hend : (v.size : Int) ≤ o) (hoff : o < 2 ^ 63)
    (hpos : 0 < buffer_size) (hsz : buffer_size < 2 ^ 64) :
    libvshadow_store_seek_offset (some s) o SEEK_SET =
        (o, some { s with current_offset := o }) ∧
    libvshadow_store_read_buffer_from_file_io_handle read
        (some { s with current_offset := o }) s.file_io_handle buffer buffer_size =
        (0, buffer, some { s with current_offset := o }) ∧
    libvshadow_store_read_buffer read (some { s with current_offset := o })
        buffer buffer_size = (-1, buffer, some { s with current_offset := o }) := by
  have h0 : 0 ≤ o := le_trans (Int.ofNat_nonneg _) hend
  have hinner : libvshadow_store_read_buffer_from_file_io_handle read
      (some { s with current_offset := o }) s.file_io_handle buffer buffer_size =
      (0, buffer, some { s with current_offset := o }) := by
    apply read_from_handle_at_end read { s with current_offset := o } v _ _ _ hv h0
    show v.size ≤ to_size64 o
    unfold to_size64
    omega
  have hcast : (0 : Int) ≠ to_ssize64 buffer_size := by
    unfold to_ssize64 wrap_off64
    omega
  refine ⟨?_, hinner, ?_⟩
  · rw [seek_set_with_volume s v o hv, if_neg (not_lt.mpr h0)]
  · rw [read_buffer_unfold]
    simp only [hinner]
    rw [if_pos hcast]

/-- Witness of C3: on the 50-byte volume, after `seek(50, SEEK_SET)`, a read of
one byte through `libvshadow_store_read_buffer` returns -1 although the inner
read returned 0. -/
theorem read_buffer_at_end_of_volume_returns_error_witness :
    store_at_7.internal_volume = some volume_50 ∧ ((volume_50.size : Int) ≤ 50) ∧
    ((50 : Int) < 2 ^ 63) ∧ (0 < 1) ∧ (1 < 2 ^ 64) ∧
    (libvshadow_store_seek_offset (some store_at_7) 50 SEEK_SET =
        (50, some { store_at_7 with current_offset := 50 }) ∧
      libvshadow_store_read_buffer_from_file_io_handle read_in_full
        (some { store_at_7 with current_offset := 50 }) store_at_7.file_io_handle [] 1 =
        (0, [], some { store_at_7 with current_offset := 50 }) ∧
      libvshadow_store_read_buffer read_in_full
        (some { store_at_7 with current_offset := 50 }) [] 1 =
        (-1, [], some { store_at_7 with current_offset := 50 })) :=
  ⟨rfl, by decide, by decide, by decide, by decide,
    read_buffer_at_end_of_volume_returns_error read_in_full store_at_7 volume_50 [] 1 50
      rfl (by decide) (by decide) (by decide) (by decide)⟩

/-! ## `SEEK_END` -/

/-- C4 (counterexample): the handle `store_at_7` sits on a 50-byte volume whose
store descriptor records a volume size of 100, which is what
`libvshadow_store_get_volume_size` reports; `seek(0, SEEK_END)` positions the
handle at 50, not at 100, and `seek(-60, SEEK_END)` fails although
`100 - 60` is not negative. -/
theorem seek_end_not_descriptor_volume_size :
    libvshadow_store_get_volume_size (some store_at_7) (some 0) = (1, some 100) ∧
    libvshadow_store_seek_offset (some store_at_7) 0 SEEK_END =
      (50, some { store_at_7 with current_offset := 50 }) ∧
    ¬ ((libvshadow_store_seek_offset (some store_at_7) 0 SEEK_END).2 =
      some { store_at_7 with current_offset := 100 + 0 }) ∧
    libvshadow_store_seek_offset (some store_at_7) (-60) SEEK_END = (-1, some store_at_7) := by
  decide

/-- C4 (amended): on a handle with a volume attached, `seek(d, SEEK_END)`
positions the handle at `size + d`, where `size` is the size of the handle's
volume (`internal_volume->size`, a value that fits `off64_t`), independently of
the store descriptors, whenever `size + d` is a non-negative `off64_t`; the
call returns that offset and `libvshadow_store_get_offset` reports it. -/
theorem seek_end_uses_internal_volume_size
    (s : libvshadow_internal_store) (v : libvshadow_internal_volume) (d : Int)
    (hv : s.internal_volume = some v) (hsize : v.size < 2 ^ 63)
    (h0 : 0 ≤ (v.size : Int) + d) (h1 : (v.size : Int) + d < 2 ^ 63) :
    libvshadow_store_seek_offset (some s) d SEEK_END =
      ((v.size : Int) + d, some { s with current_offset := (v.size : Int) + d }) ∧
    ∀ c : Int, libvshadow_store_get_offset
      (libvshadow_store_seek_offset (some s) d SEEK_END).2 (some c) =
      (1, some ((v.size : Int) + d)) := by
  have hwrap : wrap_off64 (d + to_ssize64 v.size) = (v.size : Int) + d := by
    rw [to_ssize64_of_lt v.size hsize]
    unfold wrap_off64
    omega
  have hseek : libvshadow_store_seek_offset (some s) d SEEK_END =
      ((v.size : Int) + d, some { s with current_offset := (v.size : Int) + d }) := by
    rw [seek_end_with_volume s v d hv, hwrap, if_neg (not_lt.mpr h0)]
  refine ⟨hseek, ?_⟩
  intro c
  rw [hseek]
  exact get_offset_with_volume _ v c hv

/-- Witness of C4 (amended): on the 50-byte volume `seek(-8, SEEK_END)`
positions the handle at 42. -/
theorem seek_end_uses_internal_volume_size_witness :
    store_at_7.internal_volume = some volume_50 ∧ volume_50.size < 2 ^ 63 ∧
    (0 ≤ (volume_50.size : Int) + (-8)) ∧ ((volume_50.size : Int) + (-8) < 2 ^ 63) ∧
    (libvshadow_store_seek_offset (some store_at_7) (-8) SEEK_END =
      ((volume_50.size : Int) + (-8),
        some { store_at_7 with current_offset := (volume_50.size : Int) + (-8) }) ∧
      ∀ c : Int, libvshadow_store_get_offset
        (libvshadow_store_seek_offset (some store_at_7) (-8) SEEK_END).2 (some c) =
        (1, some ((volume_50.size : Int) + (-8)))) :=
  ⟨rfl, by decide, by decide, by decide,
    seek_end_uses_internal_volume_size store_at_7 volume_50 (-8) rfl (by decide)
      (by decide) (by decide)⟩

/-! ## Successful reads -/

/-- On a volume whose size fits `off64_t`, a non-negative count accepted by the
check of line 319 never carries the offset past the end of the volume. -/
theorem read_clamped_count_within_volume (c : Int) (size n : Nat)
    (h0 : 0 ≤ c) (hlt : to_size64 c < size) (hc : c < 2 ^ 63) (hsize : size < 2 ^ 63)
    (hn : n < 2 ^ 64) (hr : 0 ≤ to_ssize64 (read_clamped_size c size n)) :
    c + to_ssize64 (read_clamped_size c size n) ≤ (size : Int) := by
  unfold read_clamped_size at hr ⊢
  unfold to_size64 at hlt hr ⊢
  unfold to_ssize64 wrap_off64 at hr ⊢
  split_ifs at hr ⊢ with hgt
  · omega
  · omega

/-- A successful inner read (count `r ≥ 0`) leaves the handle at `c + r`, and
the count is either the 0 of the end-of-volume test, with the buffer untouched,
or the count and buffer that the store descriptor delivered. -/
theorem read_from_handle_success (read : store_descriptor_read_buffer_fn)
    (s : libvshadow_internal_store) (v : libvshadow_internal_volume)
    (file_io_handle : Nat) (buffer : List Nat) (buffer_size : Nat)
    (hv : s.internal_volume = some v) (hsize : v.size < 2 ^ 63)
    (hcur : s.current_offset < 2 ^ 63) (hbuf : buffer_size < 2 ^ 64)
    (r : Int) (b : List Nat) (s' : Option libvshadow_internal_store)
    (hread : libvshadow_store_read_buffer_from_file_io_handle read (some s) file_io_handle
      buffer buffer_size = (r, b, s'))
    (hr : 0 ≤ r) :
    s' = some { s with current_offset := s.current_offset + r } ∧
    ((v.size ≤ to_size64 s.current_offset ∧ r = 0 ∧ b = buffer) ∨
     ∃ d, libcdata_array_get_entry_by_index v.store_descriptors_array
        s.store_descriptor_index = some d ∧
      (r, b) = read d file_io_handle buffer
        (read_clamped_size s.current_offset v.size buffer_size) s.current_offset d) := by
  by_cases h0 : s.current_offset < 0
  · rw [read_from_handle_with_volume read s v file_io_handle buffer buffer_size hv,
      if_pos h0] at hread
    simp only [Prod.mk.injEq] at hread
    omega
  · have h0 : 0 ≤ s.current_offset := not_lt.mp h0
    by_cases hend : v.size ≤ to_size64 s.current_offset
    · rw [read_from_handle_at_end read s v file_io_handle buffer buffer_size hv h0 hend]
        at hread
      simp only [Prod.mk.injEq] at hread
      obtain ⟨hr0, hb, hs⟩ := hread
      refine ⟨?_, Or.inl ⟨hend, hr0.symm, hb.symm⟩⟩
      rw [← hs, ← hr0, add_zero]
    · have hlt : to_size64 s.current_offset < v.size := not_le.mp hend
      rcases Option.eq_none_or_eq_some (libcdata_array_get_entry_by_index
        v.store_descriptors_array s.store_descriptor_index) with hd | ⟨d, hd⟩
      · rw [read_from_handle_with_volume read s v file_io_handle buffer buffer_size hv,
          if_neg (not_lt.mpr h0), if_neg hend, hd] at hread
        simp only [Prod.mk.injEq] at hread
        omega
      · rw [read_from_handle_below_end read s v d file_io_handle buffer buffer_size
          hv h0 hlt hd] at hread
        split_ifs at hread with hne
        · simp only [Prod.mk.injEq] at hread
          omega
        · simp only [Prod.mk.injEq] at hread
          obtain ⟨hr1, hb, hs⟩ := hread
          have hcount : r = to_ssize64 (read_clamped_size s.current_offset v.size
              buffer_size) := by
            rw [← hr1]
            exact not_not.mp hne
          have hle := read_clamped_count_within_volume s.current_offset v.size buffer_size
            h0 hlt hcur hsize hbuf (hcount ▸ hr)
          have hwrap : wrap_off64 (s.current_offset + r) = s.current_offset + r := by
            apply wrap_off64_of_in_range
            unfold in_off64
            rw [hcount]
            omega
          refine ⟨?_, Or.inr ⟨d, hd, ?_⟩⟩
          · rw [← hs, hr1, hwrap]
          · rw [← hr1, ← hb]

/-- C5 (counterexample): on a volume of `2^63 + 10` bytes a handle positioned at
`c = 2^63 - 1` reads 5 bytes successfully, the store descriptor delivering all
5, and the current offset afterwards is `-(2^63) + 4`, not `c + 5`; the same
for the three read functions. -/
theorem read_offset_after_success_not_sum :
    libvshadow_store_read_buffer_from_file_io_handle read_in_full
        (some { store_on_volume_above_off64 with current_offset := 2 ^ 63 - 1 }) 1 [] 5 =
      (5, [0, 0, 0, 0, 0],
        some { store_on_volume_above_off64 with current_offset := -(2 ^ 63) + 4 }) ∧
    libvshadow_store_read_buffer read_in_full
        (some { store_on_volume_above_off64 with current_offset := 2 ^ 63 - 1 }) [] 5 =
      (5, [0, 0, 0, 0, 0],
        some { store_on_volume_above_off64 with current_offset := -(2 ^ 63) + 4 }) ∧
    libvshadow_store_read_random read_in_full (some store_on_volume_above_off64) [] 5
        (2 ^ 63 - 1) =
      (5, [0, 0, 0, 0, 0],
        some { store_on_volume_above_off64 with current_offset := -(2 ^ 63) + 4 }) ∧
    (-(2 ^ 63) + 4 : Int) ≠ (2 ^ 63 - 1) + 5 := by
  decide

/-- C5 (amended): on a handle with a volume attached whose size fits `off64_t`
(`size < 2^63`), for every buffer size (a `size_t` value) and every starting
offset `c` (an `off64_t` value), every successful read (a returned count
`r ≥ 0`) leaves the handle's current offset at exactly `c + r`, and `r` is the
count the store descriptor delivered for the end-clamped request (or the 0 of
the end-of-volume test, where the store descriptor is not asked and the buffer
is untouched).  This holds for
`libvshadow_store_read_buffer_from_file_io_handle`, for
`libvshadow_store_read_buffer` (both start at the current offset) and for
`libvshadow_store_read_random` (which starts at the offset it is given). -/
theorem read_advances_offset_by_delivered_count
    (read : store_descriptor_read_buffer_fn)
    (s : libvshadow_internal_store) (v : libvshadow_internal_volume)
    (buffer : List Nat) (buffer_size : Nat)
    (hv : s.internal_volume = some v) (hsize : v.size < 2 ^ 63)
    (hbuf : buffer_size < 2 ^ 64) :
    (∀ (file_io_handle : Nat) (r : Int) (b : List Nat)
        (s' : Option libvshadow_internal_store),
      s.current_offset < 2 ^ 63 →
      libvshadow_store_read_buffer_from_file_io_handle read (some s) file_io_handle
        buffer buffer_size = (r, b, s') → 0 ≤ r →
      s' = some { s with current_offset := s.current_offset + r } ∧
      ((v.size ≤ to_size64 s.current_offset ∧ r = 0 ∧ b = buffer) ∨
       ∃ d, libcdata_array_get_entry_by_index v.store_descriptors_array
          s.store_descriptor_index = some d ∧
        (r, b) = read d file_io_handle buffer
          (read_clamped_size s.current_offset v.size buffer_size) s.current_offset d)) ∧
    (∀ (r : Int) (b : List Nat) (s' : Option libvshadow_internal_store),
      s.current_offset < 2 ^ 63 →
      libvshadow_store_read_buffer read (some s) buffer buffer_size = (r, b, s') → 0 ≤ r →
      s' = some { s with current_offset := s.current_offset + r } ∧
      ((v.size ≤ to_size64 s.current_offset ∧ r = 0 ∧ b = buffer) ∨
       ∃ d, libcdata_array_get_entry_by_index v.store_descriptors_array
          s.store_descriptor_index = some d ∧
        (r, b) = read d s.file_io_handle buffer
          (read_clamped_size s.current_offset v.size buffer_size) s.current_offset d)) ∧
    (∀ (offset r : Int) (b : List Nat) (s' : Option libvshadow_internal_store),
      offset < 2 ^ 63 →
      libvshadow_store_read_random read (some s) buffer buffer_size offset = (r, b, s') →
      0 ≤ r →
      s' = some { s with current_offset := offset + r } ∧
      ((v.size ≤ to_size64 offset ∧ r = 0 ∧ b = buffer) ∨
       ∃ d, libcdata_array_get_entry_by_index v.store_descriptors_array
          s.store_descriptor_index = some d ∧
        (r, b) = read d s.file_io_handle buffer
          (read_clamped_size offset v.size buffer_size) offset d)) := by
  refine ⟨?_, ?_, ?_⟩
  · intro file_io_handle r b s' hcur hread hr
    exact read_from_handle_success read s v file_io_handle buffer buffer_size hv hsize
      hcur hbuf r b s' hread hr
  · intro r b s' hcur hread hr
    rw [read_buffer_unfold] at hread
    split_ifs at hread with hne
    · simp only [Prod.mk.injEq] at hread
      omega
    · exact read_from_handle_success read s v s.file_io_handle buffer buffer_size hv hsize
        hcur hbuf r b s' hread hr
  · intro offset r b s' hoff hread hr
    by_cases hneg : offset < 0
    · rw [read_random_negative_offset read s buffer buffer_size offset hneg] at hread
      simp only [Prod.mk.injEq] at hread
      omega
    · rw [read_random_nonneg_offset read s v buffer buffer_size offset hv
        (not_lt.mp hneg)] at hread
      split_ifs at hread with hle
      · simp only [Prod.mk.injEq] at hread
        omega
      · exact read_from_handle_success read { s with current_offset := offset } v
          s.file_io_handle buffer buffer_size hv hsize hoff hbuf r b s' hread hr

/-- Witness of C5: reading 3 bytes at offset 7 of the 50-byte volume returns 3
and leaves the handle at 10. -/
theorem read_advances_offset_by_delivered_count_witness :
    store_at_7.internal_volume = some volume_50 ∧ volume_50.size < 2 ^ 63 ∧
    3 < 2 ^ 64 ∧ store_at_7.current_offset < 2 ^ 63 ∧
    libvshadow_store_read_buffer read_in_full (some store_at_7) [] 3 =
      (3, [0, 0, 0], some { store_at_7 with current_offset := 10 }) ∧
    ((0 : Int) ≤ 3) ∧
    (some { store_at_7 with current_offset := 10 } =
        some { store_at_7 with current_offset := store_at_7.current_offset + 3 } ∧
      ((volume_50.size ≤ to_size64 store_at_7.current_offset ∧ (3 : Int) = 0 ∧
          [0, 0, 0] = ([] : List Nat)) ∨
       ∃ d, libcdata_array_get_entry_by_index volume_50.store_descriptors_array
          store_at_7.store_descriptor_index = some d ∧
        ((3 : Int), [0, 0, 0]) = read_in_full d store_at_7.file_io_handle []
          (read_clamped_size store_at_7.current_offset volume_50.size 3)
          store_at_7.current_offset d)) :=
  ⟨rfl, by decide, by decide, by decide, by decide, by decide,
    (read_advances_offset_by_delivered_count read_in_full store_at_7 volume_50 [] 3
      rfl (by decide) (by decide)).2.1 3 [0, 0, 0]
      (some { store_at_7 with current_offset := 10 }) (by decide) (by decide) (by decide)⟩

/-! ## `libvshadow_store_read_random` against seek followed by read -/

/-- The inner read changes nothing of the handle but its current offset. -/
theorem read_from_handle_frame (read : store_descriptor_read_buffer_fn)
    (s : libvshadow_internal_store) (file_io_handle : Nat) (buffer : List Nat)
    (buffer_size : Nat) :
    ∃ c : Int, (libvshadow_store_read_buffer_from_file_io_handle read (some s)
      file_io_handle buffer buffer_size).2.2 = some { s with current_offset := c } := by
  rcases Option.eq_none_or_eq_some s.internal_volume with hv | ⟨v, hv⟩
  · exact ⟨s.current_offset, by
      rw [read_from_handle_without_volume read s file_io_handle buffer buffer_size hv]⟩
  · rw [read_from_handle_with_volume read s v file_io_handle buffer buffer_size hv]
    split_ifs with h1 h2
    · exact ⟨s.current_offset, rfl⟩
    · exact ⟨s.current_offset, rfl⟩
    · rcases Option.eq_none_or_eq_some (libcdata_array_get_entry_by_index
        v.store_descriptors_array s.store_descriptor_index) with hd | ⟨d, hd⟩
      · rw [hd]
        exact ⟨s.current_offset, rfl⟩
      · rw [hd]
        simp only
        split_ifs with h3
        · exact ⟨s.current_offset, rfl⟩
        · exact ⟨_, rfl⟩

/-- `libvshadow_store_read_random` changes nothing of the handle but its
current offset. -/
theorem read_random_frame (read : store_descriptor_read_buffer_fn)
    (s : libvshadow_internal_store) (buffer : List Nat) (buffer_size : Nat) (offset : Int) :
    ∃ c : Int, (libvshadow_store_read_random read (some s) buffer buffer_size offset).2.2 =
      some { s with current_offset := c } := by
  by_cases hneg : offset < 0
  · exact ⟨s.current_offset, by
      rw [read_random_negative_offset read s buffer buffer_size offset hneg]⟩
  · rcases Option.eq_none_or_eq_some s.internal_volume with hv | ⟨v, hv⟩
    · exact ⟨s.current_offset, by
        rw [read_random_without_volume read s buffer buffer_size offset hv]⟩
    · rw [read_random_nonneg_offset read s v buffer buffer_size offset hv (not_lt.mp hneg)]
      obtain ⟨c, hc⟩ := read_from_handle_frame read { s with current_offset := offset }
        s.file_io_handle buffer buffer_size
      refine ⟨c, ?_⟩
      split_ifs with h
      · exact hc
      · exact hc

/-- With a request below `2^63` bytes on a volume whose size fits `off64_t`, the
size handed to the store descriptor converts to a non-negative `ssize_t`. -/
theorem read_clamped_cast_nonneg (c : Int) (size n : Nat)
    (hsize : size < 2 ^ 63) (hn : n < 2 ^ 63) :
    0 ≤ to_ssize64 (read_clamped_size c size n) := by
  unfold read_clamped_size
  unfold to_ssize64 wrap_off64
  split_ifs with hgt
  · omega
  · omega

/-- The inner read either fails with -1 and leaves the handle as it was, or
returns a count `r ≥ 0` and leaves the handle `r` bytes further. -/
theorem read_from_handle_result_cases (read : store_descriptor_read_buffer_fn)
    (s : libvshadow_internal_store) (v : libvshadow_internal_volume)
    (file_io_handle : Nat) (buffer : List Nat) (buffer_size : Nat)
    (hv : s.internal_volume = some v) (hsize : v.size < 2 ^ 63)
    (hcur : s.current_offset < 2 ^ 63) (hbuf : buffer_size < 2 ^ 63) :
    ((libvshadow_store_read_buffer_from_file_io_handle read (some s) file_io_handle
        buffer buffer_size).1 = -1 ∧
      (libvshadow_store_read_buffer_from_file_io_handle read (some s) file_io_handle
        buffer buffer_size).2.2 = some s) ∨
    (0 ≤ (libvshadow_store_read_buffer_from_file_io_handle read (some s) file_io_handle
        buffer buffer_size).1 ∧
      (libvshadow_store_read_buffer_from_file_io_handle read (some s) file_io_handle
        buffer buffer_size).2.2 = some { s with current_offset := s.current_offset +
          (libvshadow_store_read_buffer_from_file_io_handle read (some s) file_io_handle
            buffer buffer_size).1 }) := by
  have hbuf64 : buffer_size < 2 ^ 64 := by omega
  by_cases hnn : 0 ≤ (libvshadow_store_read_buffer_from_file_io_handle read (some s)
      file_io_handle buffer buffer_size).1
  · right
    exact ⟨hnn, (read_from_handle_success read s v file_io_handle buffer buffer_size hv
      hsize hcur hbuf64 _ _ _ rfl hnn).1⟩
  · left
    rw [read_from_handle_with_volume read s v file_io_handle buffer buffer_size hv]
      at hnn ⊢
    by_cases h0 : s.current_offset < 0
    · rw [if_pos h0]
      exact ⟨rfl, rfl⟩
    · rw [if_neg h0] at hnn ⊢
      by_cases hend : to_size64 s.current_offset ≥ v.size
      · rw [if_pos hend] at hnn
        exact absurd (le_refl (0 : Int)) hnn
      · rw [if_neg hend] at hnn ⊢
        rcases Option.eq_none_or_eq_some (libcdata_array_get_entry_by_index
          v.store_descriptors_array s.store_descriptor_index) with hd | ⟨d, hd⟩
        · rw [hd]
          exact ⟨rfl, rfl⟩
        · rw [hd] at hnn ⊢
          dsimp only at hnn ⊢
          split_ifs at hnn ⊢ with hne
          · exact ⟨rfl, rfl⟩
          · exfalso
            apply hnn
            rw [not_not.mp hne]
            exact read_clamped_cast_nonneg s.current_offset v.size buffer_size hsize hbuf

/-- C7 (counterexample): on `store_at_7`, `libvshadow_store_get_offset` yields 7
before `libvshadow_store_read_random` reads 3 bytes at offset 20, and 23 after
it. -/
theorem read_random_changes_current_offset :
    libvshadow_store_get_offset (some store_at_7) (some 0) = (1, some 7) ∧
    libvshadow_store_read_random read_in_full (some store_at_7) [] 3 20 =
      (3, [0, 0, 0], some { store_at_7 with current_offset := 23 }) ∧
    libvshadow_store_get_offset
      (libvshadow_store_read_random read_in_full (some store_at_7) [] 3 20).2.2 (some 0) =
      (1, some 23) := by
  decide

/-- C7 (amended): `libvshadow_store_read_random` repositions the handle.  On a
handle with a volume attached (size fitting `off64_t`), for an offset `o ≥ 0`
and a buffer size below `2^63`, the call returns `r ≥ -1` and afterwards
`libvshadow_store_get_offset` yields `o + r` when `r` is a count and `o` when
the read failed (`r = -1`), whatever the current offset was before. -/
theorem read_random_sets_current_offset
    (read : store_descriptor_read_buffer_fn)
    (s : libvshadow_internal_store) (v : libvshadow_internal_volume)
    (buffer : List Nat) (buffer_size : Nat) (o : Int)
    (hv : s.internal_volume = some v) (hsize : v.size < 2 ^ 63)
    (h0 : 0 ≤ o) (ho : o < 2 ^ 63) (hbuf : buffer_size < 2 ^ 63) :
    ∃ (r : Int) (b : List Nat),
      libvshadow_store_read_random read (some s) buffer buffer_size o =
        (r, b, some { s with current_offset := o + max r 0 }) ∧
      -1 ≤ r ∧
      ∀ c : Int, libvshadow_store_get_offset
        (libvshadow_store_read_random read (some s) buffer buffer_size o).2.2 (some c) =
        (1, some (o + max r 0)) := by
  have hcases := read_from_handle_result_cases read { s with current_offset := o } v
    s.file_io_handle buffer buffer_size hv hsize ho hbuf
  have hrr := read_random_nonneg_offset read s v buffer buffer_size o hv h0
  rcases hcases with ⟨h1, h2⟩ | ⟨h1, h2⟩
  · have hle : (libvshadow_store_read_buffer_from_file_io_handle read
        (some { s with current_offset := o }) s.file_io_handle buffer buffer_size).1 ≤ -1 :=
      le_of_eq h1
    rw [if_pos hle, h2] at hrr
    have hmax : o + max (-1 : Int) 0 = o := by
      rw [max_eq_right (by omega : (-1 : Int) ≤ 0), add_zero]
    refine ⟨-1, (libvshadow_store_read_buffer_from_file_io_handle read
        (some { s with current_offset := o }) s.file_io_handle buffer buffer_size).2.1,
      ?_, le_refl _, ?_⟩
    · rw [hrr, hmax]
    · intro c
      rw [hrr, hmax]
      exact get_offset_with_volume _ v c hv
  · have hle : ¬ (libvshadow_store_read_buffer_from_file_io_handle read
        (some { s with current_offset := o }) s.file_io_handle buffer buffer_size).1 ≤ -1 := by
      omega
    rw [if_neg hle] at hrr
    have hmax : max (libvshadow_store_read_buffer_from_file_io_handle read
        (some { s with current_offset := o }) s.file_io_handle buffer buffer_size).1 0 =
        (libvshadow_store_read_buffer_from_file_io_handle read
        (some { s with current_offset := o }) s.file_io_handle buffer buffer_size).1 :=
      max_eq_left h1
    refine ⟨(libvshadow_store_read_buffer_from_file_io_handle read
        (some { s with current_offset := o }) s.file_io_handle buffer buffer_size).1,
      (libvshadow_store_read_buffer_from_file_io_handle read
        (some { s with current_offset := o }) s.file_io_handle buffer buffer_size).2.1,
      ?_, by omega, ?_⟩
    · rw [hrr, hmax, ← h2]
    · intro c
      rw [hrr, hmax, h2]
      exact get_offset_with_volume _ v c hv

/-- Witness of C7 (amended): on `store_at_7`, reading 3 bytes at offset 20. -/
theorem read_random_sets_current_offset_witness :
    store_at_7.internal_volume = some volume_50 ∧ volume_50.size < 2 ^ 63 ∧
    ((0 : Int) ≤ 20) ∧ ((20 : Int) < 2 ^ 63) ∧ 3 < 2 ^ 63 ∧
    ∃ (r : Int) (b : List Nat),
      libvshadow_store_read_random read_in_full (some store_at_7) [] 3 20 =
        (r, b, some { store_at_7 with current_offset := 20 + max r 0 }) ∧
      -1 ≤ r ∧
      ∀ c : Int, libvshadow_store_get_offset
        (libvshadow_store_read_random read_in_full (some store_at_7) [] 3 20).2.2 (some c) =
        (1, some (20 + max r 0)) :=
  ⟨rfl, by decide, by decide, by decide, by decide,
    read_random_sets_current_offset read_in_full store_at_7 volume_50 [] 3 20 rfl
      (by decide) (by decide) (by decide) (by decide)⟩

/-! ## One byte inside the volume -/

/-- A one-byte request that starts inside the volume is not cut. -/
theorem read_clamped_size_one (o : Int) (size : Nat)
    (h0 : 0 ≤ o) (hlt : o < (size : Int)) (hsize : size < 2 ^ 64) :
    read_clamped_size o size 1 = 1 ∧ to_size64 o < size := by
  unfold read_clamped_size to_size64
  constructor
  · rw [if_neg]
    omega
  · omega

/-- C8 (counterexample): the store descriptor of `store_at_7` records a volume
size of 100 and its read always succeeds in full, yet reading one byte at
offset 60, inside `[0, 100)`, returns 0: the handle's volume has 50 bytes. -/
theorem read_random_one_byte_below_descriptor_size_returns_zero :
    libvshadow_store_get_volume_size (some store_at_7) (some 0) = (1, some 100) ∧
    ((0 : Int) ≤ 60 ∧ (60 : Int) < 100) ∧
    libvshadow_store_read_random read_in_full (some store_at_7) [] 1 60 =
      (0, [], some { store_at_7 with current_offset := 60 }) := by
  decide

/-- C8 (amended): for every handle with a volume attached whose store
descriptor exists, and every offset `o` in `[0, size)` where `size` is the size
of the handle's volume (`internal_volume->size`), if the store descriptor's
read of 1 byte at `o` succeeds in full then `libvshadow_store_read_random` of
1 byte at `o` returns exactly 1 and hands back the buffer the store descriptor
filled. -/
theorem read_random_one_byte_inside_volume
    (read : store_descriptor_read_buffer_fn)
    (s : libvshadow_internal_store) (v : libvshadow_internal_volume)
    (d : libvshadow_store_descriptor) (buffer : List Nat) (o : Int)
    (hv : s.internal_volume = some v) (hsize : v.size < 2 ^ 64)
    (hd : libcdata_array_get_entry_by_index v.store_descriptors_array
      s.store_descriptor_index = some d)
    (h0 : 0 ≤ o) (hlt : o < (v.size : Int))
    (hfull : (read d s.file_io_handle buffer 1 o d).1 = 1) :
    (libvshadow_store_read_random read (some s) buffer 1 o).1 = 1 ∧
    (libvshadow_store_read_random read (some s) buffer 1 o).2.1 =
      (read d s.file_io_handle buffer 1 o d).2 := by
  obtain ⟨hclamp, hbelow⟩ := read_clamped_size_one o v.size h0 hlt hsize
  have hcast : to_ssize64 1 = 1 := by decide
  have hinner := read_from_handle_below_end read { s with current_offset := o } v d
    s.file_io_handle buffer 1 hv h0 hbelow hd
  dsimp only at hinner
  rw [hclamp, hcast, hfull, if_neg (by decide)] at hinner
  have hpos : ¬ ((1 : Int) ≤ -1) := by decide
  rw [read_random_nonneg_offset read s v buffer 1 o hv h0, hinner]
  dsimp only
  rw [if_neg hpos]
  exact ⟨rfl, rfl⟩

/-- Witness of C8 (amended): one byte at offset 49 of the 50-byte volume. -/
theorem read_random_one_byte_inside_volume_witness :
    store_at_7.internal_volume = some volume_50 ∧ volume_50.size < 2 ^ 64 ∧
    libcdata_array_get_entry_by_index volume_50.store_descriptors_array
      store_at_7.store_descriptor_index = some descriptor_100 ∧
    ((0 : Int) ≤ 49) ∧ ((49 : Int) < (volume_50.size : Int)) ∧
    (read_in_full descriptor_100 store_at_7.file_io_handle [] 1 49 descriptor_100).1 = 1 ∧
    ((libvshadow_store_read_random read_in_full (some store_at_7) [] 1 49).1 = 1 ∧
      (libvshadow_store_read_random read_in_full (some store_at_7) [] 1 49).2.1 =
        (read_in_full descriptor_100 store_at_7.file_io_handle [] 1 49 descriptor_100).2) :=
  ⟨rfl, by decide, by decide, by decide, by decide, by decide,
    read_random_one_byte_inside_volume read_in_full store_at_7 volume_50 descriptor_100
      [] 49 rfl (by decide) (by decide) (by decide) (by decide) (by decide)⟩

/-! ## Determinism of `libvshadow_store_read_random` -/

/-- The count and the bytes of `libvshadow_store_read_random` do not depend on
the current offset of the handle it is called on. -/
theorem read_random_ignores_current_offset (read : store_descriptor_read_buffer_fn)
    (s : libvshadow_internal_store) (c : Int)
    (buffer : List Nat) (buffer_size : Nat) (o : Int) :
    (libvshadow_store_read_random read (some { s with current_offset := c })
        buffer buffer_size o).1 =
      (libvshadow_store_read_random read (some s) buffer buffer_size o).1 ∧
    (libvshadow_store_read_random read (some { s with current_offset := c })
        buffer buffer_size o).2.1 =
      (libvshadow_store_read_random read (some s) buffer buffer_size o).2.1 := by
  by_cases hneg : o < 0
  · rw [read_random_negative_offset read s buffer buffer_size o hneg,
      read_random_negative_offset read _ buffer buffer_size o hneg]
    exact ⟨rfl, rfl⟩
  · rcases Option.eq_none_or_eq_some s.internal_volume with hv | ⟨v, hv⟩
    · rw [read_random_without_volume read s buffer buffer_size o hv,
        read_random_without_volume read { s with current_offset := c } buffer buffer_size
          o hv]
      exact ⟨rfl, rfl⟩
    · rw [read_random_nonneg_offset read s v buffer buffer_size o hv (not_lt.mp hneg),
        read_random_nonneg_offset read { s with current_offset := c } v buffer buffer_size
          o hv (not_lt.mp hneg)]
      exact ⟨rfl, rfl⟩

/-- C9: `libvshadow_store_read_random` is independent of the cursor.  For every
store descriptor read, handle, buffer, length and offset, two handles that
differ only in their current offset return the same count and the same bytes,
and so does a second call made on the handle that a first call leaves. -/
theorem read_random_deterministic (read : store_descriptor_read_buffer_fn)
    (s : libvshadow_internal_store) (c1 c2 : Int)
    (buffer : List Nat) (buffer_size : Nat) (o : Int) :
    ((libvshadow_store_read_random read (some { s with current_offset := c1 })
          buffer buffer_size o).1 =
        (libvshadow_store_read_random read (some { s with current_offset := c2 })
          buffer buffer_size o).1 ∧
      (libvshadow_store_read_random read (some { s with current_offset := c1 })
          buffer buffer_size o).2.1 =
        (libvshadow_store_read_random read (some { s with current_offset := c2 })
          buffer buffer_size o).2.1) ∧
    ((libvshadow_store_read_random read
          (libvshadow_store_read_random read (some s) buffer buffer_size o).2.2
          buffer buffer_size o).1 =
        (libvshadow_store_read_random read (some s) buffer buffer_size o).1 ∧
      (libvshadow_store_read_random read
          (libvshadow_store_read_random read (some s) buffer buffer_size o).2.2
          buffer buffer_size o).2.1 =
        (libvshadow_store_read_random read (some s) buffer buffer_size o).2.1) := by
  constructor
  · have h1 := read_random_ignores_current_offset read s c1 buffer buffer_size o
    have h2 := read_random_ignores_current_offset read s c2 buffer buffer_size o
    exact ⟨h1.1.trans h2.1.symm, h1.2.trans h2.2.symm⟩
  · obtain ⟨c, hc⟩ := read_random_frame read s buffer buffer_size o
    rw [hc]
    exact read_random_ignores_current_offset read s c buffer buffer_size o

/-! ## Short reads -/

/-- For a request that fits `ssize_t` at an offset below the volume size, the
length handed to the store descriptor is `min b (size - c)`, it is its own
`ssize_t` value, and the offset passes the end-of-volume test. -/
theorem read_clamped_size_of_ssize_request (c : Int) (size b : Nat)
    (h0 : 0 ≤ c) (hc : c < 2 ^ 63) (hlt : c < (size : Int)) (hb : b < 2 ^ 63) :
    read_clamped_size c size b = min b (size - c.toNat) ∧
    to_ssize64 (min b (size - c.toNat)) = ((min b (size - c.toNat) : Nat) : Int) ∧
    to_size64 c < size := by
  refine ⟨?_, ?_, ?_⟩
  · unfold read_clamped_size to_size64
    split_ifs with h
    · omega
    · omega
  · apply to_ssize64_of_lt
    omega
  · unfold to_size64
    omega

/-- C10 (counterexample): on `store_at_7` (offset 7, volume of 50 bytes) the
end-clamped size of a request of `2^64 - 1` bytes is 43 and the failing store
descriptor delivers -1, a different count; the count is accepted all the same
and the current offset moves from 7 to 6.  With a request of `2^64 - 3` bytes
and a store descriptor that delivers -3, `libvshadow_store_read_buffer` returns
-3, not -1, and the offset moves to 4. -/
theorem short_read_accepted_when_request_wraps :
    min (2 ^ 64 - 1) (volume_50.size - store_at_7.current_offset.toNat) = 43 ∧
    (read_failing descriptor_100 1 [] (2 ^ 64 - 1) 7 descriptor_100).1 = -1 ∧
    libvshadow_store_read_buffer_from_file_io_handle read_failing (some store_at_7) 1 []
        (2 ^ 64 - 1) =
      (-1, [], some { store_at_7 with current_offset := 6 }) ∧
    libvshadow_store_read_buffer read_failing (some store_at_7) [] (2 ^ 64 - 1) =
      (-1, [], some { store_at_7 with current_offset := 6 }) ∧
    libvshadow_store_read_random read_failing (some store_at_7) [] (2 ^ 64 - 1) 7 =
      (-1, [], some { store_at_7 with current_offset := 6 }) ∧
    min (2 ^ 64 - 3) (volume_50.size - store_at_7.current_offset.toNat) = 43 ∧
    libvshadow_store_read_buffer read_reporting_size (some store_at_7) [] (2 ^ 64 - 3) =
      (-3, [2 ^ 64 - 3], some { store_at_7 with current_offset := 4 }) := by
  decide

/-- C10 (amended): a short read is an error, never end of data, for a request
that fits `ssize_t`.  For a handle with a volume attached whose store
descriptor exists, a buffer size below `2^63` and a current offset `c` (a
non-negative `off64_t`) below the volume size, the store descriptor is asked
for `min buffer_size (size - c)` bytes; if it delivers any other count then
`libvshadow_store_read_buffer_from_file_io_handle` and
`libvshadow_store_read_buffer` return -1 and leave the handle, hence its
current offset, as it was; `libvshadow_store_read_random` at such an offset `o`
returns -1 and leaves the handle at `o`, the offset the read started from. -/
theorem short_read_is_error
    (read : store_descriptor_read_buffer_fn)
    (s : libvshadow_internal_store) (v : libvshadow_internal_volume)
    (d : libvshadow_store_descriptor) (buffer : List Nat) (buffer_size : Nat)
    (hv : s.internal_volume = some v)
    (hd : libcdata_array_get_entry_by_index v.store_descriptors_array
      s.store_descriptor_index = some d)
    (hbuf : buffer_size < 2 ^ 63) :
    (∀ file_io_handle : Nat, 0 ≤ s.current_offset → s.current_offset < 2 ^ 63 →
      s.current_offset < (v.size : Int) →
      (read d file_io_handle buffer (min buffer_size (v.size - s.current_offset.toNat))
          s.current_offset d).1 ≠
        ((min buffer_size (v.size - s.current_offset.toNat) : Nat) : Int) →
      libvshadow_store_read_buffer_from_file_io_handle read (some s) file_io_handle
          buffer buffer_size =
        (-1, (read d file_io_handle buffer
          (min buffer_size (v.size - s.current_offset.toNat)) s.current_offset d).2,
          some s)) ∧
    (0 ≤ s.current_offset → s.current_offset < 2 ^ 63 →
      s.current_offset < (v.size : Int) →
      (read d s.file_io_handle buffer (min buffer_size (v.size - s.current_offset.toNat))
          s.current_offset d).1 ≠
        ((min buffer_size (v.size - s.current_offset.toNat) : Nat) : Int) →
      libvshadow_store_read_buffer read (some s) buffer buffer_size =
        (-1, (read d s.file_io_handle buffer
          (min buffer_size (v.size - s.current_offset.toNat)) s.current_offset d).2,
          some s)) ∧
    (∀ o : Int, 0 ≤ o → o < 2 ^ 63 → o < (v.size : Int) →
      (read d s.file_io_handle buffer (min buffer_size (v.size - o.toNat)) o d).1 ≠
        ((min buffer_size (v.size - o.toNat) : Nat) : Int) →
      libvshadow_store_read_random read (some s) buffer buffer_size o =
        (-1, (read d s.file_io_handle buffer (min buffer_size (v.size - o.toNat)) o d).2,
          some { s with current_offset := o })) := by
  refine ⟨?_, ?_, ?_⟩
  · intro file_io_handle h0 hc hlt hshort
    obtain ⟨hmin, hcast, hbelow⟩ := read_clamped_size_of_ssize_request s.current_offset
      v.size buffer_size h0 hc hlt hbuf
    rw [read_from_handle_below_end read s v d file_io_handle buffer buffer_size hv h0 hbelow
      hd, hmin, hcast, if_pos hshort]
  · intro h0 hc hlt hshort
    obtain ⟨hmin, hcast, hbelow⟩ := read_clamped_size_of_ssize_request s.current_offset
      v.size buffer_size h0 hc hlt hbuf
    rw [read_buffer_unfold,
      read_from_handle_below_end read s v d s.file_io_handle buffer buffer_size hv h0 hbelow
        hd, hmin, hcast, if_pos hshort]
    dsimp only
    split_ifs <;> rfl
  · intro o h0 hc hlt hshort
    obtain ⟨hmin, hcast, hbelow⟩ := read_clamped_size_of_ssize_request o v.size buffer_size
      h0 hc hlt hbuf
    have hinner := read_from_handle_below_end read { s with current_offset := o } v d
      s.file_io_handle buffer buffer_size hv h0 hbelow hd
    dsimp only at hinner
    rw [hmin, hcast, if_pos hshort] at hinner
    rw [read_random_nonneg_offset read s v buffer buffer_size o hv h0, hinner]
    dsimp only
    rw [if_pos (le_refl _)]

/-- Witness of C10: on `store_at_7` the store descriptor read `read_failing`
delivers -1 for the 3 bytes asked at offset 7; the read returns -1 and the
handle stays at 7. -/
theorem short_read_is_error_witness :
    store_at_7.internal_volume = some volume_50 ∧
    libcdata_array_get_entry_by_index volume_50.store_descriptors_array
      store_at_7.store_descriptor_index = some descriptor_100 ∧
    3 < 2 ^ 63 ∧
    (0 ≤ store_at_7.current_offset) ∧ store_at_7.current_offset < 2 ^ 63 ∧
    store_at_7.current_offset < (volume_50.size : Int) ∧
    (read_failing descriptor_100 1 []
        (min 3 (volume_50.size - store_at_7.current_offset.toNat))
        store_at_7.current_offset descriptor_100).1 ≠
      ((min 3 (volume_50.size - store_at_7.current_offset.toNat) : Nat) : Int) ∧
    libvshadow_store_read_buffer_from_file_io_handle read_failing (some store_at_7) 1 [] 3 =
      (-1, (read_failing descriptor_100 1 []
        (min 3 (volume_50.size - store_at_7.current_offset.toNat))
        store_at_7.current_offset descriptor_100).2, some store_at_7) :=
  ⟨rfl, by decide, by decide, by decide, by decide, by decide, by decide,
    (short_read_is_error read_failing store_at_7 volume_50 descriptor_100 [] 3 rfl
      (by decide) (by decide)).1 1 (by decide) (by decide) (by decide) (by decide)⟩

/-! ## Unsupported whence -/

/-- C19: for every handle state and offset, `libvshadow_store_seek_offset` with
a whence other than `SEEK_SET`, `SEEK_CUR` and `SEEK_END` returns -1 and leaves
the handle, and so its current offset, unchanged. -/
theorem seek_offset_unsupported_whence_fails
    (s : libvshadow_internal_store) (offset whence : Int)
    (hw : whence ≠ SEEK_SET ∧ whence ≠ SEEK_CUR ∧ whence ≠ SEEK_END) :
    libvshadow_store_seek_offset (some s) offset whence = (-1, some s) ∧
    (∀ s' : libvshadow_internal_store,
      (libvshadow_store_seek_offset (some s) offset whence).2 = some s' →
      s'.current_offset = s.current_offset) := by
  have hmain : libvshadow_store_seek_offset (some s) offset whence = (-1, some s) := by
    rcases Option.eq_none_or_eq_some s.internal_volume with hvol | ⟨v, hvol⟩
    · exact seek_offset_without_volume s offset whence hvol
    · rw [seek_offset_with_volume s v offset whence hvol, if_pos ⟨hw.2.1, hw.2.2, hw.1⟩]
  refine ⟨hmain, ?_⟩
  intro s' hs'
  rw [hmain] at hs'
  simp only [Option.some.injEq] at hs'
  rw [← hs']

/-- Witness of C19: `seek(5, 3)` on `store_at_7` fails and leaves offset 7. -/
theorem seek_offset_unsupported_whence_fails_witness :
    ((3 : Int) ≠ SEEK_SET ∧ (3 : Int) ≠ SEEK_CUR ∧ (3 : Int) ≠ SEEK_END) ∧
    (libvshadow_store_seek_offset (some store_at_7) 5 3 = (-1, some store_at_7) ∧
      (∀ s' : libvshadow_internal_store,
        (libvshadow_store_seek_offset (some store_at_7) 5 3).2 = some s' →
        s'.current_offset = store_at_7.current_offset)) :=
  ⟨by decide, seek_offset_unsupported_whence_fails store_at_7 5 3 (by decide)⟩

/-! ## The length handed to the store descriptor -/

/-- When `c + b` does not exceed the `size64_t` range, the length handed to the
store descriptor is `min b (size - c)`. -/
theorem read_clamped_size_eq_min (c : Int) (size b : Nat)
    (h0 : 0 ≤ c) (hlt : c < (size : Int)) (hsize : size < 2 ^ 64)
    (hsum : c + (b : Int) < 2 ^ 64) :
    read_clamped_size c size b = min b (size - c.toNat) := by
  unfold read_clamped_size to_size64
  split_ifs with h
  · omega
  · omega

/-- When `c + b` wraps around `2^64` and the wrapped sum does not exceed the
volume size, the request is handed to the store descriptor uncut. -/
theorem read_clamped_size_of_wrap (c : Int) (size b : Nat)
    (h0 : 0 ≤ c) (hc : c < 2 ^ 64) (hb : b < 2 ^ 64)
    (hsum : 2 ^ 64 ≤ c + (b : Int)) (hle : c + (b : Int) - 2 ^ 64 ≤ (size : Int)) :
    read_clamped_size c size b = b := by
  unfold read_clamped_size to_size64
  rw [if_neg]
  omega

/-- C20 (what the code does): on `store_at_7` (current offset 7, volume of 50
bytes) a request of `2^64 - 3` bytes makes `7 + buffer_size` wrap to 4, which
is not above 50, so the test of line 290 does not cut the request: the store
descriptor is asked for `2^64 - 3` bytes, not for `min (2^64 - 3) (50 - 7) = 43`,
and the accepted count `-3` moves the handle back to offset 4. -/
theorem read_request_not_clamped_when_sum_wraps :
    read_clamped_size store_at_7.current_offset volume_50.size (2 ^ 64 - 3) = 2 ^ 64 - 3 ∧
    min (2 ^ 64 - 3) (volume_50.size - store_at_7.current_offset.toNat) = 43 ∧
    libvshadow_store_read_buffer_from_file_io_handle read_reporting_size (some store_at_7)
        1 [] (2 ^ 64 - 3) =
      (-3, [2 ^ 64 - 3], some { store_at_7 with current_offset := 4 }) := by
  decide

/-! ## The current offset stays non-negative -/

theorem wrap_off64_lt (x : Int) : wrap_off64 x < 2 ^ 63 := by
  unfold wrap_off64
  omega

/-- On a volume whose size fits `off64_t`, a count accepted by the check of
line 319 leaves a non-negative offset, also when the request was not cut
because `c + buffer_size` wrapped. -/
theorem read_accepted_count_keeps_offset_nonneg (c : Int) (size n : Nat)
    (h0 : 0 ≤ c) (hc : c < 2 ^ 63) (hlt : to_size64 c < size) (hsize : size < 2 ^ 63) :
    0 ≤ wrap_off64 (c + to_ssize64 (read_clamped_size c size n)) := by
  unfold read_clamped_size
  unfold to_size64 at hlt ⊢
  unfold to_ssize64 wrap_off64
  split_ifs with hgt
  · omega
  · omega

theorem seek_offset_keeps_offset_valid (s : libvshadow_internal_store)
    (v : libvshadow_internal_volume) (offset whence : Int)
    (hinv : store_offset_valid v s) (hoff : in_off64 offset) :
    ∃ s', (libvshadow_store_seek_offset (some s) offset whence).2 = some s' ∧
      store_offset_valid v s' := by
  obtain ⟨hv, h0, h1⟩ := hinv
  rw [seek_offset_with_volume s v offset whence hv]
  split_ifs with hw hneg
  · exact ⟨s, rfl, hv, h0, h1⟩
  · exact ⟨s, rfl, hv, h0, h1⟩
  · refine ⟨_, rfl, hv, not_lt.mp hneg, ?_⟩
    show seek_offset_adjusted s.current_offset v.size offset whence < 2 ^ 63
    unfold seek_offset_adjusted
    split_ifs
    · exact wrap_off64_lt _
    · exact wrap_off64_lt _
    · exact hoff.2

theorem read_from_handle_keeps_offset_valid (read : store_descriptor_read_buffer_fn)
    (s : libvshadow_internal_store) (v : libvshadow_internal_volume)
    (file_io_handle : Nat) (buffer : List Nat) (buffer_size : Nat)
    (hinv : store_offset_valid v s) (hsize : v.size < 2 ^ 63) :
    ∃ s', (libvshadow_store_read_buffer_from_file_io_handle read (some s) file_io_handle
        buffer buffer_size).2.2 = some s' ∧ store_offset_valid v s' := by
  obtain ⟨hv, h0, h1⟩ := hinv
  rw [read_from_handle_with_volume read s v file_io_handle buffer buffer_size hv]
  split_ifs with hneg hend
  · exact ⟨s, rfl, hv, h0, h1⟩
  · exact ⟨s, rfl, hv, h0, h1⟩
  · rcases Option.eq_none_or_eq_some (libcdata_array_get_entry_by_index
      v.store_descriptors_array s.store_descriptor_index) with hd | ⟨d, hd⟩
    · rw [hd]
      exact ⟨s, rfl, hv, h0, h1⟩
    · rw [hd]
      dsimp only
      split_ifs with hne
      · exact ⟨s, rfl, hv, h0, h1⟩
      · refine ⟨_, rfl, hv, ?_, wrap_off64_lt _⟩
        show 0 ≤ wrap_off64 (s.current_offset + _)
        rw [not_not.mp hne]
        exact read_accepted_count_keeps_offset_nonneg s.current_offset v.size buffer_size
          h0 h1 (not_le.mp hend) hsize

theorem store_call_keeps_offset_valid (read : store_descriptor_read_buffer_fn)
    (s : libvshadow_internal_store) (v : libvshadow_internal_volume) (call : store_call)
    (hinv : store_offset_valid v s) (hsize : v.size < 2 ^ 63)
    (hcall : store_call_in_range call) :
    ∃ s', store_call_apply read (some s) call = some s' ∧ store_offset_valid v s' := by
  cases call with
  | seek_offset offset whence =>
    exact seek_offset_keeps_offset_valid s v offset whence hinv hcall
  | read_buffer buffer buffer_size =>
    obtain ⟨s', hs', hinv'⟩ := read_from_handle_keeps_offset_valid read s v
      s.file_io_handle buffer buffer_size hinv hsize
    refine ⟨s', ?_, hinv'⟩
    show (libvshadow_store_read_buffer read (some s) buffer buffer_size).2.2 = some s'
    rw [read_buffer_unfold]
    split_ifs
    · exact hs'
    · exact hs'
  | read_buffer_from_file_io_handle file_io_handle buffer buffer_size =>
    exact read_from_handle_keeps_offset_valid read s v file_io_handle buffer buffer_size
      hinv hsize
  | read_random buffer buffer_size offset =>
    show ∃ s', (libvshadow_store_read_random read (some s) buffer buffer_size offset).2.2 =
      some s' ∧ store_offset_valid v s'
    by_cases hneg : offset < 0
    · rw [read_random_negative_offset read s buffer buffer_size offset hneg]
      exact ⟨s, rfl, hinv⟩
    · have h0 : 0 ≤ offset := not_lt.mp hneg
      rw [read_random_nonneg_offset read s v buffer buffer_size offset hinv.1 h0]
      obtain ⟨s', hs', hinv'⟩ := read_from_handle_keeps_offset_valid read
        { s with current_offset := offset } v s.file_io_handle buffer buffer_size
        ⟨hinv.1, h0, hcall.2.2⟩ hsize
      refine ⟨s', ?_, hinv'⟩
      split_ifs
      · exact hs'
      · exact hs'

theorem store_calls_keep_offset_valid (read : store_descriptor_read_buffer_fn)
    (v : libvshadow_internal_volume) (hsize : v.size < 2 ^ 63) (calls : List store_call) :
    ∀ s : libvshadow_internal_store, store_offset_valid v s →
      (∀ call ∈ calls, store_call_in_range call) →
      ∃ s', store_calls_run read (some s) calls = some s' ∧ store_offset_valid v s' := by
  induction calls with
  | nil =>
    intro s hinv _
    exact ⟨s, rfl, hinv⟩
  | cons call rest ih =>
    intro s hinv hcalls
    obtain ⟨s1, hs1, hinv1⟩ := store_call_keeps_offset_valid read s v call hinv hsize
      (hcalls call (List.mem_cons_self _ _))
    obtain ⟨s2, hs2, hinv2⟩ := ih s1 hinv1
      (fun c hc => hcalls c (List.mem_cons_of_mem _ hc))
    refine ⟨s2, ?_, hinv2⟩
    show store_calls_run read (store_call_apply read (some s) call) rest = some s2
    rw [hs1]
    exact hs2

/-- C18 (counterexample): two handles created by `libvshadow_store_initialize`
whose current offset becomes negative.  On a volume of `2^64 - 1` bytes, a
request of `2^64 - 1` bytes at offset 0 is not cut, the store descriptor fails
with -1, and -1 equals `(ssize_t) buffer_size`, so the count is accepted and
the offset becomes -1.  On a volume of `2^63 + 10` bytes, after
`seek(2^63 - 1, SEEK_SET)` a read of 5 bytes carries the 64-bit offset past
`2^63 - 1`. -/
theorem current_offset_becomes_negative :
    libvshadow_store_initialize (some none) 1 1 (some volume_max) 0 =
      (1, some (some store_on_volume_max)) ∧
    store_calls_run read_failing (some store_on_volume_max)
        [store_call.read_buffer_from_file_io_handle 1 [] (2 ^ 64 - 1)] =
      some { store_on_volume_max with current_offset := -1 } ∧
    libvshadow_store_initialize (some none) 1 1 (some volume_above_off64) 0 =
      (1, some (some store_on_volume_above_off64)) ∧
    store_calls_run read_in_full (some store_on_volume_above_off64)
        [store_call.seek_offset (2 ^ 63 - 1) SEEK_SET] =
      some { store_on_volume_above_off64 with current_offset := 2 ^ 63 - 1 } ∧
    store_calls_run read_in_full (some store_on_volume_above_off64)
        [store_call.seek_offset (2 ^ 63 - 1) SEEK_SET, store_call.read_buffer [] 5] =
      some { store_on_volume_above_off64 with current_offset := -(2 ^ 63) + 4 } := by
  decide

/-- C18 (amended): a handle created by `libvshadow_store_initialize` has current
offset 0, and on a volume whose size fits `off64_t` (`size < 2^63`) every
sequence of `libvshadow_store_seek_offset`, `libvshadow_store_read_buffer`,
`libvshadow_store_read_buffer_from_file_io_handle` and
`libvshadow_store_read_random` calls, successful or failed, with 64-bit offset
arithmetic, leaves a handle whose current offset is non-negative. -/
theorem current_offset_stays_nonneg
    (read : store_descriptor_read_buffer_fn)
    (file_io_handle io_handle : Nat) (v : libvshadow_internal_volume)
    (store_descriptor_index : Int) (s0 : libvshadow_internal_store)
    (calls : List store_call)
    (hinit : libvshadow_store_initialize (some none) file_io_handle io_handle (some v)
      store_descriptor_index = (1, some (some s0)))
    (hsize : v.size < 2 ^ 63)
    (hcalls : ∀ call ∈ calls, store_call_in_range call) :
    s0.current_offset = 0 ∧
    ∃ s, store_calls_run read (some s0) calls = some s ∧ 0 ≤ s.current_offset := by
  have hs0 : s0 = {
      file_io_handle := file_io_handle
      io_handle := io_handle
      internal_volume := some v
      store_descriptor_index := store_descriptor_index
      current_offset := 0 } := by
    unfold libvshadow_store_initialize at hinit
    dsimp only at hinit
    rcases Option.eq_none_or_eq_some (libcdata_array_get_entry_by_index
      v.store_descriptors_array store_descriptor_index) with hd | ⟨d, hd⟩
    · rw [hd] at hinit
      simp at hinit
    · rw [hd] at hinit
      simp only [Prod.mk.injEq, Option.some.injEq, true_and] at hinit
      exact hinit.symm
  have hinv : store_offset_valid v s0 := by
    rw [hs0]
    exact ⟨rfl, le_refl _, by norm_num⟩
  obtain ⟨s, hs, hinv'⟩ := store_calls_keep_offset_valid read v hsize calls s0 hinv hcalls
  exact ⟨by rw [hs0], s, hs, hinv'.2.1⟩

/-- Witness of C18 (amended): a handle created on the 50-byte volume, after a
`SEEK_END` seek, two reads and a failing seek. -/
theorem current_offset_stays_nonneg_witness :
    libvshadow_store_initialize (some none) 1 1 (some volume_50) 0 =
      (1, some (some { store_at_7 with current_offset := 0 })) ∧
    volume_50.size < 2 ^ 63 ∧
    (∀ call ∈ [store_call.seek_offset (-8) SEEK_END, store_call.read_buffer [] 3,
        store_call.read_random [] 10 45, store_call.seek_offset (-100) SEEK_CUR],
      store_call_in_range call) ∧
    ({ store_at_7 with current_offset := 0 }.current_offset = 0 ∧
      ∃ s, store_calls_run read_in_full (some { store_at_7 with current_offset := 0 })
          [store_call.seek_offset (-8) SEEK_END, store_call.read_buffer [] 3,
            store_call.read_random [] 10 45, store_call.seek_offset (-100) SEEK_CUR] =
          some s ∧ 0 ≤ s.current_offset) :=
  have hrange : ∀ call ∈ [store_call.seek_offset (-8) SEEK_END, store_call.read_buffer [] 3,
      store_call.read_random [] 10 45, store_call.seek_offset (-100) SEEK_CUR],
      store_call_in_range call := by
    intro call hcall
    simp only [List.mem_cons, List.mem_singleton, List.not_mem_nil, or_false] at hcall
    rcases hcall with h | h | h | h <;> subst h
    · show in_off64 (-8)
      decide
    · show 3 < 2 ^ 64
      decide
    · show 10 < 2 ^ 64 ∧ in_off64 45
      decide
    · show in_off64 (-100)
      decide
  ⟨by decide, by decide, hrange,
    current_offset_stays_nonneg read_in_full 1 1 volume_50 0
      { store_at_7 with current_offset := 0 }
      [store_call.seek_offset (-8) SEEK_END, store_call.read_buffer [] 3,
        store_call.read_random [] 10 45, store_call.seek_offset (-100) SEEK_CUR]
      (by decide) (by decide) hrange⟩

/-! ## Block range descriptor: decoding -/

theorem list_eight_or_more (l : List Nat) (h : 8 ≤ l.length) :
    ∃ b0 b1 b2 b3 b4 b5 b6 b7 rest, l = b0 :: b1 :: b2 :: b3 :: b4 :: b5 :: b6 :: b7 :: rest := by
  rcases l with _ | ⟨b0, _ | ⟨b1, _ | ⟨b2, _ | ⟨b3, _ | ⟨b4, _ | ⟨b5, _ | ⟨b6, _ | ⟨b7, rest⟩⟩⟩⟩⟩⟩⟩⟩ <;>
    simp at h
  exact ⟨b0, b1, b2, b3, b4, b5, b6, b7, rest, rfl⟩

/-- On 8 bytes, the macro yields the little-endian value. -/
theorem byte_stream_copy_eq_u64_le_value (l : List Nat) (h8 : 8 ≤ l.length)
    (hb : ∀ b ∈ l.take 8, b < 256) :
    byte_stream_copy_to_uint64_little_endian l = u64_le_value l := by
  obtain ⟨b0, b1, b2, b3, b4, b5, b6, b7, rest, rfl⟩ := list_eight_or_more l h8
  have h0 := hb b0 (by simp)
  have h1 := hb b1 (by simp)
  have h2 := hb b2 (by simp)
  have h3 := hb b3 (by simp)
  have h4 := hb b4 (by simp)
  have h5 := hb b5 (by simp)
  have h6 := hb b6 (by simp)
  have h7 := hb b7 (by simp)
  simp only [byte_stream_copy_to_uint64_little_endian, u64_le_value, List.take_succ_cons,
    List.take_zero, List.foldr_cons, List.foldr_nil, List.getD_cons_zero, List.getD_cons_succ]
  omega

/-- Decoding the encoding of an unsigned 64-bit value gives the value back. -/
theorem u64_le_value_bytes (v : Nat) (hv : v < 2 ^ 64) : u64_le_value (u64_le_bytes v) = v := by
  simp only [u64_le_value, u64_le_bytes, List.getD_cons_zero, List.getD_cons_succ]
  omega

theorem u64_le_bytes_lt (v : Nat) : ∀ b ∈ u64_le_bytes v, b < 256 := by
  intro b hb
  simp only [u64_le_bytes, List.mem_cons, List.mem_singleton, List.not_mem_nil, or_false] at hb
  rcases hb with h | h | h | h | h | h | h | h <;> omega

theorem u64_le_bytes_eq_zero (v : Nat) (hv : v < 2 ^ 64)
    (h : u64_le_bytes v = List.replicate 8 0) : v = 0 := by
  have h2 := u64_le_value_bytes v hv
  rw [h] at h2
  simpa [u64_le_value] using h2.symm

theorem block_range_descriptor_read_unfold (d : libvshadow_block_range_descriptor)
    (data : List Nat) (block_list_entry_size : Nat) (store_index : Int)
    (hsize : block_list_entry_size ≤ SSIZE_MAX) :
    libvshadow_block_range_descriptor_read (some d) (some data) block_list_entry_size
        store_index =
      if data.take 24 = List.replicate 24 0 then (0, some d)
      else (1, some {
        offset := byte_stream_copy_to_uint64_little_endian ((data.drop 0).take 8)
        relative_offset := byte_stream_copy_to_uint64_little_endian ((data.drop 8).take 8)
        size := byte_stream_copy_to_uint64_little_endian ((data.drop 16).take 8) }) := by
  simp only [libvshadow_block_range_descriptor_read, if_neg (not_lt.mpr hsize),
    sizeof_vshadow_store_block_range_list_entry, vshadow_empty_store_block_range_list_entry,
    vshadow_store_block_range_list_entry_field]

theorem block_range_entry_field_decodes (entry : List Nat) (start : Nat)
    (hlen : start + 8 ≤ entry.length) (hbytes : ∀ b ∈ entry, b < 256) :
    byte_stream_copy_to_uint64_little_endian ((entry.drop start).take 8) =
      u64_le_value ((entry.drop start).take 8) := by
  apply byte_stream_copy_eq_u64_le_value
  · rw [List.length_take, List.length_drop]
    omega
  · intro b hb
    exact hbytes b (List.mem_of_mem_drop (List.mem_of_mem_take (List.mem_of_mem_take hb)))

/-- C11: for every 24-byte list entry (the first 24 bytes that the data pointer
addresses), a non-`NULL` descriptor and a stated size within `SSIZE_MAX`,
`libvshadow_block_range_descriptor_read` returns 0 if and only if all 24 bytes
are zero, and returns 1 for every entry with at least one non-zero byte. -/
theorem block_range_descriptor_read_empty_iff_zero
    (d : libvshadow_block_range_descriptor) (data : List Nat)
    (block_list_entry_size : Nat) (store_index : Int)
    (hlen : 24 ≤ data.length) (hsize : block_list_entry_size ≤ SSIZE_MAX) :
    ((libvshadow_block_range_descriptor_read (some d) (some data) block_list_entry_size
        store_index).1 = 0 ↔ ∀ b ∈ data.take 24, b = 0) ∧
    ((∃ b ∈ data.take 24, b ≠ 0) →
      (libvshadow_block_range_descriptor_read (some d) (some data) block_list_entry_size
        store_index).1 = 1) := by
  have htake : (data.take 24).length = 24 := by
    rw [List.length_take]
    omega
  rw [block_range_descriptor_read_unfold d data block_list_entry_size store_index hsize]
  by_cases hz : data.take 24 = List.replicate 24 0
  · rw [if_pos hz]
    refine ⟨⟨fun _ => (List.eq_replicate_iff.mp hz).2, fun _ => rfl⟩, ?_⟩
    rintro ⟨b, hb, hne⟩
    exact absurd ((List.eq_replicate_iff.mp hz).2 b hb) hne
  · rw [if_neg hz]
    have h10 : ¬ ((1 : Int) = 0) := by decide
    refine ⟨⟨fun h => absurd h h10, fun h => ?_⟩, fun _ => rfl⟩
    exact absurd (List.eq_replicate_iff.mpr ⟨htake, h⟩) hz

/-- Witness of C11: an entry whose first byte is 1. -/
theorem block_range_descriptor_read_empty_iff_zero_witness :
    24 ≤ (block_range_entry_bytes 1 0 0).length ∧ 24 ≤ SSIZE_MAX ∧
    (((libvshadow_block_range_descriptor_read (some block_range_descriptor_zero)
        (some (block_range_entry_bytes 1 0 0)) 24 0).1 = 0 ↔
        ∀ b ∈ (block_range_entry_bytes 1 0 0).take 24, b = 0) ∧
      ((∃ b ∈ (block_range_entry_bytes 1 0 0).take 24, b ≠ 0) →
        (libvshadow_block_range_descriptor_read (some block_range_descriptor_zero)
          (some (block_range_entry_bytes 1 0 0)) 24 0).1 = 1)) :=
  ⟨by decide, by decide,
    block_range_descriptor_read_empty_iff_zero block_range_descriptor_zero
      (block_range_entry_bytes 1 0 0) 24 0 (by decide) (by decide)⟩

/-- C12: for every 24-byte entry with at least one non-zero byte,
`libvshadow_block_range_descriptor_read` returns 1 and sets the descriptor's
`offset`, `relative_offset` and `size` to the little-endian unsigned 64-bit
values of bytes 0..8, 8..16 and 16..24; consequently the entry that encodes a
triple of unsigned 64-bit values, not all zero, as three little-endian words
decodes to the same triple. -/
theorem block_range_descriptor_read_decodes_little_endian
    (d : libvshadow_block_range_descriptor) (entry : List Nat)
    (block_list_entry_size : Nat) (store_index : Int)
    (hlen : entry.length = 24) (hbytes : ∀ b ∈ entry, b < 256)
    (hnz : ∃ b ∈ entry, b ≠ 0) (hsize : block_list_entry_size ≤ SSIZE_MAX) :
    libvshadow_block_range_descriptor_read (some d) (some entry) block_list_entry_size
        store_index =
      (1, some {
        offset := u64_le_value (entry.take 8)
        relative_offset := u64_le_value ((entry.drop 8).take 8)
        size := u64_le_value ((entry.drop 16).take 8) }) ∧
    (∀ offset relative_offset size : Nat,
      offset < 2 ^ 64 → relative_offset < 2 ^ 64 → size < 2 ^ 64 →
      ¬ (offset = 0 ∧ relative_offset = 0 ∧ size = 0) →
      libvshadow_block_range_descriptor_read (some d)
          (some (block_range_entry_bytes offset relative_offset size))
          block_list_entry_size store_index =
        (1, some { offset := offset, relative_offset := relative_offset, size := size })) := by
  constructor
  · rw [block_range_descriptor_read_unfold d entry block_list_entry_size store_index hsize]
    have hz : ¬ entry.take 24 = List.replicate 24 0 := by
      intro hz
      obtain ⟨b, hb, hne⟩ := hnz
      have htake : entry.take 24 = entry := List.take_of_length_le (le_of_eq hlen)
      rw [htake] at hz
      exact hne ((List.eq_replicate_iff.mp hz).2 b hb)
    rw [if_neg hz,
      block_range_entry_field_decodes entry 0 (by omega) hbytes,
      block_range_entry_field_decodes entry 8 (by omega) hbytes,
      block_range_entry_field_decodes entry 16 (by omega) hbytes]
    rfl
  · intro a b c ha hb hc hne
    rw [block_range_descriptor_read_unfold d _ block_list_entry_size store_index hsize]
    have hz : ¬ (block_range_entry_bytes a b c).take 24 = List.replicate 24 0 := by
      intro hz
      apply hne
      have h1 : u64_le_bytes a = List.replicate 8 0 := by
        have := congrArg (fun l => l.take 8) hz
        simpa [block_range_entry_bytes, u64_le_bytes] using this
      have h2 : u64_le_bytes b = List.replicate 8 0 := by
        have := congrArg (fun l => (l.drop 8).take 8) hz
        simpa [block_range_entry_bytes, u64_le_bytes] using this
      have h3 : u64_le_bytes c = List.replicate 8 0 := by
        have := congrArg (fun l => (l.drop 16).take 8) hz
        simpa [block_range_entry_bytes, u64_le_bytes] using this
      exact ⟨u64_le_bytes_eq_zero a ha h1, u64_le_bytes_eq_zero b hb h2,
        u64_le_bytes_eq_zero c hc h3⟩
    rw [if_neg hz]
    have f0 : ((block_range_entry_bytes a b c).drop 0).take 8 = u64_le_bytes a := rfl
    have f8 : ((block_range_entry_bytes a b c).drop 8).take 8 = u64_le_bytes b := rfl
    have f16 : ((block_range_entry_bytes a b c).drop 16).take 8 = u64_le_bytes c := rfl
    have hdec : ∀ v : Nat, v < 2 ^ 64 →
        byte_stream_copy_to_uint64_little_endian (u64_le_bytes v) = v := by
      intro v hv
      rw [byte_stream_copy_eq_u64_le_value (u64_le_bytes v) (by simp [u64_le_bytes])
        (fun x hx => u64_le_bytes_lt v x (List.mem_of_mem_take hx))]
      exact u64_le_value_bytes v hv
    rw [f0, f8, f16, hdec a ha, hdec b hb, hdec c hc]

/-- Witness of C12: the entry that encodes `(16384, 1048576, 32768)`. -/
theorem block_range_descriptor_read_decodes_little_endian_witness :
    (block_range_entry_bytes 16384 1048576 32768).length = 24 ∧
    (∀ b ∈ block_range_entry_bytes 16384 1048576 32768, b < 256) ∧
    (∃ b ∈ block_range_entry_bytes 16384 1048576 32768, b ≠ 0) ∧ 24 ≤ SSIZE_MAX ∧
    libvshadow_block_range_descriptor_read (some block_range_descriptor_zero)
        (some (block_range_entry_bytes 16384 1048576 32768)) 24 0 =
      (1, some {
        offset := u64_le_value ((block_range_entry_bytes 16384 1048576 32768).take 8)
        relative_offset :=
          u64_le_value (((block_range_entry_bytes 16384 1048576 32768).drop 8).take 8)
        size :=
          u64_le_value (((block_range_entry_bytes 16384 1048576 32768).drop 16).take 8) }) :=
  ⟨by decide, by decide, by decide, by decide,
    (block_range_descriptor_read_decodes_little_endian block_range_descriptor_zero
      (block_range_entry_bytes 16384 1048576 32768) 24 0 (by decide) (by decide)
      (by decide) (by decide)).1⟩

/-- C13 (what the code does): `block_list_entry_size` is only compared with
`SSIZE_MAX`; with a stated size below the 24 bytes of an entry the function
does not fail: it compares and decodes the 24 bytes that the data pointer
addresses and returns what it returns for a stated size of 24 (0 or 1). -/
theorem block_range_descriptor_read_ignores_small_size
    (d : libvshadow_block_range_descriptor) (data : List Nat)
    (block_list_entry_size : Nat) (store_index : Int)
    (hsmall : block_list_entry_size < 24) :
    libvshadow_block_range_descriptor_read (some d) (some data) block_list_entry_size
        store_index =
      libvshadow_block_range_descriptor_read (some d) (some data) 24 store_index ∧
    (libvshadow_block_range_descriptor_read (some d) (some data) block_list_entry_size
        store_index).1 ≠ -1 := by
  have h1 : block_list_entry_size ≤ SSIZE_MAX := by
    unfold SSIZE_MAX
    omega
  have h2 : 24 ≤ SSIZE_MAX := by decide
  rw [block_range_descriptor_read_unfold d data block_list_entry_size store_index h1,
    block_range_descriptor_read_unfold d data 24 store_index h2]
  refine ⟨rfl, ?_⟩
  have h0 : (0 : Int) ≠ -1 := by decide
  have h3 : (1 : Int) ≠ -1 := by decide
  split_ifs
  · exact h0
  · exact h3

/-- Witness of C13: the entry `(16384, 1048576, 32768)` with a stated size of
8 bytes is decoded in full and 1 is returned. -/
theorem block_range_descriptor_read_ignores_small_size_witness :
    8 < 24 ∧
    libvshadow_block_range_descriptor_read (some block_range_descriptor_zero)
        (some (block_range_entry_bytes 16384 1048576 32768)) 8 0 =
      (1, some { offset := 16384, relative_offset := 1048576, size := 32768 }) ∧
    (libvshadow_block_range_descriptor_read (some block_range_descriptor_zero)
        (some (block_range_entry_bytes 16384 1048576 32768)) 8 0 =
      libvshadow_block_range_descriptor_read (some block_range_descriptor_zero)
        (some (block_range_entry_bytes 16384 1048576 32768)) 24 0 ∧
      (libvshadow_block_range_descriptor_read (some block_range_descriptor_zero)
        (some (block_range_entry_bytes 16384 1048576 32768)) 8 0).1 ≠ -1) :=
  ⟨by decide, by decide,
    block_range_descriptor_read_ignores_small_size block_range_descriptor_zero
      (block_range_entry_bytes 16384 1048576 32768) 8 0 (by decide)⟩

/-! ## Store blocks iterator: the steps of the loop -/

theorem block_size_after_entry_eq (block_size : Nat) (h32 : 32 ≤ block_size)
    (h16 : block_size < 2 ^ 16) : block_size_after_entry block_size = block_size - 32 := by
  unfold block_size_after_entry sizeof_vshadow_store_block_list_entry
  omega

theorem store_block_payload_size_lt (store_block : libvshadow_store_block) :
    store_block_payload_size store_block < 2 ^ 16 := by
  unfold store_block_payload_size
  omega

/-- With the current block exhausted and `next_offset` 0 the call returns
`NULL` without reading. -/
theorem next_loop_end (read_block : store_block_read_fn)
    (read_data : block_descriptor_read_data_fn) (fuel : Nat)
    (it : libvshadow_blocks_iterator_internal) (reads : List Int)
    (hsize : it.block_size < 32) (hnext : it.next_offset = 0) :
    blocks_iterator_next_loop read_block read_data (fuel + 1) it reads =
      .returned none reads := by
  simp only [blocks_iterator_next_loop, sizeof_vshadow_store_block_list_entry, hsize, hnext,
    if_true]

/-- With the current block exhausted, the block at `next_offset` is read; a
block of the record type `LIBVSHADOW_RECORD_TYPE_STORE_INDEX` is loaded and the
loop goes on with its payload. -/
theorem next_loop_load (read_block : store_block_read_fn)
    (read_data : block_descriptor_read_data_fn) (fuel : Nat)
    (it : libvshadow_blocks_iterator_internal) (reads : List Int)
    (old b : libvshadow_store_block)
    (hsize : it.block_size < 32) (hnext : it.next_offset ≠ 0)
    (hold : it.store_block = some old)
    (hread : read_block it.file_io_handle it.next_offset = some b)
    (htype : b.record_type = LIBVSHADOW_RECORD_TYPE_STORE_INDEX) :
    blocks_iterator_next_loop read_block read_data (fuel + 1) it reads =
      blocks_iterator_next_loop read_block read_data fuel (blocks_iterator_load it b)
        (reads ++ [it.next_offset]) := by
  simp only [blocks_iterator_next_loop, sizeof_vshadow_store_block_list_entry, hsize, hnext,
    hold, hread, htype, if_true, if_false, ne_eq, not_true_eq_false]

/-- With the current block exhausted, a block of any other record type makes
the call return `NULL`. -/
theorem next_loop_reject (read_block : store_block_read_fn)
    (read_data : block_descriptor_read_data_fn) (fuel : Nat)
    (it : libvshadow_blocks_iterator_internal) (reads : List Int)
    (old b : libvshadow_store_block)
    (hsize : it.block_size < 32) (hnext : it.next_offset ≠ 0)
    (hold : it.store_block = some old)
    (hread : read_block it.file_io_handle it.next_offset = some b)
    (htype : b.record_type ≠ LIBVSHADOW_RECORD_TYPE_STORE_INDEX) :
    blocks_iterator_next_loop read_block read_data (fuel + 1) it reads =
      .returned none (reads ++ [it.next_offset]) := by
  simp only [blocks_iterator_next_loop, sizeof_vshadow_store_block_list_entry, hsize, hnext,
    hold, hread, htype, if_true, if_false, ne_eq, not_false_eq_true]

/-- An empty entry is passed over and the loop goes on in the same block. -/
theorem next_loop_skip (read_block : store_block_read_fn)
    (read_data : block_descriptor_read_data_fn) (fuel : Nat)
    (it : libvshadow_blocks_iterator_internal) (reads : List Int)
    (d : libvshadow_block_descriptor)
    (hsize : 32 ≤ it.block_size) (hd : it.block_descriptor = some d)
    (hempty : (read_data d it.block_data it.block_size it.store_descriptor.index).1 = 0) :
    blocks_iterator_next_loop read_block read_data (fuel + 1) it reads =
      blocks_iterator_next_loop read_block read_data fuel
        (blocks_iterator_advance it
          (read_data d it.block_data it.block_size it.store_descriptor.index).2) reads := by
  have h1 : ¬ it.block_size < 32 := not_lt.mpr hsize
  have h2 : ¬ ((0 : Int) = -1) := by decide
  simp only [blocks_iterator_next_loop, sizeof_vshadow_store_block_list_entry, h1, hd, hempty,
    h2, if_false, ne_eq, not_true_eq_false]

/-- A non-empty entry makes the call return the iterator with the fields of the
decoded block descriptor. -/
theorem next_loop_yield (read_block : store_block_read_fn)
    (read_data : block_descriptor_read_data_fn) (fuel : Nat)
    (it : libvshadow_blocks_iterator_internal) (reads : List Int)
    (d : libvshadow_block_descriptor)
    (hsize : 32 ≤ it.block_size) (hd : it.block_descriptor = some d)
    (hok : (read_data d it.block_data it.block_size it.store_descriptor.index).1 ≠ -1)
    (hdata : (read_data d it.block_data it.block_size it.store_descriptor.index).1 ≠ 0) :
    blocks_iterator_next_loop read_block read_data (fuel + 1) it reads =
      .returned (some (blocks_iterator_expose it
        (read_data d it.block_data it.block_size it.store_descriptor.index).2)) reads := by
  have h1 : ¬ it.block_size < 32 := not_lt.mpr hsize
  simp only [blocks_iterator_next_loop, sizeof_vshadow_store_block_list_entry, h1, hd, hok,
    hdata, if_false, if_true, ne_eq, not_false_eq_true]

theorem iterator_create_with_descriptor (read_block : store_block_read_fn)
    (read_data : block_descriptor_read_data_fn) (fuel : Nat)
    (s : libvshadow_internal_store) (v : libvshadow_internal_volume)
    (sd : libvshadow_store_descriptor)
    (hv : s.internal_volume = some v)
    (hsd : libcdata_array_get_entry_by_index v.store_descriptors_array
      s.store_descriptor_index = some sd) :
    libvshadow_store_blocks_iterator_create read_block read_data fuel (some s) =
      blocks_iterator_next_loop read_block read_data fuel
        (blocks_iterator_created sd s.file_io_handle) [] := by
  simp only [libvshadow_store_blocks_iterator_create, hv, hsd,
    libvshadow_store_blocks_iterator_next]

/-! ## Store blocks iterator: the entries of a chain -/

/-- Within a block: if the iterator collects the expected entries whenever the
current block is exhausted, it does so from every position of a block. -/
theorem blocks_iterator_collects_in_block (read_block : store_block_read_fn)
    (read_data : block_descriptor_read_data_fn)
    (hdec : ∀ d data size index, 32 ≤ size → (read_data d data size index).1 ≠ -1)
    (rest : List libvshadow_store_block)
    (hbase : ∀ it d, blocks_iterator_in_chain read_block it d rest → it.block_size / 32 = 0 →
      blocks_iterator_collects read_block read_data it
        (chain_entries read_data it.store_descriptor.index d rest)) :
    ∀ (k : Nat) (it : libvshadow_blocks_iterator_internal) (d : libvshadow_block_descriptor),
      blocks_iterator_in_chain read_block it d rest → it.block_size / 32 = k →
      blocks_iterator_collects read_block read_data it
        (payload_entries read_data it.store_descriptor.index k d it.block_data it.block_size ++
          chain_entries read_data it.store_descriptor.index
            (payload_final_descriptor read_data it.store_descriptor.index k d it.block_data
              it.block_size) rest) := by
  intro k
  induction k with
  | zero =>
    intro it d hin hk
    exact hbase it d hin hk
  | succ k ih =>
    intro it d hin hk
    obtain ⟨hd, hold, h16, hchain⟩ := hin
    have h32 : 32 ≤ it.block_size := by omega
    have hafter : block_size_after_entry it.block_size = it.block_size - 32 :=
      block_size_after_entry_eq it.block_size h32 h16
    have hok := hdec d it.block_data it.block_size it.store_descriptor.index h32
    by_cases hempty : (read_data d it.block_data it.block_size it.store_descriptor.index).1 = 0
    · -- an empty entry: the same call goes on with the next entry
      have hin1 : blocks_iterator_in_chain read_block
          (blocks_iterator_advance it
            (read_data d it.block_data it.block_size it.store_descriptor.index).2)
          (read_data d it.block_data it.block_size it.store_descriptor.index).2 rest := by
        refine ⟨rfl, hold, ?_, hchain⟩
        show block_size_after_entry it.block_size < 2 ^ 16
        omega
      have hk1 : (blocks_iterator_advance it
          (read_data d it.block_data it.block_size it.store_descriptor.index).2).block_size / 32
          = k := by
        show block_size_after_entry it.block_size / 32 = k
        omega
      obtain ⟨enough, henough⟩ := ih _ _ hin1 hk1
      refine ⟨enough + 1, ?_⟩
      intro fuel hfuel first_fuel hfirst calls hcalls reads
      obtain ⟨f, rfl⟩ : ∃ f, first_fuel = f + 1 := ⟨first_fuel - 1, by omega⟩
      rw [next_loop_skip read_block read_data f it reads d h32 hd hempty]
      have hexp : payload_entries read_data it.store_descriptor.index (k + 1) d it.block_data
            it.block_size ++
          chain_entries read_data it.store_descriptor.index
            (payload_final_descriptor read_data it.store_descriptor.index (k + 1) d
              it.block_data it.block_size) rest =
          payload_entries read_data it.store_descriptor.index k
            (read_data d it.block_data it.block_size it.store_descriptor.index).2
            (it.block_data.drop 32) (it.block_size - 32) ++
          chain_entries read_data it.store_descriptor.index
            (payload_final_descriptor read_data it.store_descriptor.index k
              (read_data d it.block_data it.block_size it.store_descriptor.index).2
              (it.block_data.drop 32) (it.block_size - 32)) rest := by
        simp only [payload_entries, payload_final_descriptor, hempty, ne_eq,
          not_true_eq_false, if_false]
      rw [hexp] at hcalls ⊢
      rw [← hafter] at hcalls ⊢
      exact henough fuel (by omega) f (by omega) calls hcalls reads
    · -- a non-empty entry: the call returns and the next call goes on
      have hin1 : blocks_iterator_in_chain read_block
          (blocks_iterator_expose it
            (read_data d it.block_data it.block_size it.store_descriptor.index).2)
          (read_data d it.block_data it.block_size it.store_descriptor.index).2 rest := by
        refine ⟨rfl, hold, ?_, hchain⟩
        show block_size_after_entry it.block_size < 2 ^ 16
        omega
      have hk1 : (blocks_iterator_expose it
          (read_data d it.block_data it.block_size it.store_descriptor.index).2).block_size / 32
          = k := by
        show block_size_after_entry it.block_size / 32 = k
        omega
      obtain ⟨enough, henough⟩ := ih _ _ hin1 hk1
      refine ⟨enough + 1, ?_⟩
      intro fuel hfuel first_fuel hfirst calls hcalls reads
      obtain ⟨f, rfl⟩ : ∃ f, first_fuel = f + 1 := ⟨first_fuel - 1, by omega⟩
      rw [next_loop_yield read_block read_data f it reads d h32 hd hok hempty]
      have hexp : payload_entries read_data it.store_descriptor.index (k + 1) d it.block_data
            it.block_size ++
          chain_entries read_data it.store_descriptor.index
            (payload_final_descriptor read_data it.store_descriptor.index (k + 1) d
              it.block_data it.block_size) rest =
          block_descriptor_exposed
            (read_data d it.block_data it.block_size it.store_descriptor.index).2 ::
          (payload_entries read_data it.store_descriptor.index k
            (read_data d it.block_data it.block_size it.store_descriptor.index).2
            (it.block_data.drop 32) (it.block_size - 32) ++
          chain_entries read_data it.store_descriptor.index
            (payload_final_descriptor read_data it.store_descriptor.index k
              (read_data d it.block_data it.block_size it.store_descriptor.index).2
              (it.block_data.drop 32) (it.block_size - 32)) rest) := by
        simp only [payload_entries, payload_final_descriptor, hempty, ne_eq,
          not_false_eq_true, if_true, List.cons_append]
      rw [hexp] at hcalls ⊢
      rw [← hafter] at hcalls ⊢
      obtain ⟨m, rfl⟩ : ∃ m, calls = m + 1 := ⟨calls - 1, by
        simp only [List.length_cons] at hcalls
        omega⟩
      simp only [List.length_cons, Nat.add_lt_add_iff_right] at hcalls
      have hgoal := henough fuel (by omega) fuel (by omega) m hcalls []
      simp only [blocks_iterator_collect, libvshadow_store_blocks_iterator_next]
      rw [hgoal]
      rfl

/-- Across blocks: from every position of a block, repeated calls yield the
remaining non-empty entries of the block and then those of the blocks that
follow in the chain, and end with `NULL`. -/
theorem blocks_iterator_collects_chain (read_block : store_block_read_fn)
    (read_data : block_descriptor_read_data_fn)
    (hdec : ∀ d data size index, 32 ≤ size → (read_data d data size index).1 ≠ -1) :
    ∀ (rest : List libvshadow_store_block) (k : Nat)
      (it : libvshadow_blocks_iterator_internal) (d : libvshadow_block_descriptor),
      blocks_iterator_in_chain read_block it d rest → it.block_size / 32 = k →
      blocks_iterator_collects read_block read_data it
        (payload_entries read_data it.store_descriptor.index k d it.block_data it.block_size ++
          chain_entries read_data it.store_descriptor.index
            (payload_final_descriptor read_data it.store_descriptor.index k d it.block_data
              it.block_size) rest) := by
  intro rest
  induction rest with
  | nil =>
    apply blocks_iterator_collects_in_block read_block read_data hdec []
    intro it d hin hk
    obtain ⟨_, _, _, hchain⟩ := hin
    have hsize : it.block_size < 32 := by omega
    refine ⟨1, ?_⟩
    intro fuel _ first_fuel hfirst calls hcalls reads
    obtain ⟨f, rfl⟩ : ∃ f, first_fuel = f + 1 := ⟨first_fuel - 1, by omega⟩
    obtain ⟨m, rfl⟩ : ∃ m, calls = m + 1 := ⟨calls - 1, by omega⟩
    rw [next_loop_end read_block read_data f it reads hsize hchain]
    rfl
  | cons b rest ih =>
    apply blocks_iterator_collects_in_block read_block read_data hdec (b :: rest)
    intro it d hin hk
    obtain ⟨hd, ⟨old, hold⟩, _, hnext, hread, htype, hchain⟩ := hin
    have hsize : it.block_size < 32 := by omega
    have hin1 : blocks_iterator_in_chain read_block (blocks_iterator_load it b) d rest :=
      ⟨hd, ⟨b, rfl⟩, store_block_payload_size_lt b, hchain⟩
    obtain ⟨enough, henough⟩ := ih (store_block_payload_size b / 32)
      (blocks_iterator_load it b) d hin1 rfl
    refine ⟨enough + 1, ?_⟩
    intro fuel hfuel first_fuel hfirst calls hcalls reads
    obtain ⟨f, rfl⟩ : ∃ f, first_fuel = f + 1 := ⟨first_fuel - 1, by omega⟩
    rw [next_loop_load read_block read_data f it reads old b hsize hnext hold hread htype]
    exact henough fuel (by omega) f (by omega) calls hcalls (reads ++ [it.next_offset])

theorem block_descriptor_read_data_never_fails (d : libvshadow_block_descriptor)
    (data : List Nat) (size : Nat) (index : Int) (h32 : 32 ≤ size) :
    (libvshadow_block_descriptor_read_data d data size index).1 ≠ -1 := by
  have h0 : (0 : Int) ≠ -1 := by decide
  have h1 : (1 : Int) ≠ -1 := by decide
  unfold libvshadow_block_descriptor_read_data
  rw [if_neg (by omega)]
  split_ifs
  · exact h0
  · exact h1

/-! ## Store blocks iterator: the accepted record type -/

/-- C16 (counterexample): a first block of the record type `STORE_BLOCK_LIST`
(5) that holds the entry `{original = 16384, offset = 1048576}` makes
`libvshadow_store_blocks_iterator_create` return `NULL`, while a first block of
the record type `STORE_INDEX` (3) that holds the same entry is accepted and the
entry is decoded. -/
theorem blocks_iterator_rejects_block_list_record_type :
    block_of_block_list_type.record_type = 5 ∧
    libvshadow_store_blocks_iterator_create image_block_list_type
        libvshadow_block_descriptor_read_data 600 (some store_at_7) =
      .returned none [16384] ∧
    block_zero_then_entry.record_type = 3 ∧
    blocks_iterator_outcome_entry (libvshadow_store_blocks_iterator_create
        image_zero_then_entry libvshadow_block_descriptor_read_data 600 (some store_at_7)) =
      some (16384, 0, 1048576, 0, 0) := by
  decide

/-- C16 (amended): the iterator accepts a store block exactly when its record
type is `LIBVSHADOW_RECORD_TYPE_STORE_INDEX` (3).  When the first block of the
chain at `store_block_list_offset` has any other record type, creation returns
`NULL`; a first block of that record type is loaded and the loop goes on with
its payload, and when its first entry decodes as non-empty, creation returns
the iterator that exposes it. -/
theorem blocks_iterator_accepts_store_index_record_type
    (read_block : store_block_read_fn) (read_data : block_descriptor_read_data_fn)
    (s : libvshadow_internal_store) (v : libvshadow_internal_volume)
    (sd : libvshadow_store_descriptor) (b : libvshadow_store_block)
    (hv : s.internal_volume = some v)
    (hsd : libcdata_array_get_entry_by_index v.store_descriptors_array
      s.store_descriptor_index = some sd)
    (hoff : sd.store_block_list_offset ≠ 0)
    (hread : read_block s.file_io_handle sd.store_block_list_offset = some b) :
    (b.record_type ≠ LIBVSHADOW_RECORD_TYPE_STORE_INDEX → ∀ fuel,
      libvshadow_store_blocks_iterator_create read_block read_data (fuel + 1) (some s) =
        .returned none [sd.store_block_list_offset]) ∧
    (b.record_type = LIBVSHADOW_RECORD_TYPE_STORE_INDEX → ∀ fuel,
      libvshadow_store_blocks_iterator_create read_block read_data (fuel + 1) (some s) =
        blocks_iterator_next_loop read_block read_data fuel
          (blocks_iterator_load (blocks_iterator_created sd s.file_io_handle) b)
          [sd.store_block_list_offset]) ∧
    (b.record_type = LIBVSHADOW_RECORD_TYPE_STORE_INDEX →
      32 ≤ store_block_payload_size b →
      (read_data libvshadow_block_descriptor_initialize (b.data.drop 128)
        (store_block_payload_size b) sd.index).1 ≠ -1 →
      (read_data libvshadow_block_descriptor_initialize (b.data.drop 128)
        (store_block_payload_size b) sd.index).1 ≠ 0 →
      ∀ fuel,
      libvshadow_store_blocks_iterator_create read_block read_data (fuel + 2) (some s) =
        .returned (some (blocks_iterator_expose
          (blocks_iterator_load (blocks_iterator_created sd s.file_io_handle) b)
          (read_data libvshadow_block_descriptor_initialize (b.data.drop 128)
            (store_block_payload_size b) sd.index).2)) [sd.store_block_list_offset]) := by
  have hsize0 : (blocks_iterator_created sd s.file_io_handle).block_size < 32 := by
    show (0 : Nat) < 32
    decide
  refine ⟨?_, ?_, ?_⟩
  · intro htype fuel
    rw [iterator_create_with_descriptor read_block read_data (fuel + 1) s v sd hv hsd]
    exact next_loop_reject read_block read_data fuel _ [] _ b hsize0 hoff rfl hread htype
  · intro htype fuel
    rw [iterator_create_with_descriptor read_block read_data (fuel + 1) s v sd hv hsd]
    exact next_loop_load read_block read_data fuel _ [] _ b hsize0 hoff rfl hread htype
  · intro htype h32 hok hdata fuel
    rw [iterator_create_with_descriptor read_block read_data (fuel + 2) s v sd hv hsd,
      next_loop_load read_block read_data (fuel + 1) _ [] _ b hsize0 hoff rfl hread htype]
    exact next_loop_yield read_block read_data fuel
      (blocks_iterator_load (blocks_iterator_created sd s.file_io_handle) b) _
      libvshadow_block_descriptor_initialize h32 rfl hok hdata

/-- Witness of C16 (amended): the first block `block_of_block_list_type`, of
record type 5, is rejected. -/
theorem blocks_iterator_accepts_store_index_record_type_witness :
    store_at_7.internal_volume = some volume_50 ∧
    libcdata_array_get_entry_by_index volume_50.store_descriptors_array
      store_at_7.store_descriptor_index = some descriptor_100 ∧
    descriptor_100.store_block_list_offset ≠ 0 ∧
    image_block_list_type store_at_7.file_io_handle descriptor_100.store_block_list_offset =
      some block_of_block_list_type ∧
    block_of_block_list_type.record_type ≠ LIBVSHADOW_RECORD_TYPE_STORE_INDEX ∧
    libvshadow_store_blocks_iterator_create image_block_list_type
        libvshadow_block_descriptor_read_data (0 + 1) (some store_at_7) =
      .returned none [descriptor_100.store_block_list_offset] :=
  ⟨rfl, by decide, by decide, rfl, by decide,
    (blocks_iterator_accepts_store_index_record_type image_block_list_type
      libvshadow_block_descriptor_read_data store_at_7 volume_50 descriptor_100
      block_of_block_list_type rfl (by decide) (by decide) rfl).1 (by decide) 0⟩

/-! ## Store blocks iterator: empty entries -/

/-- A run of entries that all decode as empty is passed over, one loop
iteration each, and leaves the current block exhausted. -/
theorem next_loop_scan_empty (read_block : store_block_read_fn)
    (read_data : block_descriptor_read_data_fn) :
    ∀ (k : Nat) (it : libvshadow_blocks_iterator_internal) (d : libvshadow_block_descriptor)
      (f : Nat) (reads : List Int),
      it.block_descriptor = some d → it.block_size < 2 ^ 16 → it.block_size / 32 = k →
      (∀ d' j, j < k →
        (read_data d' (it.block_data.drop (32 * j)) (it.block_size - 32 * j)
          it.store_descriptor.index).1 = 0) →
      ∃ it', blocks_iterator_next_loop read_block read_data (f + k) it reads =
          blocks_iterator_next_loop read_block read_data f it' reads ∧
        it'.block_size < 32 ∧ it'.next_offset = it.next_offset ∧
        it'.file_io_handle = it.file_io_handle ∧ it'.store_block = it.store_block ∧
        it'.store_descriptor = it.store_descriptor ∧
        ∃ d'', it'.block_descriptor = some d'' := by
  intro k
  induction k with
  | zero =>
    intro it d f reads hd _ hk _
    exact ⟨it, rfl, by omega, rfl, rfl, rfl, rfl, d, hd⟩
  | succ k ih =>
    intro it d f reads hd h16 hk hall
    have h32 : 32 ≤ it.block_size := by omega
    have hafter : block_size_after_entry it.block_size = it.block_size - 32 :=
      block_size_after_entry_eq it.block_size h32 h16
    have hempty : (read_data d it.block_data it.block_size it.store_descriptor.index).1 = 0 := by
      simpa using hall d 0 (by omega)
    have hall1 : ∀ d' j, j < k →
        (read_data d'
          ((blocks_iterator_advance it
            (read_data d it.block_data it.block_size it.store_descriptor.index).2).block_data.drop
            (32 * j))
          ((blocks_iterator_advance it
            (read_data d it.block_data it.block_size it.store_descriptor.index).2).block_size
            - 32 * j)
          (blocks_iterator_advance it
            (read_data d it.block_data it.block_size
              it.store_descriptor.index).2).store_descriptor.index).1 = 0 := by
      intro d' j hj
      have h := hall d' (j + 1) (by omega)
      show (read_data d' ((it.block_data.drop 32).drop (32 * j))
        (block_size_after_entry it.block_size - 32 * j) it.store_descriptor.index).1 = 0
      rw [List.drop_drop, hafter]
      have e1 : 32 + 32 * j = 32 * (j + 1) := by omega
      have e2 : it.block_size - 32 - 32 * j = it.block_size - 32 * (j + 1) := by omega
      rw [e1, e2]
      exact h
    obtain ⟨it', hrun, hs, hn, hf, hb, hsd, hd'⟩ := ih
      (blocks_iterator_advance it
        (read_data d it.block_data it.block_size it.store_descriptor.index).2)
      (read_data d it.block_data it.block_size it.store_descriptor.index).2 f reads rfl
      (by show block_size_after_entry it.block_size < 2 ^ 16; omega)
      (by show block_size_after_entry it.block_size / 32 = k; omega) hall1
    refine ⟨it', ?_, hs, hn, hf, hb, hsd, hd'⟩
    rw [← Nat.add_assoc, next_loop_skip read_block read_data (f + k) it reads d h32 hd hempty]
    exact hrun

/-- One round on a block that names itself as its successor: the block is read
and its entries are passed over, after which the iterator is about to read the
same block again. -/
theorem next_loop_self_reference_round (read_block : store_block_read_fn)
    (read_data : block_descriptor_read_data_fn) (b : libvshadow_store_block) (p index : Int)
    (it : libvshadow_blocks_iterator_internal)
    (hit : blocks_iterator_before_self_reference read_block read_data b p index it)
    (f : Nat) (reads : List Int) :
    ∃ it', blocks_iterator_before_self_reference read_block read_data b p index it' ∧
      blocks_iterator_next_loop read_block read_data
          (f + (store_block_payload_size b / 32 + 1)) it reads =
        blocks_iterator_next_loop read_block read_data f it' (reads ++ [p]) := by
  obtain ⟨hsize, hnext, hp, hindex, ⟨old, hold⟩, ⟨d, hd⟩, hread, htype, hbnext, hall⟩ := hit
  have hall1 : ∀ d' j, j < store_block_payload_size b / 32 →
      (read_data d' ((blocks_iterator_load it b).block_data.drop (32 * j))
        ((blocks_iterator_load it b).block_size - 32 * j)
        (blocks_iterator_load it b).store_descriptor.index).1 = 0 := by
    intro d' j hj
    show (read_data d' ((b.data.drop 128).drop (32 * j))
      (store_block_payload_size b - 32 * j) it.store_descriptor.index).1 = 0
    rw [hindex]
    exact hall d' j hj
  obtain ⟨it', hrun, hs, hn, hf, hb, hsd, hd'⟩ := next_loop_scan_empty read_block read_data
    (store_block_payload_size b / 32) (blocks_iterator_load it b) d f
    (reads ++ [p]) hd (store_block_payload_size_lt b) rfl hall1
  refine ⟨it', ⟨hs, ?_, hp, ?_, ⟨b, ?_⟩, hd', ?_, htype, hbnext, hall⟩, ?_⟩
  · rw [hn]
    exact hbnext
  · rw [hsd]
    exact hindex
  · rw [hb]
    rfl
  · rw [hf]
    exact hread
  · rw [← Nat.add_assoc, next_loop_load read_block read_data _ it reads old b hsize
      (by rw [hnext]; exact hp) hold (by rw [hnext]; exact hread) htype, hnext]
    exact hrun

/-- On a block that names itself as its successor and holds no non-empty entry,
`n` rounds of the loop make `n` reads of that block and end where they began. -/
theorem next_loop_self_reference_rounds (read_block : store_block_read_fn)
    (read_data : block_descriptor_read_data_fn) (b : libvshadow_store_block) (p index : Int) :
    ∀ (n : Nat) (it : libvshadow_blocks_iterator_internal),
      blocks_iterator_before_self_reference read_block read_data b p index it →
      ∀ (f : Nat) (reads : List Int),
      ∃ it', blocks_iterator_before_self_reference read_block read_data b p index it' ∧
        blocks_iterator_next_loop read_block read_data
            (f + (store_block_payload_size b / 32 + 1) * n) it reads =
          blocks_iterator_next_loop read_block read_data f it' (reads ++ List.replicate n p) := by
  intro n
  induction n with
  | zero =>
    intro it hit f reads
    exact ⟨it, hit, by simp⟩
  | succ n ih =>
    intro it hit f reads
    obtain ⟨it1, hit1, hrun1⟩ := next_loop_self_reference_round read_block read_data b p index
      it hit (f + (store_block_payload_size b / 32 + 1) * n) reads
    obtain ⟨it2, hit2, hrun2⟩ := ih it1 hit1 f (reads ++ [p])
    refine ⟨it2, hit2, ?_⟩
    have e : f + (store_block_payload_size b / 32 + 1) * (n + 1) =
        f + (store_block_payload_size b / 32 + 1) * n +
          (store_block_payload_size b / 32 + 1) := by
      rw [Nat.mul_succ, Nat.add_assoc]
    rw [e, hrun1, hrun2, List.append_assoc, List.replicate_succ]
    rfl

/-- After `n` rounds the call has read the block `n` times and has not
returned. -/
theorem next_loop_self_reference_never_returns (read_block : store_block_read_fn)
    (read_data : block_descriptor_read_data_fn) (b : libvshadow_store_block) (p index : Int)
    (it : libvshadow_blocks_iterator_internal)
    (hit : blocks_iterator_before_self_reference read_block read_data b p index it)
    (n : Nat) (reads : List Int) :
    blocks_iterator_next_loop read_block read_data
        ((store_block_payload_size b / 32 + 1) * n) it reads =
      .out_of_fuel (reads ++ List.replicate n p) := by
  obtain ⟨it', _, hrun⟩ := next_loop_self_reference_rounds read_block read_data b p index n
    it hit 0 reads
  rw [Nat.zero_add] at hrun
  rw [hrun]
  rfl

theorem block_self_reference_payload :
    block_self_reference.data.drop 128 = List.replicate 16256 0 := by
  show (List.replicate 128 0 ++ [] ++ List.replicate (16256 - 0) 0).drop 128 =
    List.replicate 16256 0
  rw [List.append_nil]
  exact List.drop_left' (List.length_replicate 128 0)

theorem created_before_self_reference :
    blocks_iterator_before_self_reference image_self_reference
      libvshadow_block_descriptor_read_data block_self_reference 16384 descriptor_100.index
      (blocks_iterator_created descriptor_100 1) := by
  refine ⟨by decide, rfl, by decide, rfl, ⟨_, rfl⟩, ⟨_, rfl⟩, rfl, rfl, rfl, ?_⟩
  intro d j hj
  have hsize : store_block_payload_size block_self_reference = 16256 := by decide
  rw [hsize] at hj ⊢
  rw [block_self_reference_payload]
  have hlt : ¬ (16256 - 32 * j < 32) := by omega
  have hmin : min 32 (16256 - 32 * j) = 32 := by omega
  simp only [libvshadow_block_descriptor_read_data, hlt, if_false, List.drop_replicate,
    List.take_replicate, hmin, if_true]

/-- C17 (counterexample): the store block at offset 16384 names offset 16384 as
its successor.  Within `509 * 1048577` loop iterations
`libvshadow_store_blocks_iterator_create` reads that block 1 048 577 times, one
more than the cap of 1 048 576 blocks, and it has neither stopped with an error
nor returned. -/
theorem blocks_iterator_reads_past_chain_cap :
    image_self_reference store_at_7.file_io_handle 16384 = some block_self_reference ∧
    block_self_reference.next_offset = 16384 ∧
    libvshadow_store_blocks_iterator_create image_self_reference
        libvshadow_block_descriptor_read_data (509 * 1048577) (some store_at_7) =
      .out_of_fuel (List.replicate 1048577 16384) ∧
    1048576 < (List.replicate 1048577 (16384 : Int)).length := by
  have hk : store_block_payload_size block_self_reference / 32 + 1 = 509 := by decide
  have hrun := next_loop_self_reference_never_returns image_self_reference
    libvshadow_block_descriptor_read_data block_self_reference 16384 descriptor_100.index
    (blocks_iterator_created descriptor_100 1) created_before_self_reference 1048577 []
  rw [hk, List.nil_append] at hrun
  refine ⟨rfl, rfl, ?_, ?_⟩
  · rw [iterator_create_with_descriptor image_self_reference
      libvshadow_block_descriptor_read_data (509 * 1048577) store_at_7 volume_50
      descriptor_100 rfl (by decide)]
    exact hrun
  · rw [List.length_replicate]
    decide

/-- C17 (amended): the iterator has no cap on the number of blocks it reads.
For a store whose first block, of the accepted record type, names its own
offset as `next_offset` and holds no non-empty entry,
`libvshadow_store_blocks_iterator_create` never returns: for every `n`, after
`(k + 1) * n` loop iterations (`k` the number of entries in the block's
payload) it has read that block `n` times and is still running. -/
theorem blocks_iterator_reads_self_reference_without_bound
    (read_block : store_block_read_fn) (read_data : block_descriptor_read_data_fn)
    (s : libvshadow_internal_store) (v : libvshadow_internal_volume)
    (sd : libvshadow_store_descriptor) (b : libvshadow_store_block)
    (hv : s.internal_volume = some v)
    (hsd : libcdata_array_get_entry_by_index v.store_descriptors_array
      s.store_descriptor_index = some sd)
    (hoff : sd.store_block_list_offset ≠ 0)
    (hread : read_block s.file_io_handle sd.store_block_list_offset = some b)
    (htype : b.record_type = LIBVSHADOW_RECORD_TYPE_STORE_INDEX)
    (hself : b.next_offset = sd.store_block_list_offset)
    (hall : ∀ d j, j < store_block_payload_size b / 32 →
      (read_data d ((b.data.drop 128).drop (32 * j)) (store_block_payload_size b - 32 * j)
        sd.index).1 = 0)
    (n : Nat) :
    libvshadow_store_blocks_iterator_create read_block read_data
        ((store_block_payload_size b / 32 + 1) * n) (some s) =
      .out_of_fuel (List.replicate n sd.store_block_list_offset) := by
  have hit : blocks_iterator_before_self_reference read_block read_data b
      sd.store_block_list_offset sd.index (blocks_iterator_created sd s.file_io_handle) :=
    ⟨(by show (0 : Nat) < 32; decide), rfl, hoff, rfl, ⟨_, rfl⟩, ⟨_, rfl⟩, hread, htype, hself,
      hall⟩
  rw [iterator_create_with_descriptor read_block read_data _ s v sd hv hsd,
    next_loop_self_reference_never_returns read_block read_data b sd.store_block_list_offset
      sd.index (blocks_iterator_created sd s.file_io_handle) hit n [], List.nil_append]

/-- Witness of C17 (amended): the self-referential block at offset 16384, two
rounds. -/
theorem blocks_iterator_reads_self_reference_without_bound_witness :
    store_at_7.internal_volume = some volume_50 ∧
    libcdata_array_get_entry_by_index volume_50.store_descriptors_array
      store_at_7.store_descriptor_index = some descriptor_100 ∧
    descriptor_100.store_block_list_offset ≠ 0 ∧
    image_self_reference store_at_7.file_io_handle descriptor_100.store_block_list_offset =
      some block_self_reference ∧
    block_self_reference.record_type = LIBVSHADOW_RECORD_TYPE_STORE_INDEX ∧
    block_self_reference.next_offset = descriptor_100.store_block_list_offset ∧
    (∀ d j, j < store_block_payload_size block_self_reference / 32 →
      (libvshadow_block_descriptor_read_data d
        ((block_self_reference.data.drop 128).drop (32 * j))
        (store_block_payload_size block_self_reference - 32 * j) descriptor_100.index).1 = 0) ∧
    libvshadow_store_blocks_iterator_create image_self_reference
        libvshadow_block_descriptor_read_data
        ((store_block_payload_size block_self_reference / 32 + 1) * 2) (some store_at_7) =
      .out_of_fuel (List.replicate 2 descriptor_100.store_block_list_offset) :=
  ⟨rfl, by decide, by decide, rfl, rfl, rfl,
    created_before_self_reference.2.2.2.2.2.2.2.2.2,
    blocks_iterator_reads_self_reference_without_bound image_self_reference
      libvshadow_block_descriptor_read_data store_at_7 volume_50 descriptor_100
      block_self_reference rfl (by decide) (by decide) rfl rfl rfl
      created_before_self_reference.2.2.2.2.2.2.2.2.2 2⟩

/-! ## `libvshadow_store_read_buffer` on a request that extends past the end -/

/-- C21 (what the code does): a read that starts below the volume size with a
buffer that extends past the end of the volume is cut by the inner read, which
delivers the cut count and moves the current offset to the end of the volume;
`libvshadow_store_read_buffer` then compares that count with the whole
`buffer_size` and returns -1, with the current offset no longer what it was
before the call. -/
theorem read_buffer_fails_after_advancing_offset
    (read : store_descriptor_read_buffer_fn)
    (s : libvshadow_internal_store) (v : libvshadow_internal_volume)
    (d : libvshadow_store_descriptor) (buffer : List Nat) (buffer_size : Nat)
    (hv : s.internal_volume = some v)
    (hd : libcdata_array_get_entry_by_index v.store_descriptors_array
      s.store_descriptor_index = some d)
    (h0 : 0 ≤ s.current_offset) (hlt : s.current_offset < (v.size : Int))
    (hsize : v.size < 2 ^ 63) (hbuf : buffer_size < 2 ^ 63)
    (hpast : (v.size : Int) < s.current_offset + (buffer_size : Int))
    (hfull : (read d s.file_io_handle buffer (v.size - s.current_offset.toNat)
      s.current_offset d).1 = (v.size : Int) - s.current_offset) :
    libvshadow_store_read_buffer read (some s) buffer buffer_size =
      (-1, (read d s.file_io_handle buffer (v.size - s.current_offset.toNat)
        s.current_offset d).2, some { s with current_offset := (v.size : Int) }) ∧
    (v.size : Int) ≠ s.current_offset := by
  have hclamp : read_clamped_size s.current_offset v.size buffer_size =
      v.size - s.current_offset.toNat := by
    rw [read_clamped_size_eq_min s.current_offset v.size buffer_size h0 hlt (by omega)
      (by omega)]
    exact min_eq_right (by omega)
  have hbelow : to_size64 s.current_offset < v.size := by
    unfold to_size64
    omega
  have hcast : to_ssize64 (v.size - s.current_offset.toNat) =
      (v.size : Int) - s.current_offset := by
    rw [to_ssize64_of_lt _ (by omega)]
    omega
  have hwrap : wrap_off64 (s.current_offset + ((v.size : Int) - s.current_offset)) =
      (v.size : Int) := by
    unfold wrap_off64
    omega
  have hne : ¬ ((v.size : Int) - s.current_offset ≠ (v.size : Int) - s.current_offset) :=
    fun h => h rfl
  have hshort : (v.size : Int) - s.current_offset ≠ to_ssize64 buffer_size := by
    rw [to_ssize64_of_lt buffer_size hbuf]
    omega
  have hinner := read_from_handle_below_end read s v d s.file_io_handle buffer buffer_size
    hv h0 hbelow hd
  rw [hclamp, hcast, hfull, if_neg hne, hwrap] at hinner
  refine ⟨?_, by omega⟩
  rw [read_buffer_unfold, hinner]
  dsimp only
  rw [if_pos hshort]

/-- Witness of C21: on the 50-byte volume, a read of 10 bytes at offset 45
returns -1 and leaves the handle at offset 50. -/
theorem read_buffer_fails_after_advancing_offset_witness :
    store_at_7.internal_volume = some volume_50 ∧
    libcdata_array_get_entry_by_index volume_50.store_descriptors_array
      store_at_7.store_descriptor_index = some descriptor_100 ∧
    ((0 : Int) ≤ 45) ∧ ((45 : Int) < (volume_50.size : Int)) ∧ volume_50.size < 2 ^ 63 ∧
    10 < 2 ^ 63 ∧ ((volume_50.size : Int) < 45 + ((10 : Nat) : Int)) ∧
    (read_in_full descriptor_100 1 [] (volume_50.size - (45 : Int).toNat) 45
      descriptor_100).1 = (volume_50.size : Int) - 45 ∧
    libvshadow_store_read_buffer read_in_full (some { store_at_7 with current_offset := 45 })
        [] 10 =
      (-1, [0, 0, 0, 0, 0], some { store_at_7 with current_offset := 50 }) ∧
    (libvshadow_store_read_buffer read_in_full (some { store_at_7 with current_offset := 45 })
        [] 10 =
      (-1, (read_in_full descriptor_100 1 [] (volume_50.size - (45 : Int).toNat) 45
        descriptor_100).2,
        some { ({ store_at_7 with current_offset := 45 } : libvshadow_internal_store) with
          current_offset := (volume_50.size : Int) }) ∧
      (volume_50.size : Int) ≠ 45) :=
  ⟨rfl, by decide, by decide, by decide, by decide, by decide, by decide, by decide,
    by decide,
    read_buffer_fails_after_advancing_offset read_in_full
      { store_at_7 with current_offset := 45 } volume_50 descriptor_100 [] 10 rfl
      (by decide) (by decide) (by decide) (by decide) (by decide) (by decide) (by decide)⟩

/-! ## Release of the iterator -/

/-- C24 (what the code does): the result of
`libvshadow_store_blocks_iterator_free` follows the error out-parameter, not
the releases.  With a non-`NULL` out-parameter it returns -1 although the block
descriptor and the store block are released without error and no message has
been recorded; with a `NULL` out-parameter it returns 1 even when the release
of the store block fails.  In both cases the caller's pointer is set to
`NULL`. -/
theorem blocks_iterator_free_result_follows_error_pointer
    (it : libvshadow_blocks_iterator_internal) (messages : Nat)
    (block_descriptor_free : block_descriptor_free_fn)
    (store_block_free : store_block_free_fn) :
    libvshadow_store_blocks_iterator_free block_descriptor_free_ok store_block_free_ok
        (some it) (some messages) = (-1, some none, some messages) ∧
    libvshadow_store_blocks_iterator_free block_descriptor_free store_block_free
        (some it) none = (1, some none, none) ∧
    (libvshadow_store_blocks_iterator_free block_descriptor_free store_block_free
        (some it) (some messages)).1 = -1 ∧
    libvshadow_store_blocks_iterator_free block_descriptor_free_ok store_block_free_failing
        (some (blocks_iterator_created descriptor_100 1)) none = (1, some none, none) := by
  refine ⟨?_, ?_, ?_, ?_⟩
  · cases hbd : it.block_descriptor <;>
      simp [libvshadow_store_blocks_iterator_free, libvshadow_store_blocks_iterator_data_free,
        block_descriptor_free_ok, store_block_free_ok, hbd]
  · cases hbd : it.block_descriptor <;>
      simp [libvshadow_store_blocks_iterator_free, libvshadow_store_blocks_iterator_data_free,
        libcerror_error_set, hbd]
  · simp [libvshadow_store_blocks_iterator_free, libvshadow_store_blocks_iterator_data_free]
  · simp [libvshadow_store_blocks_iterator_free, libvshadow_store_blocks_iterator_data_free,
      libcerror_error_set, blocks_iterator_created, block_descriptor_free_ok,
      store_block_free_failing]

/-! ## Store blocks iterator: the remaining-payload counter -/

theorem counter_valid_load (it : libvshadow_blocks_iterator_internal)
    (b : libvshadow_store_block) (hsize : b.data_size = 16384)
    (hlen : b.data.length = 16384) :
    (blocks_iterator_load it b).block_size = 16256 ∧
    blocks_iterator_counter_valid (blocks_iterator_load it b) := by
  have hpayload : store_block_payload_size b = 16256 := by
    unfold store_block_payload_size sizeof_vshadow_store_block_header
    rw [hsize]
    decide
  have hdata : (b.data.drop 128).length = 16256 := by
    rw [List.length_drop, hlen]
  refine ⟨hpayload, ?_, ?_, ?_⟩
  · show store_block_payload_size b % 32 = 0
    rw [hpayload]
  · show store_block_payload_size b ≤ 16256
    rw [hpayload]
  · show (b.data.drop 128).length = store_block_payload_size b
    rw [hpayload, hdata]

theorem counter_valid_advance (it : libvshadow_blocks_iterator_internal)
    (d : libvshadow_block_descriptor) (hinv : blocks_iterator_counter_valid it)
    (h32 : 32 ≤ it.block_size) :
    (blocks_iterator_advance it d).block_size = it.block_size - 32 ∧
    blocks_iterator_counter_valid (blocks_iterator_advance it d) ∧
    32 ≤ it.block_data.length ∧ it.block_size / 32 ≤ 508 := by
  obtain ⟨hmod, hle, hlen⟩ := hinv
  have hafter : block_size_after_entry it.block_size = it.block_size - 32 :=
    block_size_after_entry_eq it.block_size h32 (by omega)
  refine ⟨hafter, ⟨?_, ?_, ?_⟩, by omega, by omega⟩
  · show block_size_after_entry it.block_size % 32 = 0
    omega
  · show block_size_after_entry it.block_size ≤ 16256
    omega
  · show (it.block_data.drop 32).length = block_size_after_entry it.block_size
    rw [List.length_drop]
    omega

theorem counter_valid_expose (it : libvshadow_blocks_iterator_internal)
    (d : libvshadow_block_descriptor) (hinv : blocks_iterator_counter_valid it)
    (h32 : 32 ≤ it.block_size) :
    blocks_iterator_counter_valid (blocks_iterator_expose it d) := by
  obtain ⟨hmod, hle, hlen⟩ := hinv
  have hafter : block_size_after_entry it.block_size = it.block_size - 32 :=
    block_size_after_entry_eq it.block_size h32 (by omega)
  refine ⟨?_, ?_, ?_⟩
  · show block_size_after_entry it.block_size % 32 = 0
    omega
  · show block_size_after_entry it.block_size ≤ 16256
    omega
  · show (it.block_data.drop 32).length = block_size_after_entry it.block_size
    rw [List.length_drop]
    omega

/-- Every iterator that the loop returns has a valid counter, when the loop is
entered with a valid counter and every store block read has 16 384 bytes. -/
theorem next_loop_keeps_counter_valid (read_block : store_block_read_fn)
    (read_data : block_descriptor_read_data_fn)
    (hworld : ∀ file_io_handle offset b, read_block file_io_handle offset = some b →
      b.data_size = 16384 ∧ b.data.length = 16384) :
    ∀ (fuel : Nat) (it : libvshadow_blocks_iterator_internal) (reads : List Int),
      blocks_iterator_counter_valid it →
      ∀ it' reads', blocks_iterator_next_loop read_block read_data fuel it reads =
        .returned (some it') reads' → blocks_iterator_counter_valid it' := by
  intro fuel
  induction fuel with
  | zero =>
    intro it reads _ it' reads' h
    simp [blocks_iterator_next_loop] at h
  | succ f ih =>
    intro it reads hinv it' reads' h
    rw [blocks_iterator_next_loop] at h
    split at h
    · split at h
      · simp at h
      · split at h
        · simp at h
        · split at h
          · simp at h
          · rename_i b hread
            split at h
            · simp at h
            · exact ih _ _ (counter_valid_load it b (hworld _ _ b hread).1
                (hworld _ _ b hread).2).2 it' reads' h
    · rename_i hge
      have h32 : 32 ≤ it.block_size := by
        unfold sizeof_vshadow_store_block_list_entry at hge
        omega
      split at h
      · simp at h
      · rename_i d hd
        split at h
        · simp at h
        · split at h
          · simp only [blocks_iterator_outcome.returned.injEq, Option.some.injEq] at h
            rw [← h.1]
            exact counter_valid_expose it _ hinv h32
          · exact ih _ _ (counter_valid_advance it _ hinv h32).2.1 it' reads' h

/-- The loop hands to the entry decoder only entries that lie wholly inside the
payload: two decoders that agree on every such entry give the same outcome. -/
theorem next_loop_decodes_inside_payload (read_block : store_block_read_fn)
    (read_data read_data' : block_descriptor_read_data_fn)
    (hworld : ∀ file_io_handle offset b, read_block file_io_handle offset = some b →
      b.data_size = 16384 ∧ b.data.length = 16384)
    (hagree : ∀ d data size index, 32 ≤ size → size ≤ 16256 → size % 32 = 0 →
      data.length = size → read_data d data size index = read_data' d data size index) :
    ∀ (fuel : Nat) (it : libvshadow_blocks_iterator_internal) (reads : List Int),
      blocks_iterator_counter_valid it →
      blocks_iterator_next_loop read_block read_data fuel it reads =
        blocks_iterator_next_loop read_block read_data' fuel it reads := by
  intro fuel
  induction fuel with
  | zero =>
    intro it reads _
    rfl
  | succ f ih =>
    intro it reads hinv
    rw [blocks_iterator_next_loop, blocks_iterator_next_loop]
    by_cases hlt : it.block_size < sizeof_vshadow_store_block_list_entry
    · rw [if_pos hlt, if_pos hlt]
      by_cases hnext : it.next_offset = 0
      · rw [if_pos hnext, if_pos hnext]
      · rw [if_neg hnext, if_neg hnext]
        cases hold : it.store_block with
        | none => rfl
        | some old =>
          dsimp only
          cases hread : read_block it.file_io_handle it.next_offset with
          | none => rfl
          | some b =>
            dsimp only
            by_cases htype : b.record_type ≠ LIBVSHADOW_RECORD_TYPE_STORE_INDEX
            · rw [if_pos htype, if_pos htype]
            · rw [if_neg htype, if_neg htype]
              exact ih _ _ (counter_valid_load it b (hworld _ _ b hread).1
                (hworld _ _ b hread).2).2
    · rw [if_neg hlt, if_neg hlt]
      have h32 : 32 ≤ it.block_size := by
        unfold sizeof_vshadow_store_block_list_entry at hlt
        omega
      cases hd : it.block_descriptor with
      | none => rfl
      | some d =>
        dsimp only
        rw [← hagree d it.block_data it.block_size it.store_descriptor.index h32 hinv.2.1
          hinv.1 hinv.2.2]
        by_cases hfail : (read_data d it.block_data it.block_size
            it.store_descriptor.index).1 = -1
        · rw [if_pos hfail, if_pos hfail]
        · rw [if_neg hfail, if_neg hfail]
          by_cases hdata : (read_data d it.block_data it.block_size
              it.store_descriptor.index).1 ≠ 0
          · rw [if_pos hdata, if_pos hdata]
          · rw [if_neg hdata, if_neg hdata]
            exact ih _ _ (counter_valid_advance it _ hinv h32).2.1

theorem image_zero_then_entry_blocks (file_io_handle : Nat) (offset : Int)
    (b : libvshadow_store_block)
    (h : image_zero_then_entry file_io_handle offset = some b) :
    b.data_size = 16384 ∧ b.data.length = 16384 := by
  unfold image_zero_then_entry at h
  split_ifs at h
  simp only [Option.some.injEq] at h
  subst h
  refine ⟨rfl, ?_⟩
  have hp : (List.replicate 32 0 ++ block_list_entry_bytes 16384 1048576).length = 64 := by
    rw [List.length_append, List.length_replicate]
    rfl
  show (List.replicate 128 0 ++ (List.replicate 32 0 ++ block_list_entry_bytes 16384 1048576) ++
    List.replicate
      (16256 - (List.replicate 32 0 ++ block_list_entry_bytes 16384 1048576).length) 0).length =
    16384
  rw [List.length_append, List.length_append, List.length_replicate, List.length_replicate, hp]

/-- C23: with 16 384-byte store blocks and the 128-byte block header, the
iterator's remaining-payload counter, a `uint16_t`, is 16256 after each block
load; it stays a multiple of 32 and within the payload; the decrement of
line 301, made only when the counter is at least 32, subtracts exactly 32 and
does not wrap; at most 508 entries remain to be decoded in a block; and every
entry handed to the decoder lies wholly inside the block's payload (the loop's
outcome depends on the decoder only through such entries).  The counter is
valid in every iterator that the loop returns. -/
theorem blocks_iterator_counter_stays_in_payload (read_block : store_block_read_fn)
    (read_data : block_descriptor_read_data_fn) (it : libvshadow_blocks_iterator_internal)
    (hworld : ∀ file_io_handle offset b, read_block file_io_handle offset = some b →
      b.data_size = 16384 ∧ b.data.length = 16384)
    (hinv : blocks_iterator_counter_valid it) :
    (∀ file_io_handle offset b, read_block file_io_handle offset = some b →
      (blocks_iterator_load it b).block_size = 16256 ∧
      blocks_iterator_counter_valid (blocks_iterator_load it b)) ∧
    (32 ≤ it.block_size → ∀ d,
      (blocks_iterator_advance it d).block_size = it.block_size - 32 ∧
      blocks_iterator_counter_valid (blocks_iterator_advance it d) ∧
      blocks_iterator_counter_valid (blocks_iterator_expose it d) ∧
      32 ≤ it.block_data.length ∧ it.block_size / 32 ≤ 508) ∧
    (∀ fuel reads it' reads',
      blocks_iterator_next_loop read_block read_data fuel it reads =
        .returned (some it') reads' → blocks_iterator_counter_valid it') ∧
    (∀ read_data' : block_descriptor_read_data_fn,
      (∀ d data size index, 32 ≤ size → size ≤ 16256 → size % 32 = 0 →
        data.length = size → read_data d data size index = read_data' d data size index) →
      ∀ fuel reads,
        blocks_iterator_next_loop read_block read_data fuel it reads =
          blocks_iterator_next_loop read_block read_data' fuel it reads) := by
  refine ⟨?_, ?_, ?_, ?_⟩
  · intro file_io_handle offset b hread
    exact counter_valid_load it b (hworld _ _ b hread).1 (hworld _ _ b hread).2
  · intro h32 d
    obtain ⟨h1, h2, h3, h4⟩ := counter_valid_advance it d hinv h32
    exact ⟨h1, h2, counter_valid_expose it d hinv h32, h3, h4⟩
  · intro fuel reads it' reads' h
    exact next_loop_keeps_counter_valid read_block read_data hworld fuel it reads hinv
      it' reads' h
  · intro read_data' hagree fuel reads
    exact next_loop_decodes_inside_payload read_block read_data read_data' hworld hagree
      fuel it reads hinv

/-- Witness of C23: the iterator created for `descriptor_100` on the image that
holds `block_zero_then_entry`; after the load of that block the counter is
16256. -/
theorem blocks_iterator_counter_stays_in_payload_witness :
    (∀ file_io_handle offset b, image_zero_then_entry file_io_handle offset = some b →
      b.data_size = 16384 ∧ b.data.length = 16384) ∧
    blocks_iterator_counter_valid (blocks_iterator_created descriptor_100 1) ∧
    image_zero_then_entry 1 16384 = some block_zero_then_entry ∧
    ((blocks_iterator_load (blocks_iterator_created descriptor_100 1)
        block_zero_then_entry).block_size = 16256 ∧
      blocks_iterator_counter_valid
        (blocks_iterator_load (blocks_iterator_created descriptor_100 1)
          block_zero_then_entry)) :=
  ⟨image_zero_then_entry_blocks, ⟨rfl, by decide, rfl⟩, rfl,
    (blocks_iterator_counter_stays_in_payload image_zero_then_entry
      libvshadow_block_descriptor_read_data (blocks_iterator_created descriptor_100 1)
      image_zero_then_entry_blocks ⟨rfl, by decide, rfl⟩).1 1 16384 block_zero_then_entry rfl⟩

/-! ## Store blocks iterator: termination and block reads on a finite chain -/

theorem chain_offsets_length (offset : Int) (blocks : List libvshadow_store_block) :
    (chain_offsets offset blocks).length = blocks.length := by
  induction blocks generalizing offset with
  | nil => rfl
  | cons b rest ih =>
    show (chain_offsets b.next_offset rest).length + 1 = rest.length + 1
    rw [ih]

theorem store_block_chain_links (read_block : store_block_read_fn) (file_io_handle : Nat) :
    ∀ (blocks : List libvshadow_store_block) (offset : Int),
      store_block_chain read_block file_io_handle offset blocks →
      store_block_links read_block file_io_handle offset blocks := by
  intro blocks
  induction blocks with
  | nil => intro offset h; exact h
  | cons b rest ih =>
    intro offset h
    exact ⟨h.1, h.2.1, ih _ h.2.2.2⟩

/-- A failing decode of an entry makes the call return `NULL` without a block
read. -/
theorem next_loop_decode_error (read_block : store_block_read_fn)
    (read_data : block_descriptor_read_data_fn) (fuel : Nat)
    (it : libvshadow_blocks_iterator_internal) (reads : List Int)
    (d : libvshadow_block_descriptor)
    (hsize : 32 ≤ it.block_size) (hd : it.block_descriptor = some d)
    (herr : (read_data d it.block_data it.block_size it.store_descriptor.index).1 = -1) :
    blocks_iterator_next_loop read_block read_data (fuel + 1) it reads =
      .returned none reads := by
  have h1 : ¬ it.block_size < 32 := not_lt.mpr hsize
  simp only [blocks_iterator_next_loop, sizeof_vshadow_store_block_list_entry, h1, hd, herr,
    if_false, if_true]

/-- Without a block descriptor the call returns `NULL` without a block read. -/
theorem next_loop_no_descriptor (read_block : store_block_read_fn)
    (read_data : block_descriptor_read_data_fn) (fuel : Nat)
    (it : libvshadow_blocks_iterator_internal) (reads : List Int)
    (hsize : 32 ≤ it.block_size) (hd : it.block_descriptor = none) :
    blocks_iterator_next_loop read_block read_data (fuel + 1) it reads =
      .returned none reads := by
  have h1 : ¬ it.block_size < 32 := not_lt.mpr hsize
  simp only [blocks_iterator_next_loop, sizeof_vshadow_store_block_list_entry, h1, hd,
    if_false]

/-- Without a store block to read into, the read of the next block fails and
the call returns `NULL`. -/
theorem next_loop_no_store_block (read_block : store_block_read_fn)
    (read_data : block_descriptor_read_data_fn) (fuel : Nat)
    (it : libvshadow_blocks_iterator_internal) (reads : List Int)
    (hsize : it.block_size < 32) (hnext : it.next_offset ≠ 0)
    (hold : it.store_block = none) :
    blocks_iterator_next_loop read_block read_data (fuel + 1) it reads =
      .returned none (reads ++ [it.next_offset]) := by
  simp only [blocks_iterator_next_loop, sizeof_vshadow_store_block_list_entry, hsize, hnext,
    hold, if_true, if_false]

/-- The first call of an iteration that reaches `NULL` has returned, and its
block reads open the block reads of the whole iteration. -/
theorem collect_reads_first_call (read_block : store_block_read_fn)
    (read_data : block_descriptor_read_data_fn) (fuel calls : Nat)
    (outcome : blocks_iterator_outcome) (all : List Int)
    (h : blocks_iterator_collect_reads read_block read_data fuel calls outcome = some all) :
    ∃ iterator reads, outcome = .returned iterator reads ∧ reads <+: all := by
  cases calls with
  | zero => simp [blocks_iterator_collect_reads] at h
  | succ m =>
    cases outcome with
    | out_of_fuel reads => simp [blocks_iterator_collect_reads] at h
    | returned iterator reads =>
      refine ⟨iterator, reads, rfl, ?_⟩
      cases iterator with
      | none =>
        simp only [blocks_iterator_collect_reads, Option.some.injEq] at h
        rw [h]
      | some it =>
        simp only [blocks_iterator_collect_reads, Option.map_eq_some'] at h
        obtain ⟨later, _, hlater⟩ := h
        rw [← hlater]
        exact List.prefix_append reads later

/-- Within a block: if the block reads of an iteration stay within the chain
whenever the current block is exhausted, they do so from every position of a
block. -/
theorem blocks_iterator_reads_in_block (read_block : store_block_read_fn)
    (read_data : block_descriptor_read_data_fn) (rest : List libvshadow_store_block)
    (hbase : ∀ it : libvshadow_blocks_iterator_internal, it.block_size < 2 ^ 16 →
      store_block_links read_block it.file_io_handle it.next_offset rest →
      it.block_size / 32 = 0 →
      blocks_iterator_reads_within read_block read_data it
        (chain_offsets it.next_offset rest)) :
    ∀ (k : Nat) (it : libvshadow_blocks_iterator_internal), it.block_size < 2 ^ 16 →
      store_block_links read_block it.file_io_handle it.next_offset rest →
      it.block_size / 32 = k →
      blocks_iterator_reads_within read_block read_data it
        (chain_offsets it.next_offset rest) := by
  intro k
  induction k with
  | zero =>
    intro it h16 hlinks hk
    exact hbase it h16 hlinks hk
  | succ k ih =>
    intro it h16 hlinks hk
    have h32 : 32 ≤ it.block_size := by omega
    have hafter : block_size_after_entry it.block_size = it.block_size - 32 :=
      block_size_after_entry_eq it.block_size h32 h16
    rcases Option.eq_none_or_eq_some it.block_descriptor with hd | ⟨d, hd⟩
    · refine ⟨1, ?_⟩
      intro fuel _ first_fuel hfirst calls hcalls reads
      obtain ⟨f, rfl⟩ : ∃ f, first_fuel = f + 1 := ⟨first_fuel - 1, by omega⟩
      obtain ⟨m, rfl⟩ : ∃ m, calls = m + 1 := ⟨calls - 1, by omega⟩
      rw [next_loop_no_descriptor read_block read_data f it reads h32 hd]
      exact ⟨[], by simp [blocks_iterator_collect_reads], List.nil_prefix⟩
    by_cases herr : (read_data d it.block_data it.block_size it.store_descriptor.index).1 = -1
    · refine ⟨1, ?_⟩
      intro fuel _ first_fuel hfirst calls hcalls reads
      obtain ⟨f, rfl⟩ : ∃ f, first_fuel = f + 1 := ⟨first_fuel - 1, by omega⟩
      obtain ⟨m, rfl⟩ : ∃ m, calls = m + 1 := ⟨calls - 1, by omega⟩
      rw [next_loop_decode_error read_block read_data f it reads d h32 hd herr]
      exact ⟨[], by simp [blocks_iterator_collect_reads], List.nil_prefix⟩
    by_cases hempty : (read_data d it.block_data it.block_size it.store_descriptor.index).1 = 0
    · -- an empty entry: the same call goes on with the next entry
      have h16a : (blocks_iterator_advance it
          (read_data d it.block_data it.block_size it.store_descriptor.index).2).block_size
          < 2 ^ 16 := by
        show block_size_after_entry it.block_size < 2 ^ 16
        omega
      have hk1 : (blocks_iterator_advance it
          (read_data d it.block_data it.block_size it.store_descriptor.index).2).block_size / 32
          = k := by
        show block_size_after_entry it.block_size / 32 = k
        omega
      obtain ⟨enough, henough⟩ := ih _ h16a hlinks hk1
      refine ⟨enough + 1, ?_⟩
      intro fuel hfuel first_fuel hfirst calls hcalls reads
      obtain ⟨f, rfl⟩ : ∃ f, first_fuel = f + 1 := ⟨first_fuel - 1, by omega⟩
      rw [next_loop_skip read_block read_data f it reads d h32 hd hempty]
      exact henough fuel (by omega) f (by omega) calls (by omega) reads
    · -- a non-empty entry: the call returns and the next call goes on
      have h16a : (blocks_iterator_expose it
          (read_data d it.block_data it.block_size it.store_descriptor.index).2).block_size
          < 2 ^ 16 := by
        show block_size_after_entry it.block_size < 2 ^ 16
        omega
      have hk1 : (blocks_iterator_expose it
          (read_data d it.block_data it.block_size it.store_descriptor.index).2).block_size / 32
          = k := by
        show block_size_after_entry it.block_size / 32 = k
        omega
      obtain ⟨enough, henough⟩ := ih _ h16a hlinks hk1
      refine ⟨enough + 1, ?_⟩
      intro fuel hfuel first_fuel hfirst calls hcalls reads
      obtain ⟨f, rfl⟩ : ∃ f, first_fuel = f + 1 := ⟨first_fuel - 1, by omega⟩
      obtain ⟨m, rfl⟩ : ∃ m, calls = m + 1 := ⟨calls - 1, by omega⟩
      rw [next_loop_yield read_block read_data f it reads d h32 hd herr hempty]
      obtain ⟨new, hnew, hpre⟩ := henough fuel (by omega) fuel (by omega) m (by omega) []
      refine ⟨new, ?_, hpre⟩
      simp only [blocks_iterator_collect_reads, libvshadow_store_blocks_iterator_next]
      rw [hnew]
      rfl

/-- Across blocks: from every position of a block of a finite chain, every call
of the iteration returns and the block reads of the whole iteration are the
offsets of the first so many of the blocks still to be read. -/
theorem blocks_iterator_reads_chain (read_block : store_block_read_fn)
    (read_data : block_descriptor_read_data_fn) :
    ∀ (rest : List libvshadow_store_block) (k : Nat)
      (it : libvshadow_blocks_iterator_internal), it.block_size < 2 ^ 16 →
      store_block_links read_block it.file_io_handle it.next_offset rest →
      it.block_size / 32 = k →
      blocks_iterator_reads_within read_block read_data it
        (chain_offsets it.next_offset rest) := by
  intro rest
  induction rest with
  | nil =>
    apply blocks_iterator_reads_in_block read_block read_data []
    intro it _ hlinks hk
    have hsize : it.block_size < 32 := by omega
    refine ⟨1, ?_⟩
    intro fuel _ first_fuel hfirst calls hcalls reads
    obtain ⟨f, rfl⟩ : ∃ f, first_fuel = f + 1 := ⟨first_fuel - 1, by omega⟩
    obtain ⟨m, rfl⟩ : ∃ m, calls = m + 1 := ⟨calls - 1, by omega⟩
    rw [next_loop_end read_block read_data f it reads hsize hlinks]
    exact ⟨[], by simp [blocks_iterator_collect_reads], List.nil_prefix⟩
  | cons b rest ih =>
    apply blocks_iterator_reads_in_block read_block read_data (b :: rest)
    intro it _ hlinks hk
    obtain ⟨hnext, hread, hchain⟩ := hlinks
    have hsize : it.block_size < 32 := by omega
    have hone : [it.next_offset] <+: chain_offsets it.next_offset (b :: rest) :=
      List.prefix_append [it.next_offset] (chain_offsets b.next_offset rest)
    rcases Option.eq_none_or_eq_some it.store_block with hold | ⟨old, hold⟩
    · refine ⟨1, ?_⟩
      intro fuel _ first_fuel hfirst calls hcalls reads
      obtain ⟨f, rfl⟩ : ∃ f, first_fuel = f + 1 := ⟨first_fuel - 1, by omega⟩
      obtain ⟨m, rfl⟩ : ∃ m, calls = m + 1 := ⟨calls - 1, by omega⟩
      rw [next_loop_no_store_block read_block read_data f it reads hsize hnext hold]
      exact ⟨[it.next_offset], rfl, hone⟩
    by_cases htype : b.record_type = LIBVSHADOW_RECORD_TYPE_STORE_INDEX
    · obtain ⟨enough, henough⟩ := ih (store_block_payload_size b / 32)
        (blocks_iterator_load it b) (store_block_payload_size_lt b) hchain rfl
      refine ⟨enough + 1, ?_⟩
      intro fuel hfuel first_fuel hfirst calls hcalls reads
      obtain ⟨f, rfl⟩ : ∃ f, first_fuel = f + 1 := ⟨first_fuel - 1, by omega⟩
      rw [next_loop_load read_block read_data f it reads old b hsize hnext hold hread htype]
      obtain ⟨new, hnew, hpre⟩ := henough fuel (by omega) f (by omega) calls (by omega)
        (reads ++ [it.next_offset])
      refine ⟨it.next_offset :: new, ?_, ?_⟩
      · rw [hnew, List.append_assoc]
        rfl
      · exact (List.prefix_cons_inj it.next_offset).mpr hpre
    · refine ⟨1, ?_⟩
      intro fuel _ first_fuel hfirst calls hcalls reads
      obtain ⟨f, rfl⟩ : ∃ f, first_fuel = f + 1 := ⟨first_fuel - 1, by omega⟩
      obtain ⟨m, rfl⟩ : ∃ m, calls = m + 1 := ⟨calls - 1, by omega⟩
      rw [next_loop_reject read_block read_data f it reads old b hsize hnext hold hread htype]
      exact ⟨[it.next_offset], rfl, hone⟩

/-- An iterator that a call returns is positioned on a non-empty entry: it
carries the fields of a block descriptor whose decode returned neither 0 nor
-1. -/
theorem next_loop_returns_non_empty_entry (read_block : store_block_read_fn)
    (read_data : block_descriptor_read_data_fn) :
    ∀ (fuel : Nat) (it : libvshadow_blocks_iterator_internal) (reads : List Int)
      (it' : libvshadow_blocks_iterator_internal) (reads' : List Int),
      blocks_iterator_next_loop read_block read_data fuel it reads =
        .returned (some it') reads' →
      ∃ (at_entry : libvshadow_blocks_iterator_internal) (d : libvshadow_block_descriptor),
        at_entry.block_descriptor = some d ∧ 32 ≤ at_entry.block_size ∧
        (read_data d at_entry.block_data at_entry.block_size
          at_entry.store_descriptor.index).1 ≠ 0 ∧
        (read_data d at_entry.block_data at_entry.block_size
          at_entry.store_descriptor.index).1 ≠ -1 ∧
        it' = blocks_iterator_expose at_entry
          (read_data d at_entry.block_data at_entry.block_size
            at_entry.store_descriptor.index).2 := by
  intro fuel
  induction fuel with
  | zero =>
    intro it reads it' reads' h
    simp [blocks_iterator_next_loop] at h
  | succ fuel ih =>
    intro it reads it' reads' h
    by_cases hsize : it.block_size < 32
    · by_cases hnext : it.next_offset = 0
      · rw [next_loop_end read_block read_data fuel it reads hsize hnext] at h
        simp at h
      · rcases Option.eq_none_or_eq_some it.store_block with hold | ⟨old, hold⟩
        · rw [next_loop_no_store_block read_block read_data fuel it reads hsize hnext hold] at h
          simp at h
        · rcases Option.eq_none_or_eq_some (read_block it.file_io_handle it.next_offset)
            with hread | ⟨b, hread⟩
          · simp only [blocks_iterator_next_loop, sizeof_vshadow_store_block_list_entry, hsize,
              hnext, hold, hread, if_true, if_false] at h
            simp at h
          · by_cases htype : b.record_type = LIBVSHADOW_RECORD_TYPE_STORE_INDEX
            · rw [next_loop_load read_block read_data fuel it reads old b hsize hnext hold
                hread htype] at h
              exact ih _ _ _ _ h
            · rw [next_loop_reject read_block read_data fuel it reads old b hsize hnext hold
                hread htype] at h
              simp at h
    · have h32 : 32 ≤ it.block_size := not_lt.mp hsize
      rcases Option.eq_none_or_eq_some it.block_descriptor with hd | ⟨d, hd⟩
      · rw [next_loop_no_descriptor read_block read_data fuel it reads h32 hd] at h
        simp at h
      · by_cases herr :
            (read_data d it.block_data it.block_size it.store_descriptor.index).1 = -1
        · rw [next_loop_decode_error read_block read_data fuel it reads d h32 hd herr] at h
          simp at h
        · by_cases hempty :
              (read_data d it.block_data it.block_size it.store_descriptor.index).1 = 0
          · rw [next_loop_skip read_block read_data fuel it reads d h32 hd hempty] at h
            exact ih _ _ _ _ h
          · rw [next_loop_yield read_block read_data fuel it reads d h32 hd herr hempty] at h
            simp only [blocks_iterator_outcome.returned.injEq, Option.some.injEq] at h
            exact ⟨it, d, hd, h32, hempty, herr, h.1.symm⟩

/-- C22: for every finite chain of store blocks that starts at the store's
`store_block_list_offset` (following `next_offset` from the head reaches 0
after the blocks of the list), the iteration that starts with
`libvshadow_store_blocks_iterator_create` reaches `NULL` with every call
returning, and the offsets it passes to `libvshadow_store_block_read` are the
offsets of the first so many blocks of the chain, each once and in chain order,
hence at most one read per block.  Moreover every call of
`libvshadow_store_blocks_iterator_next` on an iterator whose remaining blocks
form a finite chain returns, given enough loop iterations, either `NULL` or the
iterator positioned on an entry whose decode was non-empty, after reading the
first so many of the remaining blocks. -/
theorem blocks_iterator_terminates_with_one_read_per_block
    (read_block : store_block_read_fn) (read_data : block_descriptor_read_data_fn)
    (s : libvshadow_internal_store) (v : libvshadow_internal_volume)
    (sd : libvshadow_store_descriptor) (blocks : List libvshadow_store_block)
    (hv : s.internal_volume = some v)
    (hsd : libcdata_array_get_entry_by_index v.store_descriptors_array
      s.store_descriptor_index = some sd)
    (hlinks : store_block_links read_block s.file_io_handle sd.store_block_list_offset
      blocks) :
    (∃ enough : Nat, ∀ fuel, enough ≤ fuel → ∀ calls, enough ≤ calls → ∃ reads,
      blocks_iterator_collect_reads read_block read_data fuel calls
        (libvshadow_store_blocks_iterator_create read_block read_data fuel (some s)) =
        some reads ∧
      reads <+: chain_offsets sd.store_block_list_offset blocks ∧
      reads.length ≤ blocks.length) ∧
    (∀ (it : libvshadow_blocks_iterator_internal) (rest : List libvshadow_store_block),
      it.block_size < 2 ^ 16 →
      store_block_links read_block it.file_io_handle it.next_offset rest →
      ∃ enough : Nat, ∀ fuel, enough ≤ fuel → ∃ result reads,
        libvshadow_store_blocks_iterator_next read_block read_data fuel it =
          .returned result reads ∧
        reads <+: chain_offsets it.next_offset rest ∧
        reads.length ≤ rest.length ∧
        (result = none ∨
          ∃ (at_entry : libvshadow_blocks_iterator_internal)
            (d : libvshadow_block_descriptor),
            at_entry.block_descriptor = some d ∧ 32 ≤ at_entry.block_size ∧
            (read_data d at_entry.block_data at_entry.block_size
              at_entry.store_descriptor.index).1 ≠ 0 ∧
            (read_data d at_entry.block_data at_entry.block_size
              at_entry.store_descriptor.index).1 ≠ -1 ∧
            result = some (blocks_iterator_expose at_entry
              (read_data d at_entry.block_data at_entry.block_size
                at_entry.store_descriptor.index).2))) := by
  constructor
  · have h16 : (blocks_iterator_created sd s.file_io_handle).block_size < 2 ^ 16 := by
      show (0 : Nat) < 2 ^ 16
      decide
    obtain ⟨enough, henough⟩ := blocks_iterator_reads_chain read_block read_data blocks _
      (blocks_iterator_created sd s.file_io_handle) h16 hlinks rfl
    refine ⟨enough, ?_⟩
    intro fuel hfuel calls hcalls
    rw [iterator_create_with_descriptor read_block read_data fuel s v sd hv hsd]
    obtain ⟨new, hnew, hpre⟩ := henough fuel hfuel fuel hfuel calls hcalls []
    refine ⟨new, ?_, hpre, ?_⟩
    · rw [hnew]
      rfl
    · have hlen := hpre.length_le
      rw [chain_offsets_length] at hlen
      exact hlen
  · intro it rest h16 hl
    obtain ⟨enough, henough⟩ := blocks_iterator_reads_chain read_block read_data rest _
      it h16 hl rfl
    refine ⟨enough + 1, ?_⟩
    intro fuel hfuel
    obtain ⟨new, hnew, hpre⟩ := henough fuel (by omega) fuel (by omega) fuel (by omega) []
    obtain ⟨result, reads, hout, hfirst⟩ := collect_reads_first_call read_block read_data
      fuel fuel _ _ hnew
    have hwithin : reads <+: chain_offsets it.next_offset rest :=
      hfirst.trans (by simpa using hpre)
    have hlen := hwithin.length_le
    rw [chain_offsets_length] at hlen
    refine ⟨result, reads, hout, hwithin, hlen, ?_⟩
    cases result with
    | none => exact Or.inl rfl
    | some it' =>
      right
      obtain ⟨at_entry, d, h1, h2, h3, h4, h5⟩ :=
        next_loop_returns_non_empty_entry read_block read_data fuel it [] it' reads hout
      exact ⟨at_entry, d, h1, h2, h3, h4, by rw [h5]⟩

/-- Witness of C22: the chain of the single block `block_zero_then_entry`. -/
theorem blocks_iterator_terminates_with_one_read_per_block_witness :
    store_at_7.internal_volume = some volume_50 ∧
    libcdata_array_get_entry_by_index volume_50.store_descriptors_array
      store_at_7.store_descriptor_index = some descriptor_100 ∧
    store_block_links image_zero_then_entry store_at_7.file_io_handle
      descriptor_100.store_block_list_offset [block_zero_then_entry] ∧
    ∃ enough : Nat, ∀ fuel, enough ≤ fuel → ∀ calls, enough ≤ calls → ∃ reads,
      blocks_iterator_collect_reads image_zero_then_entry
        libvshadow_block_descriptor_read_data fuel calls
        (libvshadow_store_blocks_iterator_create image_zero_then_entry
          libvshadow_block_descriptor_read_data fuel (some store_at_7)) = some reads ∧
      reads <+: chain_offsets descriptor_100.store_block_list_offset [block_zero_then_entry] ∧
      reads.length ≤ [block_zero_then_entry].length :=
  ⟨rfl, by decide, ⟨by decide, rfl, rfl⟩,
    (blocks_iterator_terminates_with_one_read_per_block image_zero_then_entry
      libvshadow_block_descriptor_read_data store_at_7 volume_50 descriptor_100
      [block_zero_then_entry] rfl (by decide) ⟨by decide, rfl, rfl⟩).1⟩

/-! ## Store blocks iterator: the entries of a chain and the specification's sequence -/

/-- Within a payload, the entries that the loop decodes from its moving data
pointer and counter are the non-empty ones among the 32-byte entries decoded on
their own. -/
theorem payload_entries_eq_spec (read_data : block_descriptor_read_data_fn)
    (store_index : Int) (hlocal : block_descriptor_read_data_local read_data) :
    ∀ (k : Nat) (d : libvshadow_block_descriptor) (data : List Nat) (size : Nat),
      32 * k ≤ size →
      payload_entries read_data store_index k d data size =
        (spec_first_entries k data).filterMap
          (spec_decode_block_entry read_data store_index) := by
  intro k
  induction k with
  | zero =>
    intro d data size _
    rfl
  | succ k ih =>
    intro d data size hsize
    obtain ⟨h1, h2⟩ := hlocal d data size store_index (by omega)
    have hrest := ih (read_data d data size store_index).2 (data.drop 32) (size - 32)
      (by omega)
    by_cases hempty : (read_data d data size store_index).1 = 0
    · have hspec : spec_decode_block_entry read_data store_index (data.take 32) = none := by
        unfold spec_decode_block_entry
        rw [if_pos (h1 ▸ hempty)]
      simp only [payload_entries, spec_first_entries, List.filterMap_cons, hspec, hempty,
        ne_eq, not_true_eq_false, if_false]
      exact hrest
    · have hspec : spec_decode_block_entry read_data store_index (data.take 32) =
          some (block_descriptor_exposed (read_data d data size store_index).2) := by
        unfold spec_decode_block_entry
        rw [if_neg (h1 ▸ hempty), h2 hempty]
      simp only [payload_entries, spec_first_entries, List.filterMap_cons, hspec, hempty,
        ne_eq, not_false_eq_true, if_true]
      rw [hrest]

/-- The counter after the load of a sized block is the length of the payload. -/
theorem store_block_payload_size_of_sized (b : libvshadow_store_block)
    (h : store_block_sized b) :
    store_block_payload_size b = (spec_store_block_payload b).length := by
  obtain ⟨hlen, hmin, hmax⟩ := h
  unfold store_block_payload_size spec_store_block_payload
    sizeof_vshadow_store_block_header
  rw [List.length_drop, hlen]
  omega

/-- On sized blocks, the entries that the loop decodes along a chain are the
sequence of the specification. -/
theorem chain_entries_eq_spec (read_data : block_descriptor_read_data_fn)
    (store_index : Int) (hlocal : block_descriptor_read_data_local read_data) :
    ∀ (blocks : List libvshadow_store_block) (d : libvshadow_block_descriptor),
      (∀ b ∈ blocks, store_block_sized b) →
      chain_entries read_data store_index d blocks =
        spec_chain_entries read_data store_index blocks := by
  intro blocks
  induction blocks with
  | nil =>
    intro d _
    rfl
  | cons b rest ih =>
    intro d hsized
    have hb := store_block_payload_size_of_sized b (hsized b (List.mem_cons_self b rest))
    have hrest := ih (payload_final_descriptor read_data store_index
        (store_block_payload_size b / 32) d (b.data.drop 128) (store_block_payload_size b))
      (fun b' hb' => hsized b' (List.mem_cons_of_mem b hb'))
    have hpay := payload_entries_eq_spec read_data store_index hlocal
      (store_block_payload_size b / 32) d (b.data.drop 128) (store_block_payload_size b)
      (by omega)
    show payload_entries read_data store_index (store_block_payload_size b / 32) d
          (b.data.drop 128) (store_block_payload_size b) ++
        chain_entries read_data store_index
          (payload_final_descriptor read_data store_index (store_block_payload_size b / 32) d
            (b.data.drop 128) (store_block_payload_size b)) rest =
      (spec_first_entries ((spec_store_block_payload b).length / 32)
          (spec_store_block_payload b)).filterMap
          (spec_decode_block_entry read_data store_index) ++
        spec_chain_entries read_data store_index rest
    rw [hrest, hpay, hb]
    rfl

/-- The little-endian 64-bit read looks at the first 8 bytes only. -/
theorem byte_stream_copy_uint64_take (data : List Nat) (n : Nat) (h : 8 ≤ n) :
    byte_stream_copy_to_uint64_little_endian (data.take n) =
      byte_stream_copy_to_uint64_little_endian data := by
  unfold byte_stream_copy_to_uint64_little_endian
  rw [List.take_take, Nat.min_eq_left h]

/-- The little-endian 32-bit read looks at the first 4 bytes only. -/
theorem byte_stream_copy_uint32_take (data : List Nat) (n : Nat) (h : 4 ≤ n) :
    byte_stream_copy_to_uint32_little_endian (data.take n) =
      byte_stream_copy_to_uint32_little_endian data := by
  unfold byte_stream_copy_to_uint32_little_endian
  rw [List.take_take, Nat.min_eq_left h]

/-- The modelled decoder reads an entry from its 32 bytes alone. -/
theorem block_descriptor_read_data_is_local :
    block_descriptor_read_data_local libvshadow_block_descriptor_read_data := by
  intro d data size index h32
  have h1 : ¬ size < 32 := by omega
  have h2 : ¬ (32 : Nat) < 32 := by omega
  have htake : (data.take 32).take 32 = data.take 32 := by
    rw [List.take_take, Nat.min_self]
  have hd8 : (data.take 32).drop 8 = (data.drop 8).take 24 := by
    rw [List.drop_take]
  have hd16 : (data.take 32).drop 16 = (data.drop 16).take 16 := by
    rw [List.drop_take]
  have hd24 : (data.take 32).drop 24 = (data.drop 24).take 8 := by
    rw [List.drop_take]
  have hd28 : (data.take 32).drop 28 = (data.drop 28).take 4 := by
    rw [List.drop_take]
  unfold libvshadow_block_descriptor_read_data
  simp only [h1, h2, if_false, htake]
  by_cases hz : data.take 32 = List.replicate 32 0
  · simp only [hz, if_true, ne_eq, not_true_eq_false, false_implies, and_self]
  · simp only [hz, if_false, true_and, block_descriptor_exposed, hd8, hd16, hd24, hd28]
    intro _
    rw [byte_stream_copy_uint64_take data 32 (by omega),
      byte_stream_copy_uint64_take (data.drop 8) 24 (by omega),
      byte_stream_copy_uint64_take (data.drop 16) 16 (by omega),
      byte_stream_copy_uint32_take (data.drop 24) 8 (by omega),
      byte_stream_copy_uint32_take (data.drop 28) 4 (by omega)]

/-- The block `block_of_block_list_type` has 16 384 bytes. -/
theorem block_of_block_list_type_sized : store_block_sized block_of_block_list_type := by
  have hp : (block_list_entry_bytes 16384 1048576).length = 32 := rfl
  refine ⟨?_, by decide, by decide⟩
  show (List.replicate 128 0 ++ block_list_entry_bytes 16384 1048576 ++
    List.replicate (16256 - (block_list_entry_bytes 16384 1048576).length) 0).length = 16384
  rw [List.length_append, List.length_append, List.length_replicate, List.length_replicate, hp]

/-- The block `block_zero_then_entry` has 16 384 bytes. -/
theorem block_zero_then_entry_sized : store_block_sized block_zero_then_entry := by
  obtain ⟨h1, h2⟩ := image_zero_then_entry_blocks 1 16384 block_zero_then_entry rfl
  refine ⟨by rw [h2, h1], by rw [h1]; decide, by rw [h1]; decide⟩

/-- The first entry of the payload of `block_of_block_list_type` is non-empty,
so the sequence of the specification starts with it. -/
theorem spec_chain_entries_block_list_type :
    (spec_chain_entries libvshadow_block_descriptor_read_data descriptor_100.index
      [block_of_block_list_type]).head? = some (16384, 0, 1048576, 0, 0) := by
  have hlen : (spec_store_block_payload block_of_block_list_type).length = 16256 := by
    unfold spec_store_block_payload
    rw [List.length_drop, block_of_block_list_type_sized.1]
    rfl
  have hfirst : spec_decode_block_entry libvshadow_block_descriptor_read_data
      descriptor_100.index ((spec_store_block_payload block_of_block_list_type).take 32) =
      some (16384, 0, 1048576, 0, 0) := by
    decide
  have hcount : (16256 : Nat) / 32 = 507 + 1 := by decide
  show ((spec_payload_entries (spec_store_block_payload block_of_block_list_type)).filterMap
      (spec_decode_block_entry libvshadow_block_descriptor_read_data descriptor_100.index) ++
    spec_chain_entries libvshadow_block_descriptor_read_data descriptor_100.index
      []).head? = some (16384, 0, 1048576, 0, 0)
  unfold spec_payload_entries
  rw [hlen, hcount, spec_first_entries, List.filterMap_cons, hfirst]
  rfl

/-- C14 (counterexample): the single block `block_of_block_list_type`, of the
record type `STORE_BLOCK_LIST` (5), is a finite chain that starts at the
store's `store_block_list_offset`, and the first entry of its payload is
non-empty, so the sequence of the specification starts with
`{original = 16384, offset = 1048576}`; the iteration that starts with
`libvshadow_store_blocks_iterator_create` yields no entry at all. -/
theorem blocks_iterator_misses_entries_of_other_record_type :
    store_at_7.internal_volume = some volume_50 ∧
    libcdata_array_get_entry_by_index volume_50.store_descriptors_array
      store_at_7.store_descriptor_index = some descriptor_100 ∧
    store_block_links image_block_list_type store_at_7.file_io_handle
      descriptor_100.store_block_list_offset [block_of_block_list_type] ∧
    store_block_sized block_of_block_list_type ∧
    (spec_chain_entries libvshadow_block_descriptor_read_data descriptor_100.index
      [block_of_block_list_type]).head? = some (16384, 0, 1048576, 0, 0) ∧
    blocks_iterator_collect image_block_list_type libvshadow_block_descriptor_read_data
        600 5
        (libvshadow_store_blocks_iterator_create image_block_list_type
          libvshadow_block_descriptor_read_data 600 (some store_at_7)) = some [] :=
  ⟨rfl, by decide, ⟨by decide, rfl, rfl⟩, block_of_block_list_type_sized,
    spec_chain_entries_block_list_type, by decide⟩

/-- C14 (amended): for every finite chain of store blocks that starts at the
store's `store_block_list_offset`, in which every block has the record type
`LIBVSHADOW_RECORD_TYPE_STORE_INDEX` and holds exactly its `data_size` bytes
(the 128-byte header included, the payload size a `uint16_t` value; 16 384
bytes for a store block), and for an entry decoder that does not fail on a
whole entry and reads an entry from its 32 bytes alone, the entries obtained by
`libvshadow_store_blocks_iterator_create` followed by repeated
`libvshadow_store_blocks_iterator_next`, each call given enough loop
iterations, are the sequence of the specification: the concatenation, over the
blocks in `next_offset` link order, of the non-empty 32-byte entries of each
block's payload (the bytes after the header) in payload order, each with the
original offset, relative offset, offset, flags and bitmap of its decoded block
descriptor; after them the call returns `NULL`. -/
theorem blocks_iterator_yields_spec_chain_entries
    (read_block : store_block_read_fn) (read_data : block_descriptor_read_data_fn)
    (s : libvshadow_internal_store) (v : libvshadow_internal_volume)
    (sd : libvshadow_store_descriptor) (blocks : List libvshadow_store_block)
    (hv : s.internal_volume = some v)
    (hsd : libcdata_array_get_entry_by_index v.store_descriptors_array
      s.store_descriptor_index = some sd)
    (hchain : store_block_chain read_block s.file_io_handle sd.store_block_list_offset blocks)
    (hsized : ∀ b ∈ blocks, store_block_sized b)
    (hdec : ∀ d data size index, 32 ≤ size → (read_data d data size index).1 ≠ -1)
    (hlocal : block_descriptor_read_data_local read_data) :
    ∃ enough : Nat, ∀ fuel, enough ≤ fuel → ∀ calls,
      (spec_chain_entries read_data sd.index blocks).length < calls →
      blocks_iterator_collect read_block read_data fuel calls
        (libvshadow_store_blocks_iterator_create read_block read_data fuel (some s)) =
      some (spec_chain_entries read_data sd.index blocks) := by
  have hin : blocks_iterator_in_chain read_block
      (blocks_iterator_created sd s.file_io_handle) libvshadow_block_descriptor_initialize
      blocks :=
    ⟨rfl, ⟨_, rfl⟩, (by show (0 : Nat) < 2 ^ 16; decide), hchain⟩
  have hk : (blocks_iterator_created sd s.file_io_handle).block_size / 32 = 0 := by
    show (0 : Nat) / 32 = 0
    rfl
  obtain ⟨enough, henough⟩ := blocks_iterator_collects_chain read_block read_data hdec blocks 0
    (blocks_iterator_created sd s.file_io_handle) libvshadow_block_descriptor_initialize
    hin hk
  have hspec : payload_entries read_data
        (blocks_iterator_created sd s.file_io_handle).store_descriptor.index 0
        libvshadow_block_descriptor_initialize
        (blocks_iterator_created sd s.file_io_handle).block_data
        (blocks_iterator_created sd s.file_io_handle).block_size ++
      chain_entries read_data
        (blocks_iterator_created sd s.file_io_handle).store_descriptor.index
        (payload_final_descriptor read_data
          (blocks_iterator_created sd s.file_io_handle).store_descriptor.index 0
          libvshadow_block_descriptor_initialize
          (blocks_iterator_created sd s.file_io_handle).block_data
          (blocks_iterator_created sd s.file_io_handle).block_size) blocks =
      spec_chain_entries read_data sd.index blocks := by
    show [] ++ chain_entries read_data sd.index libvshadow_block_descriptor_initialize blocks =
      spec_chain_entries read_data sd.index blocks
    rw [List.nil_append]
    exact chain_entries_eq_spec read_data sd.index hlocal blocks _ hsized
  rw [hspec] at henough
  refine ⟨enough, ?_⟩
  intro fuel hfuel calls hcalls
  rw [iterator_create_with_descriptor read_block read_data fuel s v sd hv hsd]
  exact henough fuel hfuel fuel hfuel calls hcalls []

/-- Witness of C14: the chain of the single block `block_zero_then_entry`, whose
only non-empty entry is `{original = 16384, offset = 1048576}`. -/
theorem blocks_iterator_yields_spec_chain_entries_witness :
    store_at_7.internal_volume = some volume_50 ∧
    libcdata_array_get_entry_by_index volume_50.store_descriptors_array
      store_at_7.store_descriptor_index = some descriptor_100 ∧
    store_block_chain image_zero_then_entry store_at_7.file_io_handle
      descriptor_100.store_block_list_offset [block_zero_then_entry] ∧
    (∀ b ∈ [block_zero_then_entry], store_block_sized b) ∧
    (∀ d data size index, 32 ≤ size →
      (libvshadow_block_descriptor_read_data d data size index).1 ≠ -1) ∧
    block_descriptor_read_data_local libvshadow_block_descriptor_read_data ∧
    ∃ enough : Nat, ∀ fuel, enough ≤ fuel → ∀ calls,
      (spec_chain_entries libvshadow_block_descriptor_read_data descriptor_100.index
        [block_zero_then_entry]).length < calls →
      blocks_iterator_collect image_zero_then_entry libvshadow_block_descriptor_read_data
        fuel calls
        (libvshadow_store_blocks_iterator_create image_zero_then_entry
          libvshadow_block_descriptor_read_data fuel (some store_at_7)) =
      some (spec_chain_entries libvshadow_block_descriptor_read_data descriptor_100.index
        [block_zero_then_entry]) :=
  ⟨rfl, by decide, ⟨by decide, rfl, rfl, rfl⟩,
    fun b hb => (List.mem_singleton.mp hb) ▸ block_zero_then_entry_sized,
    block_descriptor_read_data_never_fails, block_descriptor_read_data_is_local,
    blocks_iterator_yields_spec_chain_entries image_zero_then_entry
      libvshadow_block_descriptor_read_data store_at_7 volume_50 descriptor_100
      [block_zero_then_entry] rfl (by decide) ⟨by decide, rfl, rfl, rfl⟩
      (fun b hb => (List.mem_singleton.mp hb) ▸ block_zero_then_entry_sized)
      block_descriptor_read_data_never_fails block_descriptor_read_data_is_local⟩
